import Mathlib

/-!
Verification of the fritz.js client library core against its specification.

The development shallowly embeds the TypeScript source:

* `src/client/auth/user-password.ts` — the challenge-response algorithm
  (`handleChallenge`, `handleChallengeV1`, `handleChallengeV2`,
  `encodeUtf16Le`, `pbkdf2_hmac_sha256`), together with executable
  embeddings of the cryptographic primitives it calls through WebCrypto
  (MD5 per RFC 1321, SHA-256 per FIPS 180-4, HMAC per RFC 2104,
  PBKDF2 per RFC 8018).
* `src/client/index.ts` — request construction (`FritzClient.request`),
  middleware composition (`FritzClient.use`), and the response envelope
  (`FritzResponse.rawData`, `throwOnError`, `data`).
* the auth middleware (`auth`) built on `IAuthHandler`.

JavaScript strings are modelled as Lean `String` (a `charCodeAt` loop is
modelled by expanding each scalar value to its UTF-16 code units); byte
buffers are `List Nat` with each entry < 256; 32-bit arithmetic is `Nat`
arithmetic reduced `% 4294967296` where the source (or the hash standard)
wraps; thrown JavaScript exceptions are `Except JsErr`.
-/

/-! ## Bytes, words and hex -/

/-- Lowercase hex digit for a value < 16. -/
def hexDigit (n : Nat) : Char :=
  if n < 10 then Char.ofNat (48 + n) else Char.ofNat (87 + n)

/-- One byte as two lowercase hex digits. -/
def byteToHex (b : Nat) : List Char :=
  [hexDigit (b / 16), hexDigit (b % 16)]

/-- `Uint8Array.prototype.toHex`: the bytes rendered as lowercase hex. -/
def bytesToHex (bs : List Nat) : String :=
  ⟨bs.flatMap byteToHex⟩

/-- Value of one hex digit character, case-insensitive; `none` on a
non-hex character. -/
def hexDigitVal (c : Char) : Option Nat :=
  if 48 ≤ c.toNat ∧ c.toNat ≤ 57 then some (c.toNat - 48)
  else if 97 ≤ c.toNat ∧ c.toNat ≤ 102 then some (c.toNat - 87)
  else if 65 ≤ c.toNat ∧ c.toNat ≤ 70 then some (c.toNat - 55)
  else none

/-- `Uint8Array.fromHex` on a character list: pairs of hex digits become
bytes; an odd-length or non-hex input is rejected (the source of the
`SyntaxError` the JS builtin throws). -/
def hexCharsToBytes : List Char → Option (List Nat)
  | [] => some []
  | [_] => none
  | c1 :: c2 :: rest => do
    let h ← hexDigitVal c1
    let l ← hexDigitVal c2
    let bs ← hexCharsToBytes rest
    pure ((h * 16 + l) :: bs)

/-- Big-endian bytes of a Nat in exactly `n` bytes (length field of hash
padding). -/
def natToBytesBE (n : Nat) (v : Nat) : List Nat :=
  match n with
  | 0 => []
  | m + 1 => natToBytesBE m (v / 256) ++ [v % 256]

/-- Little-endian bytes of a Nat in exactly `n` bytes. -/
def natToBytesLE (n : Nat) (v : Nat) : List Nat :=
  match n with
  | 0 => []
  | m + 1 => v % 256 :: natToBytesLE m (v / 256)

/-- Four bytes, big-endian, to one 32-bit word. -/
def wordOfBytesBE (b0 b1 b2 b3 : Nat) : Nat :=
  ((b0 * 256 + b1) * 256 + b2) * 256 + b3

/-- Byte list to 32-bit words, big-endian (SHA-256 convention). -/
def bytesToWordsBE : List Nat → List Nat
  | b0 :: b1 :: b2 :: b3 :: rest => wordOfBytesBE b0 b1 b2 b3 :: bytesToWordsBE rest
  | _ => []

/-- Byte list to 32-bit words, little-endian (MD5 convention). -/
def bytesToWordsLE : List Nat → List Nat
  | b0 :: b1 :: b2 :: b3 :: rest => wordOfBytesBE b3 b2 b1 b0 :: bytesToWordsLE rest
  | _ => []

/-- 32-bit words back to bytes, big-endian. -/
def wordsToBytesBE (ws : List Nat) : List Nat :=
  ws.flatMap (natToBytesBE 4)

/-- 32-bit words back to bytes, little-endian. -/
def wordsToBytesLE (ws : List Nat) : List Nat :=
  ws.flatMap (natToBytesLE 4)

/-- Pointwise xor of two byte lists (used by HMAC key padding and the
PBKDF2 accumulator). -/
def zipXor : List Nat → List Nat → List Nat
  | a :: as', b :: bs' => Nat.xor a b :: zipXor as' bs'
  | _, _ => []

/-! ## MD5 (RFC 1321)

WebCrypto `crypto.subtle.digest("MD5", …)` as called by
`handleChallengeV1`. -/

/-- The 64 MD5 sine-table constants `T[i] = ⌊2³² · |sin(i+1)|⌋`. -/
def md5K : List Nat := [
  0xd76aa478, 0xe8c7b756, 0x242070db, 0xc1bdceee,
  0xf57c0faf, 0x4787c62a, 0xa8304613, 0xfd469501,
  0x698098d8, 0x8b44f7af, 0xffff5bb1, 0x895cd7be,
  0x6b901122, 0xfd987193, 0xa679438e, 0x49b40821,
  0xf61e2562, 0xc040b340, 0x265e5a51, 0xe9b6c7aa,
  0xd62f105d, 0x02441453, 0xd8a1e681, 0xe7d3fbc8,
  0x21e1cde6, 0xc33707d6, 0xf4d50d87, 0x455a14ed,
  0xa9e3e905, 0xfcefa3f8, 0x676f02d9, 0x8d2a4c8a,
  0xfffa3942, 0x8771f681, 0x6d9d6122, 0xfde5380c,
  0xa4beea44, 0x4bdecfa9, 0xf6bb4b60, 0xbebfbc70,
  0x289b7ec6, 0xeaa127fa, 0xd4ef3085, 0x04881d05,
  0xd9d4d039, 0xe6db99e5, 0x1fa27cf8, 0xc4ac5665,
  0xf4292244, 0x432aff97, 0xab9423a7, 0xfc93a039,
  0x655b59c3, 0x8f0ccc92, 0xffeff47d, 0x85845dd1,
  0x6fa87e4f, 0xfe2ce6e0, 0xa3014314, 0x4e0811a1,
  0xf7537e82, 0xbd3af235, 0x2ad7d2bb, 0xeb86d391]

/-- The MD5 per-operation left-rotation amounts. -/
def md5S : List Nat := [
  7, 12, 17, 22, 7, 12, 17, 22, 7, 12, 17, 22, 7, 12, 17, 22,
  5, 9, 14, 20, 5, 9, 14, 20, 5, 9, 14, 20, 5, 9, 14, 20,
  4, 11, 16, 23, 4, 11, 16, 23, 4, 11, 16, 23, 4, 11, 16, 23,
  6, 10, 15, 21, 6, 10, 15, 21, 6, 10, 15, 21, 6, 10, 15, 21]

/-- 32-bit left rotation. -/
def rotl32 (n x : Nat) : Nat :=
  Nat.mod (Nat.lor (Nat.shiftLeft x n) (Nat.shiftRight x (32 - n))) 4294967296

/-- One MD5 operation: round-dependent boolean function and message index,
then the rotate-and-add update of RFC 1321 §3.4. -/
def md5Op (m : List Nat) (i : Nat) (st : Nat × Nat × Nat × Nat) : Nat × Nat × Nat × Nat :=
  let (a, b, c, d) := st
  let notB := Nat.xor b 4294967295
  let notD := Nat.xor d 4294967295
  let f :=
    if i < 16 then Nat.lor (Nat.land b c) (Nat.land notB d)
    else if i < 32 then Nat.lor (Nat.land d b) (Nat.land notD c)
    else if i < 48 then Nat.xor (Nat.xor b c) d
    else Nat.xor c (Nat.lor b notD)
  let g :=
    if i < 16 then i
    else if i < 32 then (5 * i + 1) % 16
    else if i < 48 then (3 * i + 5) % 16
    else (7 * i) % 16
  let sum := Nat.mod (Nat.add (Nat.add (Nat.add f a) (md5K.getD i 0)) (m.getD g 0)) 4294967296
  (d, Nat.mod (Nat.add b (rotl32 (md5S.getD i 0) sum)) 4294967296, b, c)

/-- One MD5 block: 64 operations, then the feed-forward addition. -/
def md5Block (st : Nat × Nat × Nat × Nat) (m : List Nat) : Nat × Nat × Nat × Nat :=
  let (a0, b0, c0, d0) := st
  let (a, b, c, d) := (List.range 64).foldl (fun s i => md5Op m i s) st
  (Nat.mod (Nat.add a0 a) 4294967296, Nat.mod (Nat.add b0 b) 4294967296,
   Nat.mod (Nat.add c0 c) 4294967296, Nat.mod (Nat.add d0 d) 4294967296)

/-- MD5 padding: `0x80`, zeros to 56 mod 64, 8-byte little-endian bit
length. -/
def md5Pad (msg : List Nat) : List Nat :=
  let len := msg.length
  let zeros := (119 - len % 64) % 64
  msg ++ [0x80] ++ List.replicate zeros 0 ++ natToBytesLE 8 (len * 8)

/-- Process a padded message 16 words at a time. -/
def md5Blocks (st : Nat × Nat × Nat × Nat) : List Nat → Nat × Nat × Nat × Nat
  | w0 :: w1 :: w2 :: w3 :: w4 :: w5 :: w6 :: w7 ::
    w8 :: w9 :: w10 :: w11 :: w12 :: w13 :: w14 :: w15 :: rest =>
    md5Blocks (md5Block st [w0, w1, w2, w3, w4, w5, w6, w7, w8, w9, w10, w11, w12, w13, w14, w15]) rest
  | _ => st

/-- MD5 of a byte list: 16-byte digest. -/
def md5 (msg : List Nat) : List Nat :=
  let (a, b, c, d) :=
    md5Blocks (0x67452301, 0xefcdab89, 0x98badcfe, 0x10325476) (bytesToWordsLE (md5Pad msg))
  wordsToBytesLE [a, b, c, d]

/-! ## JavaScript string encodings -/

/-- UTF-16 code units of one Unicode scalar value (surrogate pair above
U+FFFF), the units a JS `charCodeAt` loop visits. -/
def utf16CodeUnits (c : Char) : List Nat :=
  if c.toNat < 0x10000 then [c.toNat]
  else [0xD800 + (c.toNat - 0x10000) / 0x400, 0xDC00 + (c.toNat - 0x10000) % 0x400]

/-- `encodeUtf16Le` (user-password.ts): each UTF-16 code unit as two
little-endian bytes, no byte-order mark. -/
def encodeUtf16Le (str : String) : List Nat :=
  (str.data.flatMap utf16CodeUnits).flatMap (natToBytesLE 2)

/-- UTF-8 bytes of one scalar value (RFC 3629), as `TextEncoder` emits. -/
def utf8Bytes (c : Char) : List Nat :=
  let v := c.toNat
  if v < 0x80 then [v]
  else if v < 0x800 then [0xC0 + v / 64, 0x80 + v % 64]
  else if v < 0x10000 then [0xE0 + v / 4096, 0x80 + v / 64 % 64, 0x80 + v % 64]
  else [0xF0 + v / 262144, 0x80 + v / 4096 % 64, 0x80 + v / 64 % 64, 0x80 + v % 64]

/-- `new TextEncoder().encode(…)`. -/
def utf8Encode (s : String) : List Nat :=
  s.data.flatMap utf8Bytes

/-! ## The V1 challenge path (user-password.ts) -/

/-- `handleChallengeV1`: MD5 over the UTF-16LE encoding of
`challenge + "-" + password`, appended as lowercase hex. -/
def handleChallengeV1 (challenge password : String) : String :=
  challenge ++ "-" ++ bytesToHex (md5 (encodeUtf16Le (challenge ++ "-" ++ password)))

example : handleChallengeV1 "1234567z" "äbc" = "1234567z-9e224a41eeefa284df7bb0f26c2913e2" := by decide

/-! ## SHA-256 (FIPS 180-4)

The compression function is written with the 64 rounds and 48 message
schedule extensions laid out explicitly (one `let` per word of FIPS
180-4 §6.2.2), which keeps kernel evaluation of the PBKDF2 test vector
tractable. -/

/-- The eight SHA-256 working variables. -/
structure Sha256State where
  a : Nat
  b : Nat
  c : Nat
  d : Nat
  e : Nat
  f : Nat
  g : Nat
  h : Nat
deriving DecidableEq, Repr

/-! ### SHA-256 compression

One SHA-256 compression, FIPS 180-4 §6.2.2, with the 64 rounds and
the message schedule unrolled into a chain of per-round functions
`rnd0` … `rnd63` (one per round constant of §4.2.2) so that kernel
evaluation of the PBKDF2 test vector stays within time and stack
budgets.  Each `rnd t` takes the eight working variables `a`–`h` and the
current 16-word schedule window `w0`–`w15`; it computes
`T₁ = h + Σ₁(e) + Ch(e,f,g) + K_t + w0` and `T₂ = Σ₀(a) + Maj(a,b,c)`,
rotates the working variables, slides the window and appends the next
schedule word `σ₁(w[t-2]) + w[t-7] + σ₀(w[t-15]) + w[t-16]`.  The
rotations `ROTR^n x = (x >>> n) ||| (x <<< (32-n))` and the Σ/σ xors
are left unmasked: their bits at positions ≥ 32 are garbage, but every
consumer folds them into a sum that is reduced `% 2^32` (`T₁`, `T₂` and
the schedule sum), which annihilates exactly those bits, so all stored
words stay correct 32-bit values.  The test vectors below
(`sha256_empty_vector`, `pbkdf2_rfc_vector`, …) pin the whole pipeline
against published digests. -/
/-- Final feed-forward of FIPS 180-4 §6.2.2 step 4. -/
def rndFin (pa pb pc pd pe pf pg ph a b c d e f g h _w0 _w1 _w2 _w3 _w4 _w5 _w6 _w7 _w8 _w9 _w10 _w11 _w12 _w13 _w14 _w15 : Nat) : Sha256State :=
  ⟨Nat.mod (Nat.add pa a) 4294967296, Nat.mod (Nat.add pb b) 4294967296,
   Nat.mod (Nat.add pc c) 4294967296, Nat.mod (Nat.add pd d) 4294967296,
   Nat.mod (Nat.add pe e) 4294967296, Nat.mod (Nat.add pf f) 4294967296,
   Nat.mod (Nat.add pg g) 4294967296, Nat.mod (Nat.add ph h) 4294967296⟩

def rnd63 (pa pb pc pd pe pf pg ph a b c d e f g h w0 w1 w2 w3 w4 w5 w6 w7 w8 w9 w10 w11 w12 w13 w14 w15 : Nat) : Sha256State :=
  let t1 := (Nat.add (Nat.add (Nat.add (Nat.add h (Nat.xor (Nat.xor (Nat.lor (Nat.shiftRight e 6) (Nat.shiftLeft e 26)) (Nat.lor (Nat.shiftRight e 11) (Nat.shiftLeft e 21))) (Nat.lor (Nat.shiftRight e 25) (Nat.shiftLeft e 7)))) (Nat.xor (Nat.land e f) (Nat.land (Nat.xor e 4294967295) g))) 3329325298) w0)
  rndFin pa pb pc pd pe pf pg ph
    (Nat.mod (Nat.add t1 (Nat.add (Nat.xor (Nat.xor (Nat.lor (Nat.shiftRight a 2) (Nat.shiftLeft a 30)) (Nat.lor (Nat.shiftRight a 13) (Nat.shiftLeft a 19))) (Nat.lor (Nat.shiftRight a 22) (Nat.shiftLeft a 10))) (Nat.xor (Nat.xor (Nat.land a b) (Nat.land a c)) (Nat.land b c)))) 4294967296) a b c
    (Nat.mod (Nat.add d t1) 4294967296) e f g
    w1 w2 w3 w4 w5 w6 w7 w8 w9 w10 w11 w12 w13 w14 w15
    (Nat.mod (Nat.add (Nat.add (Nat.add w0 (Nat.xor (Nat.xor (Nat.lor (Nat.shiftRight w1 7) (Nat.shiftLeft w1 25)) (Nat.lor (Nat.shiftRight w1 18) (Nat.shiftLeft w1 14))) (Nat.shiftRight w1 3))) w9) (Nat.xor (Nat.xor (Nat.lor (Nat.shiftRight w14 17) (Nat.shiftLeft w14 15)) (Nat.lor (Nat.shiftRight w14 19) (Nat.shiftLeft w14 13))) (Nat.shiftRight w14 10))) 4294967296)

def rnd62 (pa pb pc pd pe pf pg ph a b c d e f g h w0 w1 w2 w3 w4 w5 w6 w7 w8 w9 w10 w11 w12 w13 w14 w15 : Nat) : Sha256State :=
  let t1 := (Nat.add (Nat.add (Nat.add (Nat.add h (Nat.xor (Nat.xor (Nat.lor (Nat.shiftRight e 6) (Nat.shiftLeft e 26)) (Nat.lor (Nat.shiftRight e 11) (Nat.shiftLeft e 21))) (Nat.lor (Nat.shiftRight e 25) (Nat.shiftLeft e 7)))) (Nat.xor (Nat.land e f) (Nat.land (Nat.xor e 4294967295) g))) 3204031479) w0)
  rnd63 pa pb pc pd pe pf pg ph
    (Nat.mod (Nat.add t1 (Nat.add (Nat.xor (Nat.xor (Nat.lor (Nat.shiftRight a 2) (Nat.shiftLeft a 30)) (Nat.lor (Nat.shiftRight a 13) (Nat.shiftLeft a 19))) (Nat.lor (Nat.shiftRight a 22) (Nat.shiftLeft a 10))) (Nat.xor (Nat.xor (Nat.land a b) (Nat.land a c)) (Nat.land b c)))) 4294967296) a b c
    (Nat.mod (Nat.add d t1) 4294967296) e f g
    w1 w2 w3 w4 w5 w6 w7 w8 w9 w10 w11 w12 w13 w14 w15
    (Nat.mod (Nat.add (Nat.add (Nat.add w0 (Nat.xor (Nat.xor (Nat.lor (Nat.shiftRight w1 7) (Nat.shiftLeft w1 25)) (Nat.lor (Nat.shiftRight w1 18) (Nat.shiftLeft w1 14))) (Nat.shiftRight w1 3))) w9) (Nat.xor (Nat.xor (Nat.lor (Nat.shiftRight w14 17) (Nat.shiftLeft w14 15)) (Nat.lor (Nat.shiftRight w14 19) (Nat.shiftLeft w14 13))) (Nat.shiftRight w14 10))) 4294967296)

def rnd61 (pa pb pc pd pe pf pg ph a b c d e f g h w0 w1 w2 w3 w4 w5 w6 w7 w8 w9 w10 w11 w12 w13 w14 w15 : Nat) : Sha256State :=
  let t1 := (Nat.add (Nat.add (Nat.add (Nat.add h (Nat.xor (Nat.xor (Nat.lor (Nat.shiftRight e 6) (Nat.shiftLeft e 26)) (Nat.lor (Nat.shiftRight e 11) (Nat.shiftLeft e 21))) (Nat.lor (Nat.shiftRight e 25) (Nat.shiftLeft e 7)))) (Nat.xor (Nat.land e f) (Nat.land (Nat.xor e 4294967295) g))) 2756734187) w0)
  rnd62 pa pb pc pd pe pf pg ph
    (Nat.mod (Nat.add t1 (Nat.add (Nat.xor (Nat.xor (Nat.lor (Nat.shiftRight a 2) (Nat.shiftLeft a 30)) (Nat.lor (Nat.shiftRight a 13) (Nat.shiftLeft a 19))) (Nat.lor (Nat.shiftRight a 22) (Nat.shiftLeft a 10))) (Nat.xor (Nat.xor (Nat.land a b) (Nat.land a c)) (Nat.land b c)))) 4294967296) a b c
    (Nat.mod (Nat.add d t1) 4294967296) e f g
    w1 w2 w3 w4 w5 w6 w7 w8 w9 w10 w11 w12 w13 w14 w15
    (Nat.mod (Nat.add (Nat.add (Nat.add w0 (Nat.xor (Nat.xor (Nat.lor (Nat.shiftRight w1 7) (Nat.shiftLeft w1 25)) (Nat.lor (Nat.shiftRight w1 18) (Nat.shiftLeft w1 14))) (Nat.shiftRight w1 3))) w9) (Nat.xor (Nat.xor (Nat.lor (Nat.shiftRight w14 17) (Nat.shiftLeft w14 15)) (Nat.lor (Nat.shiftRight w14 19) (Nat.shiftLeft w14 13))) (Nat.shiftRight w14 10))) 4294967296)

def rnd60 (pa pb pc pd pe pf pg ph a b c d e f g h w0 w1 w2 w3 w4 w5 w6 w7 w8 w9 w10 w11 w12 w13 w14 w15 : Nat) : Sha256State :=
  let t1 := (Nat.add (Nat.add (Nat.add (Nat.add h (Nat.xor (Nat.xor (Nat.lor (Nat.shiftRight e 6) (Nat.shiftLeft e 26)) (Nat.lor (Nat.shiftRight e 11) (Nat.shiftLeft e 21))) (Nat.lor (Nat.shiftRight e 25) (Nat.shiftLeft e 7)))) (Nat.xor (Nat.land e f) (Nat.land (Nat.xor e 4294967295) g))) 2428436474) w0)
  rnd61 pa pb pc pd pe pf pg ph
    (Nat.mod (Nat.add t1 (Nat.add (Nat.xor (Nat.xor (Nat.lor (Nat.shiftRight a 2) (Nat.shiftLeft a 30)) (Nat.lor (Nat.shiftRight a 13) (Nat.shiftLeft a 19))) (Nat.lor (Nat.shiftRight a 22) (Nat.shiftLeft a 10))) (Nat.xor (Nat.xor (Nat.land a b) (Nat.land a c)) (Nat.land b c)))) 4294967296) a b c
    (Nat.mod (Nat.add d t1) 4294967296) e f g
    w1 w2 w3 w4 w5 w6 w7 w8 w9 w10 w11 w12 w13 w14 w15
    (Nat.mod (Nat.add (Nat.add (Nat.add w0 (Nat.xor (Nat.xor (Nat.lor (Nat.shiftRight w1 7) (Nat.shiftLeft w1 25)) (Nat.lor (Nat.shiftRight w1 18) (Nat.shiftLeft w1 14))) (Nat.shiftRight w1 3))) w9) (Nat.xor (Nat.xor (Nat.lor (Nat.shiftRight w14 17) (Nat.shiftLeft w14 15)) (Nat.lor (Nat.shiftRight w14 19) (Nat.shiftLeft w14 13))) (Nat.shiftRight w14 10))) 4294967296)

def rnd59 (pa pb pc pd pe pf pg ph a b c d e f g h w0 w1 w2 w3 w4 w5 w6 w7 w8 w9 w10 w11 w12 w13 w14 w15 : Nat) : Sha256State :=
  let t1 := (Nat.add (Nat.add (Nat.add (Nat.add h (Nat.xor (Nat.xor (Nat.lor (Nat.shiftRight e 6) (Nat.shiftLeft e 26)) (Nat.lor (Nat.shiftRight e 11) (Nat.shiftLeft e 21))) (Nat.lor (Nat.shiftRight e 25) (Nat.shiftLeft e 7)))) (Nat.xor (Nat.land e f) (Nat.land (Nat.xor e 4294967295) g))) 2361852424) w0)
  rnd60 pa pb pc pd pe pf pg ph
    (Nat.mod (Nat.add t1 (Nat.add (Nat.xor (Nat.xor (Nat.lor (Nat.shiftRight a 2) (Nat.shiftLeft a 30)) (Nat.lor (Nat.shiftRight a 13) (Nat.shiftLeft a 19))) (Nat.lor (Nat.shiftRight a 22) (Nat.shiftLeft a 10))) (Nat.xor (Nat.xor (Nat.land a b) (Nat.land a c)) (Nat.land b c)))) 4294967296) a b c
    (Nat.mod (Nat.add d t1) 4294967296) e f g
    w1 w2 w3 w4 w5 w6 w7 w8 w9 w10 w11 w12 w13 w14 w15
    (Nat.mod (Nat.add (Nat.add (Nat.add w0 (Nat.xor (Nat.xor (Nat.lor (Nat.shiftRight w1 7) (Nat.shiftLeft w1 25)) (Nat.lor (Nat.shiftRight w1 18) (Nat.shiftLeft w1 14))) (Nat.shiftRight w1 3))) w9) (Nat.xor (Nat.xor (Nat.lor (Nat.shiftRight w14 17) (Nat.shiftLeft w14 15)) (Nat.lor (Nat.shiftRight w14 19) (Nat.shiftLeft w14 13))) (Nat.shiftRight w14 10))) 4294967296)

def rnd58 (pa pb pc pd pe pf pg ph a b c d e f g h w0 w1 w2 w3 w4 w5 w6 w7 w8 w9 w10 w11 w12 w13 w14 w15 : Nat) : Sha256State :=
  let t1 := (Nat.add (Nat.add (Nat.add (Nat.add h (Nat.xor (Nat.xor (Nat.lor (Nat.shiftRight e 6) (Nat.shiftLeft e 26)) (Nat.lor (Nat.shiftRight e 11) (Nat.shiftLeft e 21))) (Nat.lor (Nat.shiftRight e 25) (Nat.shiftLeft e 7)))) (Nat.xor (Nat.land e f) (Nat.land (Nat.xor e 4294967295) g))) 2227730452) w0)
  rnd59 pa pb pc pd pe pf pg ph
    (Nat.mod (Nat.add t1 (Nat.add (Nat.xor (Nat.xor (Nat.lor (Nat.shiftRight a 2) (Nat.shiftLeft a 30)) (Nat.lor (Nat.shiftRight a 13) (Nat.shiftLeft a 19))) (Nat.lor (Nat.shiftRight a 22) (Nat.shiftLeft a 10))) (Nat.xor (Nat.xor (Nat.land a b) (Nat.land a c)) (Nat.land b c)))) 4294967296) a b c
    (Nat.mod (Nat.add d t1) 4294967296) e f g
    w1 w2 w3 w4 w5 w6 w7 w8 w9 w10 w11 w12 w13 w14 w15
    (Nat.mod (Nat.add (Nat.add (Nat.add w0 (Nat.xor (Nat.xor (Nat.lor (Nat.shiftRight w1 7) (Nat.shiftLeft w1 25)) (Nat.lor (Nat.shiftRight w1 18) (Nat.shiftLeft w1 14))) (Nat.shiftRight w1 3))) w9) (Nat.xor (Nat.xor (Nat.lor (Nat.shiftRight w14 17) (Nat.shiftLeft w14 15)) (Nat.lor (Nat.shiftRight w14 19) (Nat.shiftLeft w14 13))) (Nat.shiftRight w14 10))) 4294967296)

def rnd57 (pa pb pc pd pe pf pg ph a b c d e f g h w0 w1 w2 w3 w4 w5 w6 w7 w8 w9 w10 w11 w12 w13 w14 w15 : Nat) : Sha256State :=
  let t1 := (Nat.add (Nat.add (Nat.add (Nat.add h (Nat.xor (Nat.xor (Nat.lor (Nat.shiftRight e 6) (Nat.shiftLeft e 26)) (Nat.lor (Nat.shiftRight e 11) (Nat.shiftLeft e 21))) (Nat.lor (Nat.shiftRight e 25) (Nat.shiftLeft e 7)))) (Nat.xor (Nat.land e f) (Nat.land (Nat.xor e 4294967295) g))) 2024104815) w0)
  rnd58 pa pb pc pd pe pf pg ph
    (Nat.mod (Nat.add t1 (Nat.add (Nat.xor (Nat.xor (Nat.lor (Nat.shiftRight a 2) (Nat.shiftLeft a 30)) (Nat.lor (Nat.shiftRight a 13) (Nat.shiftLeft a 19))) (Nat.lor (Nat.shiftRight a 22) (Nat.shiftLeft a 10))) (Nat.xor (Nat.xor (Nat.land a b) (Nat.land a c)) (Nat.land b c)))) 4294967296) a b c
    (Nat.mod (Nat.add d t1) 4294967296) e f g
    w1 w2 w3 w4 w5 w6 w7 w8 w9 w10 w11 w12 w13 w14 w15
    (Nat.mod (Nat.add (Nat.add (Nat.add w0 (Nat.xor (Nat.xor (Nat.lor (Nat.shiftRight w1 7) (Nat.shiftLeft w1 25)) (Nat.lor (Nat.shiftRight w1 18) (Nat.shiftLeft w1 14))) (Nat.shiftRight w1 3))) w9) (Nat.xor (Nat.xor (Nat.lor (Nat.shiftRight w14 17) (Nat.shiftLeft w14 15)) (Nat.lor (Nat.shiftRight w14 19) (Nat.shiftLeft w14 13))) (Nat.shiftRight w14 10))) 4294967296)

def rnd56 (pa pb pc pd pe pf pg ph a b c d e f g h w0 w1 w2 w3 w4 w5 w6 w7 w8 w9 w10 w11 w12 w13 w14 w15 : Nat) : Sha256State :=
  let t1 := (Nat.add (Nat.add (Nat.add (Nat.add h (Nat.xor (Nat.xor (Nat.lor (Nat.shiftRight e 6) (Nat.shiftLeft e 26)) (Nat.lor (Nat.shiftRight e 11) (Nat.shiftLeft e 21))) (Nat.lor (Nat.shiftRight e 25) (Nat.shiftLeft e 7)))) (Nat.xor (Nat.land e f) (Nat.land (Nat.xor e 4294967295) g))) 1955562222) w0)
  rnd57 pa pb pc pd pe pf pg ph
    (Nat.mod (Nat.add t1 (Nat.add (Nat.xor (Nat.xor (Nat.lor (Nat.shiftRight a 2) (Nat.shiftLeft a 30)) (Nat.lor (Nat.shiftRight a 13) (Nat.shiftLeft a 19))) (Nat.lor (Nat.shiftRight a 22) (Nat.shiftLeft a 10))) (Nat.xor (Nat.xor (Nat.land a b) (Nat.land a c)) (Nat.land b c)))) 4294967296) a b c
    (Nat.mod (Nat.add d t1) 4294967296) e f g
    w1 w2 w3 w4 w5 w6 w7 w8 w9 w10 w11 w12 w13 w14 w15
    (Nat.mod (Nat.add (Nat.add (Nat.add w0 (Nat.xor (Nat.xor (Nat.lor (Nat.shiftRight w1 7) (Nat.shiftLeft w1 25)) (Nat.lor (Nat.shiftRight w1 18) (Nat.shiftLeft w1 14))) (Nat.shiftRight w1 3))) w9) (Nat.xor (Nat.xor (Nat.lor (Nat.shiftRight w14 17) (Nat.shiftLeft w14 15)) (Nat.lor (Nat.shiftRight w14 19) (Nat.shiftLeft w14 13))) (Nat.shiftRight w14 10))) 4294967296)

def rnd55 (pa pb pc pd pe pf pg ph a b c d e f g h w0 w1 w2 w3 w4 w5 w6 w7 w8 w9 w10 w11 w12 w13 w14 w15 : Nat) : Sha256State :=
  let t1 := (Nat.add (Nat.add (Nat.add (Nat.add h (Nat.xor (Nat.xor (Nat.lor (Nat.shiftRight e 6) (Nat.shiftLeft e 26)) (Nat.lor (Nat.shiftRight e 11) (Nat.shiftLeft e 21))) (Nat.lor (Nat.shiftRight e 25) (Nat.shiftLeft e 7)))) (Nat.xor (Nat.land e f) (Nat.land (Nat.xor e 4294967295) g))) 1747873779) w0)
  rnd56 pa pb pc pd pe pf pg ph
    (Nat.mod (Nat.add t1 (Nat.add (Nat.xor (Nat.xor (Nat.lor (Nat.shiftRight a 2) (Nat.shiftLeft a 30)) (Nat.lor (Nat.shiftRight a 13) (Nat.shiftLeft a 19))) (Nat.lor (Nat.shiftRight a 22) (Nat.shiftLeft a 10))) (Nat.xor (Nat.xor (Nat.land a b) (Nat.land a c)) (Nat.land b c)))) 4294967296) a b c
    (Nat.mod (Nat.add d t1) 4294967296) e f g
    w1 w2 w3 w4 w5 w6 w7 w8 w9 w10 w11 w12 w13 w14 w15
    (Nat.mod (Nat.add (Nat.add (Nat.add w0 (Nat.xor (Nat.xor (Nat.lor (Nat.shiftRight w1 7) (Nat.shiftLeft w1 25)) (Nat.lor (Nat.shiftRight w1 18) (Nat.shiftLeft w1 14))) (Nat.shiftRight w1 3))) w9) (Nat.xor (Nat.xor (Nat.lor (Nat.shiftRight w14 17) (Nat.shiftLeft w14 15)) (Nat.lor (Nat.shiftRight w14 19) (Nat.shiftLeft w14 13))) (Nat.shiftRight w14 10))) 4294967296)

def rnd54 (pa pb pc pd pe pf pg ph a b c d e f g h w0 w1 w2 w3 w4 w5 w6 w7 w8 w9 w10 w11 w12 w13 w14 w15 : Nat) : Sha256State :=
  let t1 := (Nat.add (Nat.add (Nat.add (Nat.add h (Nat.xor (Nat.xor (Nat.lor (Nat.shiftRight e 6) (Nat.shiftLeft e 26)) (Nat.lor (Nat.shiftRight e 11) (Nat.shiftLeft e 21))) (Nat.lor (Nat.shiftRight e 25) (Nat.shiftLeft e 7)))) (Nat.xor (Nat.land e f) (Nat.land (Nat.xor e 4294967295) g))) 1537002063) w0)
  rnd55 pa pb pc pd pe pf pg ph
    (Nat.mod (Nat.add t1 (Nat.add (Nat.xor (Nat.xor (Nat.lor (Nat.shiftRight a 2) (Nat.shiftLeft a 30)) (Nat.lor (Nat.shiftRight a 13) (Nat.shiftLeft a 19))) (Nat.lor (Nat.shiftRight a 22) (Nat.shiftLeft a 10))) (Nat.xor (Nat.xor (Nat.land a b) (Nat.land a c)) (Nat.land b c)))) 4294967296) a b c
    (Nat.mod (Nat.add d t1) 4294967296) e f g
    w1 w2 w3 w4 w5 w6 w7 w8 w9 w10 w11 w12 w13 w14 w15
    (Nat.mod (Nat.add (Nat.add (Nat.add w0 (Nat.xor (Nat.xor (Nat.lor (Nat.shiftRight w1 7) (Nat.shiftLeft w1 25)) (Nat.lor (Nat.shiftRight w1 18) (Nat.shiftLeft w1 14))) (Nat.shiftRight w1 3))) w9) (Nat.xor (Nat.xor (Nat.lor (Nat.shiftRight w14 17) (Nat.shiftLeft w14 15)) (Nat.lor (Nat.shiftRight w14 19) (Nat.shiftLeft w14 13))) (Nat.shiftRight w14 10))) 4294967296)

def rnd53 (pa pb pc pd pe pf pg ph a b c d e f g h w0 w1 w2 w3 w4 w5 w6 w7 w8 w9 w10 w11 w12 w13 w14 w15 : Nat) : Sha256State :=
  let t1 := (Nat.add (Nat.add (Nat.add (Nat.add h (Nat.xor (Nat.xor (Nat.lor (Nat.shiftRight e 6) (Nat.shiftLeft e 26)) (Nat.lor (Nat.shiftRight e 11) (Nat.shiftLeft e 21))) (Nat.lor (Nat.shiftRight e 25) (Nat.shiftLeft e 7)))) (Nat.xor (Nat.land e f) (Nat.land (Nat.xor e 4294967295) g))) 1322822218) w0)
  rnd54 pa pb pc pd pe pf pg ph
    (Nat.mod (Nat.add t1 (Nat.add (Nat.xor (Nat.xor (Nat.lor (Nat.shiftRight a 2) (Nat.shiftLeft a 30)) (Nat.lor (Nat.shiftRight a 13) (Nat.shiftLeft a 19))) (Nat.lor (Nat.shiftRight a 22) (Nat.shiftLeft a 10))) (Nat.xor (Nat.xor (Nat.land a b) (Nat.land a c)) (Nat.land b c)))) 4294967296) a b c
    (Nat.mod (Nat.add d t1) 4294967296) e f g
    w1 w2 w3 w4 w5 w6 w7 w8 w9 w10 w11 w12 w13 w14 w15
    (Nat.mod (Nat.add (Nat.add (Nat.add w0 (Nat.xor (Nat.xor (Nat.lor (Nat.shiftRight w1 7) (Nat.shiftLeft w1 25)) (Nat.lor (Nat.shiftRight w1 18) (Nat.shiftLeft w1 14))) (Nat.shiftRight w1 3))) w9) (Nat.xor (Nat.xor (Nat.lor (Nat.shiftRight w14 17) (Nat.shiftLeft w14 15)) (Nat.lor (Nat.shiftRight w14 19) (Nat.shiftLeft w14 13))) (Nat.shiftRight w14 10))) 4294967296)

def rnd52 (pa pb pc pd pe pf pg ph a b c d e f g h w0 w1 w2 w3 w4 w5 w6 w7 w8 w9 w10 w11 w12 w13 w14 w15 : Nat) : Sha256State :=
  let t1 := (Nat.add (Nat.add (Nat.add (Nat.add h (Nat.xor (Nat.xor (Nat.lor (Nat.shiftRight e 6) (Nat.shiftLeft e 26)) (Nat.lor (Nat.shiftRight e 11) (Nat.shiftLeft e 21))) (Nat.lor (Nat.shiftRight e 25) (Nat.shiftLeft e 7)))) (Nat.xor (Nat.land e f) (Nat.land (Nat.xor e 4294967295) g))) 958139571) w0)
  rnd53 pa pb pc pd pe pf pg ph
    (Nat.mod (Nat.add t1 (Nat.add (Nat.xor (Nat.xor (Nat.lor (Nat.shiftRight a 2) (Nat.shiftLeft a 30)) (Nat.lor (Nat.shiftRight a 13) (Nat.shiftLeft a 19))) (Nat.lor (Nat.shiftRight a 22) (Nat.shiftLeft a 10))) (Nat.xor (Nat.xor (Nat.land a b) (Nat.land a c)) (Nat.land b c)))) 4294967296) a b c
    (Nat.mod (Nat.add d t1) 4294967296) e f g
    w1 w2 w3 w4 w5 w6 w7 w8 w9 w10 w11 w12 w13 w14 w15
    (Nat.mod (Nat.add (Nat.add (Nat.add w0 (Nat.xor (Nat.xor (Nat.lor (Nat.shiftRight w1 7) (Nat.shiftLeft w1 25)) (Nat.lor (Nat.shiftRight w1 18) (Nat.shiftLeft w1 14))) (Nat.shiftRight w1 3))) w9) (Nat.xor (Nat.xor (Nat.lor (Nat.shiftRight w14 17) (Nat.shiftLeft w14 15)) (Nat.lor (Nat.shiftRight w14 19) (Nat.shiftLeft w14 13))) (Nat.shiftRight w14 10))) 4294967296)

def rnd51 (pa pb pc pd pe pf pg ph a b c d e f g h w0 w1 w2 w3 w4 w5 w6 w7 w8 w9 w10 w11 w12 w13 w14 w15 : Nat) : Sha256State :=
  let t1 := (Nat.add (Nat.add (Nat.add (Nat.add h (Nat.xor (Nat.xor (Nat.lor (Nat.shiftRight e 6) (Nat.shiftLeft e 26)) (Nat.lor (Nat.shiftRight e 11) (Nat.shiftLeft e 21))) (Nat.lor (Nat.shiftRight e 25) (Nat.shiftLeft e 7)))) (Nat.xor (Nat.land e f) (Nat.land (Nat.xor e 4294967295) g))) 883997877) w0)
  rnd52 pa pb pc pd pe pf pg ph
    (Nat.mod (Nat.add t1 (Nat.add (Nat.xor (Nat.xor (Nat.lor (Nat.shiftRight a 2) (Nat.shiftLeft a 30)) (Nat.lor (Nat.shiftRight a 13) (Nat.shiftLeft a 19))) (Nat.lor (Nat.shiftRight a 22) (Nat.shiftLeft a 10))) (Nat.xor (Nat.xor (Nat.land a b) (Nat.land a c)) (Nat.land b c)))) 4294967296) a b c
    (Nat.mod (Nat.add d t1) 4294967296) e f g
    w1 w2 w3 w4 w5 w6 w7 w8 w9 w10 w11 w12 w13 w14 w15
    (Nat.mod (Nat.add (Nat.add (Nat.add w0 (Nat.xor (Nat.xor (Nat.lor (Nat.shiftRight w1 7) (Nat.shiftLeft w1 25)) (Nat.lor (Nat.shiftRight w1 18) (Nat.shiftLeft w1 14))) (Nat.shiftRight w1 3))) w9) (Nat.xor (Nat.xor (Nat.lor (Nat.shiftRight w14 17) (Nat.shiftLeft w14 15)) (Nat.lor (Nat.shiftRight w14 19) (Nat.shiftLeft w14 13))) (Nat.shiftRight w14 10))) 4294967296)

def rnd50 (pa pb pc pd pe pf pg ph a b c d e f g h w0 w1 w2 w3 w4 w5 w6 w7 w8 w9 w10 w11 w12 w13 w14 w15 : Nat) : Sha256State :=
  let t1 := (Nat.add (Nat.add (Nat.add (Nat.add h (Nat.xor (Nat.xor (Nat.lor (Nat.shiftRight e 6) (Nat.shiftLeft e 26)) (Nat.lor (Nat.shiftRight e 11) (Nat.shiftLeft e 21))) (Nat.lor (Nat.shiftRight e 25) (Nat.shiftLeft e 7)))) (Nat.xor (Nat.land e f) (Nat.land (Nat.xor e 4294967295) g))) 659060556) w0)
  rnd51 pa pb pc pd pe pf pg ph
    (Nat.mod (Nat.add t1 (Nat.add (Nat.xor (Nat.xor (Nat.lor (Nat.shiftRight a 2) (Nat.shiftLeft a 30)) (Nat.lor (Nat.shiftRight a 13) (Nat.shiftLeft a 19))) (Nat.lor (Nat.shiftRight a 22) (Nat.shiftLeft a 10))) (Nat.xor (Nat.xor (Nat.land a b) (Nat.land a c)) (Nat.land b c)))) 4294967296) a b c
    (Nat.mod (Nat.add d t1) 4294967296) e f g
    w1 w2 w3 w4 w5 w6 w7 w8 w9 w10 w11 w12 w13 w14 w15
    (Nat.mod (Nat.add (Nat.add (Nat.add w0 (Nat.xor (Nat.xor (Nat.lor (Nat.shiftRight w1 7) (Nat.shiftLeft w1 25)) (Nat.lor (Nat.shiftRight w1 18) (Nat.shiftLeft w1 14))) (Nat.shiftRight w1 3))) w9) (Nat.xor (Nat.xor (Nat.lor (Nat.shiftRight w14 17) (Nat.shiftLeft w14 15)) (Nat.lor (Nat.shiftRight w14 19) (Nat.shiftLeft w14 13))) (Nat.shiftRight w14 10))) 4294967296)

def rnd49 (pa pb pc pd pe pf pg ph a b c d e f g h w0 w1 w2 w3 w4 w5 w6 w7 w8 w9 w10 w11 w12 w13 w14 w15 : Nat) : Sha256State :=
  let t1 := (Nat.add (Nat.add (Nat.add (Nat.add h (Nat.xor (Nat.xor (Nat.lor (Nat.shiftRight e 6) (Nat.shiftLeft e 26)) (Nat.lor (Nat.shiftRight e 11) (Nat.shiftLeft e 21))) (Nat.lor (Nat.shiftRight e 25) (Nat.shiftLeft e 7)))) (Nat.xor (Nat.land e f) (Nat.land (Nat.xor e 4294967295) g))) 506948616) w0)
  rnd50 pa pb pc pd pe pf pg ph
    (Nat.mod (Nat.add t1 (Nat.add (Nat.xor (Nat.xor (Nat.lor (Nat.shiftRight a 2) (Nat.shiftLeft a 30)) (Nat.lor (Nat.shiftRight a 13) (Nat.shiftLeft a 19))) (Nat.lor (Nat.shiftRight a 22) (Nat.shiftLeft a 10))) (Nat.xor (Nat.xor (Nat.land a b) (Nat.land a c)) (Nat.land b c)))) 4294967296) a b c
    (Nat.mod (Nat.add d t1) 4294967296) e f g
    w1 w2 w3 w4 w5 w6 w7 w8 w9 w10 w11 w12 w13 w14 w15
    (Nat.mod (Nat.add (Nat.add (Nat.add w0 (Nat.xor (Nat.xor (Nat.lor (Nat.shiftRight w1 7) (Nat.shiftLeft w1 25)) (Nat.lor (Nat.shiftRight w1 18) (Nat.shiftLeft w1 14))) (Nat.shiftRight w1 3))) w9) (Nat.xor (Nat.xor (Nat.lor (Nat.shiftRight w14 17) (Nat.shiftLeft w14 15)) (Nat.lor (Nat.shiftRight w14 19) (Nat.shiftLeft w14 13))) (Nat.shiftRight w14 10))) 4294967296)

def rnd48 (pa pb pc pd pe pf pg ph a b c d e f g h w0 w1 w2 w3 w4 w5 w6 w7 w8 w9 w10 w11 w12 w13 w14 w15 : Nat) : Sha256State :=
  let t1 := (Nat.add (Nat.add (Nat.add (Nat.add h (Nat.xor (Nat.xor (Nat.lor (Nat.shiftRight e 6) (Nat.shiftLeft e 26)) (Nat.lor (Nat.shiftRight e 11) (Nat.shiftLeft e 21))) (Nat.lor (Nat.shiftRight e 25) (Nat.shiftLeft e 7)))) (Nat.xor (Nat.land e f) (Nat.land (Nat.xor e 4294967295) g))) 430227734) w0)
  rnd49 pa pb pc pd pe pf pg ph
    (Nat.mod (Nat.add t1 (Nat.add (Nat.xor (Nat.xor (Nat.lor (Nat.shiftRight a 2) (Nat.shiftLeft a 30)) (Nat.lor (Nat.shiftRight a 13) (Nat.shiftLeft a 19))) (Nat.lor (Nat.shiftRight a 22) (Nat.shiftLeft a 10))) (Nat.xor (Nat.xor (Nat.land a b) (Nat.land a c)) (Nat.land b c)))) 4294967296) a b c
    (Nat.mod (Nat.add d t1) 4294967296) e f g
    w1 w2 w3 w4 w5 w6 w7 w8 w9 w10 w11 w12 w13 w14 w15
    (Nat.mod (Nat.add (Nat.add (Nat.add w0 (Nat.xor (Nat.xor (Nat.lor (Nat.shiftRight w1 7) (Nat.shiftLeft w1 25)) (Nat.lor (Nat.shiftRight w1 18) (Nat.shiftLeft w1 14))) (Nat.shiftRight w1 3))) w9) (Nat.xor (Nat.xor (Nat.lor (Nat.shiftRight w14 17) (Nat.shiftLeft w14 15)) (Nat.lor (Nat.shiftRight w14 19) (Nat.shiftLeft w14 13))) (Nat.shiftRight w14 10))) 4294967296)

def rnd47 (pa pb pc pd pe pf pg ph a b c d e f g h w0 w1 w2 w3 w4 w5 w6 w7 w8 w9 w10 w11 w12 w13 w14 w15 : Nat) : Sha256State :=
  let t1 := (Nat.add (Nat.add (Nat.add (Nat.add h (Nat.xor (Nat.xor (Nat.lor (Nat.shiftRight e 6) (Nat.shiftLeft e 26)) (Nat.lor (Nat.shiftRight e 11) (Nat.shiftLeft e 21))) (Nat.lor (Nat.shiftRight e 25) (Nat.shiftLeft e 7)))) (Nat.xor (Nat.land e f) (Nat.land (Nat.xor e 4294967295) g))) 275423344) w0)
  rnd48 pa pb pc pd pe pf pg ph
    (Nat.mod (Nat.add t1 (Nat.add (Nat.xor (Nat.xor (Nat.lor (Nat.shiftRight a 2) (Nat.shiftLeft a 30)) (Nat.lor (Nat.shiftRight a 13) (Nat.shiftLeft a 19))) (Nat.lor (Nat.shiftRight a 22) (Nat.shiftLeft a 10))) (Nat.xor (Nat.xor (Nat.land a b) (Nat.land a c)) (Nat.land b c)))) 4294967296) a b c
    (Nat.mod (Nat.add d t1) 4294967296) e f g
    w1 w2 w3 w4 w5 w6 w7 w8 w9 w10 w11 w12 w13 w14 w15
    (Nat.mod (Nat.add (Nat.add (Nat.add w0 (Nat.xor (Nat.xor (Nat.lor (Nat.shiftRight w1 7) (Nat.shiftLeft w1 25)) (Nat.lor (Nat.shiftRight w1 18) (Nat.shiftLeft w1 14))) (Nat.shiftRight w1 3))) w9) (Nat.xor (Nat.xor (Nat.lor (Nat.shiftRight w14 17) (Nat.shiftLeft w14 15)) (Nat.lor (Nat.shiftRight w14 19) (Nat.shiftLeft w14 13))) (Nat.shiftRight w14 10))) 4294967296)

def rnd46 (pa pb pc pd pe pf pg ph a b c d e f g h w0 w1 w2 w3 w4 w5 w6 w7 w8 w9 w10 w11 w12 w13 w14 w15 : Nat) : Sha256State :=
  let t1 := (Nat.add (Nat.add (Nat.add (Nat.add h (Nat.xor (Nat.xor (Nat.lor (Nat.shiftRight e 6) (Nat.shiftLeft e 26)) (Nat.lor (Nat.shiftRight e 11) (Nat.shiftLeft e 21))) (Nat.lor (Nat.shiftRight e 25) (Nat.shiftLeft e 7)))) (Nat.xor (Nat.land e f) (Nat.land (Nat.xor e 4294967295) g))) 4094571909) w0)
  rnd47 pa pb pc pd pe pf pg ph
    (Nat.mod (Nat.add t1 (Nat.add (Nat.xor (Nat.xor (Nat.lor (Nat.shiftRight a 2) (Nat.shiftLeft a 30)) (Nat.lor (Nat.shiftRight a 13) (Nat.shiftLeft a 19))) (Nat.lor (Nat.shiftRight a 22) (Nat.shiftLeft a 10))) (Nat.xor (Nat.xor (Nat.land a b) (Nat.land a c)) (Nat.land b c)))) 4294967296) a b c
    (Nat.mod (Nat.add d t1) 4294967296) e f g
    w1 w2 w3 w4 w5 w6 w7 w8 w9 w10 w11 w12 w13 w14 w15
    (Nat.mod (Nat.add (Nat.add (Nat.add w0 (Nat.xor (Nat.xor (Nat.lor (Nat.shiftRight w1 7) (Nat.shiftLeft w1 25)) (Nat.lor (Nat.shiftRight w1 18) (Nat.shiftLeft w1 14))) (Nat.shiftRight w1 3))) w9) (Nat.xor (Nat.xor (Nat.lor (Nat.shiftRight w14 17) (Nat.shiftLeft w14 15)) (Nat.lor (Nat.shiftRight w14 19) (Nat.shiftLeft w14 13))) (Nat.shiftRight w14 10))) 4294967296)

def rnd45 (pa pb pc pd pe pf pg ph a b c d e f g h w0 w1 w2 w3 w4 w5 w6 w7 w8 w9 w10 w11 w12 w13 w14 w15 : Nat) : Sha256State :=
  let t1 := (Nat.add (Nat.add (Nat.add (Nat.add h (Nat.xor (Nat.xor (Nat.lor (Nat.shiftRight e 6) (Nat.shiftLeft e 26)) (Nat.lor (Nat.shiftRight e 11) (Nat.shiftLeft e 21))) (Nat.lor (Nat.shiftRight e 25) (Nat.shiftLeft e 7)))) (Nat.xor (Nat.land e f) (Nat.land (Nat.xor e 4294967295) g))) 3600352804) w0)
  rnd46 pa pb pc pd pe pf pg ph
    (Nat.mod (Nat.add t1 (Nat.add (Nat.xor (Nat.xor (Nat.lor (Nat.shiftRight a 2) (Nat.shiftLeft a 30)) (Nat.lor (Nat.shiftRight a 13) (Nat.shiftLeft a 19))) (Nat.lor (Nat.shiftRight a 22) (Nat.shiftLeft a 10))) (Nat.xor (Nat.xor (Nat.land a b) (Nat.land a c)) (Nat.land b c)))) 4294967296) a b c
    (Nat.mod (Nat.add d t1) 4294967296) e f g
    w1 w2 w3 w4 w5 w6 w7 w8 w9 w10 w11 w12 w13 w14 w15
    (Nat.mod (Nat.add (Nat.add (Nat.add w0 (Nat.xor (Nat.xor (Nat.lor (Nat.shiftRight w1 7) (Nat.shiftLeft w1 25)) (Nat.lor (Nat.shiftRight w1 18) (Nat.shiftLeft w1 14))) (Nat.shiftRight w1 3))) w9) (Nat.xor (Nat.xor (Nat.lor (Nat.shiftRight w14 17) (Nat.shiftLeft w14 15)) (Nat.lor (Nat.shiftRight w14 19) (Nat.shiftLeft w14 13))) (Nat.shiftRight w14 10))) 4294967296)

def rnd44 (pa pb pc pd pe pf pg ph a b c d e f g h w0 w1 w2 w3 w4 w5 w6 w7 w8 w9 w10 w11 w12 w13 w14 w15 : Nat) : Sha256State :=
  let t1 := (Nat.add (Nat.add (Nat.add (Nat.add h (Nat.xor (Nat.xor (Nat.lor (Nat.shiftRight e 6) (Nat.shiftLeft e 26)) (Nat.lor (Nat.shiftRight e 11) (Nat.shiftLeft e 21))) (Nat.lor (Nat.shiftRight e 25) (Nat.shiftLeft e 7)))) (Nat.xor (Nat.land e f) (Nat.land (Nat.xor e 4294967295) g))) 3516065817) w0)
  rnd45 pa pb pc pd pe pf pg ph
    (Nat.mod (Nat.add t1 (Nat.add (Nat.xor (Nat.xor (Nat.lor (Nat.shiftRight a 2) (Nat.shiftLeft a 30)) (Nat.lor (Nat.shiftRight a 13) (Nat.shiftLeft a 19))) (Nat.lor (Nat.shiftRight a 22) (Nat.shiftLeft a 10))) (Nat.xor (Nat.xor (Nat.land a b) (Nat.land a c)) (Nat.land b c)))) 4294967296) a b c
    (Nat.mod (Nat.add d t1) 4294967296) e f g
    w1 w2 w3 w4 w5 w6 w7 w8 w9 w10 w11 w12 w13 w14 w15
    (Nat.mod (Nat.add (Nat.add (Nat.add w0 (Nat.xor (Nat.xor (Nat.lor (Nat.shiftRight w1 7) (Nat.shiftLeft w1 25)) (Nat.lor (Nat.shiftRight w1 18) (Nat.shiftLeft w1 14))) (Nat.shiftRight w1 3))) w9) (Nat.xor (Nat.xor (Nat.lor (Nat.shiftRight w14 17) (Nat.shiftLeft w14 15)) (Nat.lor (Nat.shiftRight w14 19) (Nat.shiftLeft w14 13))) (Nat.shiftRight w14 10))) 4294967296)

def rnd43 (pa pb pc pd pe pf pg ph a b c d e f g h w0 w1 w2 w3 w4 w5 w6 w7 w8 w9 w10 w11 w12 w13 w14 w15 : Nat) : Sha256State :=
  let t1 := (Nat.add (Nat.add (Nat.add (Nat.add h (Nat.xor (Nat.xor (Nat.lor (Nat.shiftRight e 6) (Nat.shiftLeft e 26)) (Nat.lor (Nat.shiftRight e 11) (Nat.shiftLeft e 21))) (Nat.lor (Nat.shiftRight e 25) (Nat.shiftLeft e 7)))) (Nat.xor (Nat.land e f) (Nat.land (Nat.xor e 4294967295) g))) 3345764771) w0)
  rnd44 pa pb pc pd pe pf pg ph
    (Nat.mod (Nat.add t1 (Nat.add (Nat.xor (Nat.xor (Nat.lor (Nat.shiftRight a 2) (Nat.shiftLeft a 30)) (Nat.lor (Nat.shiftRight a 13) (Nat.shiftLeft a 19))) (Nat.lor (Nat.shiftRight a 22) (Nat.shiftLeft a 10))) (Nat.xor (Nat.xor (Nat.land a b) (Nat.land a c)) (Nat.land b c)))) 4294967296) a b c
    (Nat.mod (Nat.add d t1) 4294967296) e f g
    w1 w2 w3 w4 w5 w6 w7 w8 w9 w10 w11 w12 w13 w14 w15
    (Nat.mod (Nat.add (Nat.add (Nat.add w0 (Nat.xor (Nat.xor (Nat.lor (Nat.shiftRight w1 7) (Nat.shiftLeft w1 25)) (Nat.lor (Nat.shiftRight w1 18) (Nat.shiftLeft w1 14))) (Nat.shiftRight w1 3))) w9) (Nat.xor (Nat.xor (Nat.lor (Nat.shiftRight w14 17) (Nat.shiftLeft w14 15)) (Nat.lor (Nat.shiftRight w14 19) (Nat.shiftLeft w14 13))) (Nat.shiftRight w14 10))) 4294967296)

def rnd42 (pa pb pc pd pe pf pg ph a b c d e f g h w0 w1 w2 w3 w4 w5 w6 w7 w8 w9 w10 w11 w12 w13 w14 w15 : Nat) : Sha256State :=
  let t1 := (Nat.add (Nat.add (Nat.add (Nat.add h (Nat.xor (Nat.xor (Nat.lor (Nat.shiftRight e 6) (Nat.shiftLeft e 26)) (Nat.lor (Nat.shiftRight e 11) (Nat.shiftLeft e 21))) (Nat.lor (Nat.shiftRight e 25) (Nat.shiftLeft e 7)))) (Nat.xor (Nat.land e f) (Nat.land (Nat.xor e 4294967295) g))) 3259730800) w0)
  rnd43 pa pb pc pd pe pf pg ph
    (Nat.mod (Nat.add t1 (Nat.add (Nat.xor (Nat.xor (Nat.lor (Nat.shiftRight a 2) (Nat.shiftLeft a 30)) (Nat.lor (Nat.shiftRight a 13) (Nat.shiftLeft a 19))) (Nat.lor (Nat.shiftRight a 22) (Nat.shiftLeft a 10))) (Nat.xor (Nat.xor (Nat.land a b) (Nat.land a c)) (Nat.land b c)))) 4294967296) a b c
    (Nat.mod (Nat.add d t1) 4294967296) e f g
    w1 w2 w3 w4 w5 w6 w7 w8 w9 w10 w11 w12 w13 w14 w15
    (Nat.mod (Nat.add (Nat.add (Nat.add w0 (Nat.xor (Nat.xor (Nat.lor (Nat.shiftRight w1 7) (Nat.shiftLeft w1 25)) (Nat.lor (Nat.shiftRight w1 18) (Nat.shiftLeft w1 14))) (Nat.shiftRight w1 3))) w9) (Nat.xor (Nat.xor (Nat.lor (Nat.shiftRight w14 17) (Nat.shiftLeft w14 15)) (Nat.lor (Nat.shiftRight w14 19) (Nat.shiftLeft w14 13))) (Nat.shiftRight w14 10))) 4294967296)

def rnd41 (pa pb pc pd pe pf pg ph a b c d e f g h w0 w1 w2 w3 w4 w5 w6 w7 w8 w9 w10 w11 w12 w13 w14 w15 : Nat) : Sha256State :=
  let t1 := (Nat.add (Nat.add (Nat.add (Nat.add h (Nat.xor (Nat.xor (Nat.lor (Nat.shiftRight e 6) (Nat.shiftLeft e 26)) (Nat.lor (Nat.shiftRight e 11) (Nat.shiftLeft e 21))) (Nat.lor (Nat.shiftRight e 25) (Nat.shiftLeft e 7)))) (Nat.xor (Nat.land e f) (Nat.land (Nat.xor e 4294967295) g))) 2820302411) w0)
  rnd42 pa pb pc pd pe pf pg ph
    (Nat.mod (Nat.add t1 (Nat.add (Nat.xor (Nat.xor (Nat.lor (Nat.shiftRight a 2) (Nat.shiftLeft a 30)) (Nat.lor (Nat.shiftRight a 13) (Nat.shiftLeft a 19))) (Nat.lor (Nat.shiftRight a 22) (Nat.shiftLeft a 10))) (Nat.xor (Nat.xor (Nat.land a b) (Nat.land a c)) (Nat.land b c)))) 4294967296) a b c
    (Nat.mod (Nat.add d t1) 4294967296) e f g
    w1 w2 w3 w4 w5 w6 w7 w8 w9 w10 w11 w12 w13 w14 w15
    (Nat.mod (Nat.add (Nat.add (Nat.add w0 (Nat.xor (Nat.xor (Nat.lor (Nat.shiftRight w1 7) (Nat.shiftLeft w1 25)) (Nat.lor (Nat.shiftRight w1 18) (Nat.shiftLeft w1 14))) (Nat.shiftRight w1 3))) w9) (Nat.xor (Nat.xor (Nat.lor (Nat.shiftRight w14 17) (Nat.shiftLeft w14 15)) (Nat.lor (Nat.shiftRight w14 19) (Nat.shiftLeft w14 13))) (Nat.shiftRight w14 10))) 4294967296)

def rnd40 (pa pb pc pd pe pf pg ph a b c d e f g h w0 w1 w2 w3 w4 w5 w6 w7 w8 w9 w10 w11 w12 w13 w14 w15 : Nat) : Sha256State :=
  let t1 := (Nat.add (Nat.add (Nat.add (Nat.add h (Nat.xor (Nat.xor (Nat.lor (Nat.shiftRight e 6) (Nat.shiftLeft e 26)) (Nat.lor (Nat.shiftRight e 11) (Nat.shiftLeft e 21))) (Nat.lor (Nat.shiftRight e 25) (Nat.shiftLeft e 7)))) (Nat.xor (Nat.land e f) (Nat.land (Nat.xor e 4294967295) g))) 2730485921) w0)
  rnd41 pa pb pc pd pe pf pg ph
    (Nat.mod (Nat.add t1 (Nat.add (Nat.xor (Nat.xor (Nat.lor (Nat.shiftRight a 2) (Nat.shiftLeft a 30)) (Nat.lor (Nat.shiftRight a 13) (Nat.shiftLeft a 19))) (Nat.lor (Nat.shiftRight a 22) (Nat.shiftLeft a 10))) (Nat.xor (Nat.xor (Nat.land a b) (Nat.land a c)) (Nat.land b c)))) 4294967296) a b c
    (Nat.mod (Nat.add d t1) 4294967296) e f g
    w1 w2 w3 w4 w5 w6 w7 w8 w9 w10 w11 w12 w13 w14 w15
    (Nat.mod (Nat.add (Nat.add (Nat.add w0 (Nat.xor (Nat.xor (Nat.lor (Nat.shiftRight w1 7) (Nat.shiftLeft w1 25)) (Nat.lor (Nat.shiftRight w1 18) (Nat.shiftLeft w1 14))) (Nat.shiftRight w1 3))) w9) (Nat.xor (Nat.xor (Nat.lor (Nat.shiftRight w14 17) (Nat.shiftLeft w14 15)) (Nat.lor (Nat.shiftRight w14 19) (Nat.shiftLeft w14 13))) (Nat.shiftRight w14 10))) 4294967296)

def rnd39 (pa pb pc pd pe pf pg ph a b c d e f g h w0 w1 w2 w3 w4 w5 w6 w7 w8 w9 w10 w11 w12 w13 w14 w15 : Nat) : Sha256State :=
  let t1 := (Nat.add (Nat.add (Nat.add (Nat.add h (Nat.xor (Nat.xor (Nat.lor (Nat.shiftRight e 6) (Nat.shiftLeft e 26)) (Nat.lor (Nat.shiftRight e 11) (Nat.shiftLeft e 21))) (Nat.lor (Nat.shiftRight e 25) (Nat.shiftLeft e 7)))) (Nat.xor (Nat.land e f) (Nat.land (Nat.xor e 4294967295) g))) 2456956037) w0)
  rnd40 pa pb pc pd pe pf pg ph
    (Nat.mod (Nat.add t1 (Nat.add (Nat.xor (Nat.xor (Nat.lor (Nat.shiftRight a 2) (Nat.shiftLeft a 30)) (Nat.lor (Nat.shiftRight a 13) (Nat.shiftLeft a 19))) (Nat.lor (Nat.shiftRight a 22) (Nat.shiftLeft a 10))) (Nat.xor (Nat.xor (Nat.land a b) (Nat.land a c)) (Nat.land b c)))) 4294967296) a b c
    (Nat.mod (Nat.add d t1) 4294967296) e f g
    w1 w2 w3 w4 w5 w6 w7 w8 w9 w10 w11 w12 w13 w14 w15
    (Nat.mod (Nat.add (Nat.add (Nat.add w0 (Nat.xor (Nat.xor (Nat.lor (Nat.shiftRight w1 7) (Nat.shiftLeft w1 25)) (Nat.lor (Nat.shiftRight w1 18) (Nat.shiftLeft w1 14))) (Nat.shiftRight w1 3))) w9) (Nat.xor (Nat.xor (Nat.lor (Nat.shiftRight w14 17) (Nat.shiftLeft w14 15)) (Nat.lor (Nat.shiftRight w14 19) (Nat.shiftLeft w14 13))) (Nat.shiftRight w14 10))) 4294967296)

def rnd38 (pa pb pc pd pe pf pg ph a b c d e f g h w0 w1 w2 w3 w4 w5 w6 w7 w8 w9 w10 w11 w12 w13 w14 w15 : Nat) : Sha256State :=
  let t1 := (Nat.add (Nat.add (Nat.add (Nat.add h (Nat.xor (Nat.xor (Nat.lor (Nat.shiftRight e 6) (Nat.shiftLeft e 26)) (Nat.lor (Nat.shiftRight e 11) (Nat.shiftLeft e 21))) (Nat.lor (Nat.shiftRight e 25) (Nat.shiftLeft e 7)))) (Nat.xor (Nat.land e f) (Nat.land (Nat.xor e 4294967295) g))) 2177026350) w0)
  rnd39 pa pb pc pd pe pf pg ph
    (Nat.mod (Nat.add t1 (Nat.add (Nat.xor (Nat.xor (Nat.lor (Nat.shiftRight a 2) (Nat.shiftLeft a 30)) (Nat.lor (Nat.shiftRight a 13) (Nat.shiftLeft a 19))) (Nat.lor (Nat.shiftRight a 22) (Nat.shiftLeft a 10))) (Nat.xor (Nat.xor (Nat.land a b) (Nat.land a c)) (Nat.land b c)))) 4294967296) a b c
    (Nat.mod (Nat.add d t1) 4294967296) e f g
    w1 w2 w3 w4 w5 w6 w7 w8 w9 w10 w11 w12 w13 w14 w15
    (Nat.mod (Nat.add (Nat.add (Nat.add w0 (Nat.xor (Nat.xor (Nat.lor (Nat.shiftRight w1 7) (Nat.shiftLeft w1 25)) (Nat.lor (Nat.shiftRight w1 18) (Nat.shiftLeft w1 14))) (Nat.shiftRight w1 3))) w9) (Nat.xor (Nat.xor (Nat.lor (Nat.shiftRight w14 17) (Nat.shiftLeft w14 15)) (Nat.lor (Nat.shiftRight w14 19) (Nat.shiftLeft w14 13))) (Nat.shiftRight w14 10))) 4294967296)

def rnd37 (pa pb pc pd pe pf pg ph a b c d e f g h w0 w1 w2 w3 w4 w5 w6 w7 w8 w9 w10 w11 w12 w13 w14 w15 : Nat) : Sha256State :=
  let t1 := (Nat.add (Nat.add (Nat.add (Nat.add h (Nat.xor (Nat.xor (Nat.lor (Nat.shiftRight e 6) (Nat.shiftLeft e 26)) (Nat.lor (Nat.shiftRight e 11) (Nat.shiftLeft e 21))) (Nat.lor (Nat.shiftRight e 25) (Nat.shiftLeft e 7)))) (Nat.xor (Nat.land e f) (Nat.land (Nat.xor e 4294967295) g))) 1986661051) w0)
  rnd38 pa pb pc pd pe pf pg ph
    (Nat.mod (Nat.add t1 (Nat.add (Nat.xor (Nat.xor (Nat.lor (Nat.shiftRight a 2) (Nat.shiftLeft a 30)) (Nat.lor (Nat.shiftRight a 13) (Nat.shiftLeft a 19))) (Nat.lor (Nat.shiftRight a 22) (Nat.shiftLeft a 10))) (Nat.xor (Nat.xor (Nat.land a b) (Nat.land a c)) (Nat.land b c)))) 4294967296) a b c
    (Nat.mod (Nat.add d t1) 4294967296) e f g
    w1 w2 w3 w4 w5 w6 w7 w8 w9 w10 w11 w12 w13 w14 w15
    (Nat.mod (Nat.add (Nat.add (Nat.add w0 (Nat.xor (Nat.xor (Nat.lor (Nat.shiftRight w1 7) (Nat.shiftLeft w1 25)) (Nat.lor (Nat.shiftRight w1 18) (Nat.shiftLeft w1 14))) (Nat.shiftRight w1 3))) w9) (Nat.xor (Nat.xor (Nat.lor (Nat.shiftRight w14 17) (Nat.shiftLeft w14 15)) (Nat.lor (Nat.shiftRight w14 19) (Nat.shiftLeft w14 13))) (Nat.shiftRight w14 10))) 4294967296)

def rnd36 (pa pb pc pd pe pf pg ph a b c d e f g h w0 w1 w2 w3 w4 w5 w6 w7 w8 w9 w10 w11 w12 w13 w14 w15 : Nat) : Sha256State :=
  let t1 := (Nat.add (Nat.add (Nat.add (Nat.add h (Nat.xor (Nat.xor (Nat.lor (Nat.shiftRight e 6) (Nat.shiftLeft e 26)) (Nat.lor (Nat.shiftRight e 11) (Nat.shiftLeft e 21))) (Nat.lor (Nat.shiftRight e 25) (Nat.shiftLeft e 7)))) (Nat.xor (Nat.land e f) (Nat.land (Nat.xor e 4294967295) g))) 1695183700) w0)
  rnd37 pa pb pc pd pe pf pg ph
    (Nat.mod (Nat.add t1 (Nat.add (Nat.xor (Nat.xor (Nat.lor (Nat.shiftRight a 2) (Nat.shiftLeft a 30)) (Nat.lor (Nat.shiftRight a 13) (Nat.shiftLeft a 19))) (Nat.lor (Nat.shiftRight a 22) (Nat.shiftLeft a 10))) (Nat.xor (Nat.xor (Nat.land a b) (Nat.land a c)) (Nat.land b c)))) 4294967296) a b c
    (Nat.mod (Nat.add d t1) 4294967296) e f g
    w1 w2 w3 w4 w5 w6 w7 w8 w9 w10 w11 w12 w13 w14 w15
    (Nat.mod (Nat.add (Nat.add (Nat.add w0 (Nat.xor (Nat.xor (Nat.lor (Nat.shiftRight w1 7) (Nat.shiftLeft w1 25)) (Nat.lor (Nat.shiftRight w1 18) (Nat.shiftLeft w1 14))) (Nat.shiftRight w1 3))) w9) (Nat.xor (Nat.xor (Nat.lor (Nat.shiftRight w14 17) (Nat.shiftLeft w14 15)) (Nat.lor (Nat.shiftRight w14 19) (Nat.shiftLeft w14 13))) (Nat.shiftRight w14 10))) 4294967296)

def rnd35 (pa pb pc pd pe pf pg ph a b c d e f g h w0 w1 w2 w3 w4 w5 w6 w7 w8 w9 w10 w11 w12 w13 w14 w15 : Nat) : Sha256State :=
  let t1 := (Nat.add (Nat.add (Nat.add (Nat.add h (Nat.xor (Nat.xor (Nat.lor (Nat.shiftRight e 6) (Nat.shiftLeft e 26)) (Nat.lor (Nat.shiftRight e 11) (Nat.shiftLeft e 21))) (Nat.lor (Nat.shiftRight e 25) (Nat.shiftLeft e 7)))) (Nat.xor (Nat.land e f) (Nat.land (Nat.xor e 4294967295) g))) 1396182291) w0)
  rnd36 pa pb pc pd pe pf pg ph
    (Nat.mod (Nat.add t1 (Nat.add (Nat.xor (Nat.xor (Nat.lor (Nat.shiftRight a 2) (Nat.shiftLeft a 30)) (Nat.lor (Nat.shiftRight a 13) (Nat.shiftLeft a 19))) (Nat.lor (Nat.shiftRight a 22) (Nat.shiftLeft a 10))) (Nat.xor (Nat.xor (Nat.land a b) (Nat.land a c)) (Nat.land b c)))) 4294967296) a b c
    (Nat.mod (Nat.add d t1) 4294967296) e f g
    w1 w2 w3 w4 w5 w6 w7 w8 w9 w10 w11 w12 w13 w14 w15
    (Nat.mod (Nat.add (Nat.add (Nat.add w0 (Nat.xor (Nat.xor (Nat.lor (Nat.shiftRight w1 7) (Nat.shiftLeft w1 25)) (Nat.lor (Nat.shiftRight w1 18) (Nat.shiftLeft w1 14))) (Nat.shiftRight w1 3))) w9) (Nat.xor (Nat.xor (Nat.lor (Nat.shiftRight w14 17) (Nat.shiftLeft w14 15)) (Nat.lor (Nat.shiftRight w14 19) (Nat.shiftLeft w14 13))) (Nat.shiftRight w14 10))) 4294967296)

def rnd34 (pa pb pc pd pe pf pg ph a b c d e f g h w0 w1 w2 w3 w4 w5 w6 w7 w8 w9 w10 w11 w12 w13 w14 w15 : Nat) : Sha256State :=
  let t1 := (Nat.add (Nat.add (Nat.add (Nat.add h (Nat.xor (Nat.xor (Nat.lor (Nat.shiftRight e 6) (Nat.shiftLeft e 26)) (Nat.lor (Nat.shiftRight e 11) (Nat.shiftLeft e 21))) (Nat.lor (Nat.shiftRight e 25) (Nat.shiftLeft e 7)))) (Nat.xor (Nat.land e f) (Nat.land (Nat.xor e 4294967295) g))) 1294757372) w0)
  rnd35 pa pb pc pd pe pf pg ph
    (Nat.mod (Nat.add t1 (Nat.add (Nat.xor (Nat.xor (Nat.lor (Nat.shiftRight a 2) (Nat.shiftLeft a 30)) (Nat.lor (Nat.shiftRight a 13) (Nat.shiftLeft a 19))) (Nat.lor (Nat.shiftRight a 22) (Nat.shiftLeft a 10))) (Nat.xor (Nat.xor (Nat.land a b) (Nat.land a c)) (Nat.land b c)))) 4294967296) a b c
    (Nat.mod (Nat.add d t1) 4294967296) e f g
    w1 w2 w3 w4 w5 w6 w7 w8 w9 w10 w11 w12 w13 w14 w15
    (Nat.mod (Nat.add (Nat.add (Nat.add w0 (Nat.xor (Nat.xor (Nat.lor (Nat.shiftRight w1 7) (Nat.shiftLeft w1 25)) (Nat.lor (Nat.shiftRight w1 18) (Nat.shiftLeft w1 14))) (Nat.shiftRight w1 3))) w9) (Nat.xor (Nat.xor (Nat.lor (Nat.shiftRight w14 17) (Nat.shiftLeft w14 15)) (Nat.lor (Nat.shiftRight w14 19) (Nat.shiftLeft w14 13))) (Nat.shiftRight w14 10))) 4294967296)

def rnd33 (pa pb pc pd pe pf pg ph a b c d e f g h w0 w1 w2 w3 w4 w5 w6 w7 w8 w9 w10 w11 w12 w13 w14 w15 : Nat) : Sha256State :=
  let t1 := (Nat.add (Nat.add (Nat.add (Nat.add h (Nat.xor (Nat.xor (Nat.lor (Nat.shiftRight e 6) (Nat.shiftLeft e 26)) (Nat.lor (Nat.shiftRight e 11) (Nat.shiftLeft e 21))) (Nat.lor (Nat.shiftRight e 25) (Nat.shiftLeft e 7)))) (Nat.xor (Nat.land e f) (Nat.land (Nat.xor e 4294967295) g))) 773529912) w0)
  rnd34 pa pb pc pd pe pf pg ph
    (Nat.mod (Nat.add t1 (Nat.add (Nat.xor (Nat.xor (Nat.lor (Nat.shiftRight a 2) (Nat.shiftLeft a 30)) (Nat.lor (Nat.shiftRight a 13) (Nat.shiftLeft a 19))) (Nat.lor (Nat.shiftRight a 22) (Nat.shiftLeft a 10))) (Nat.xor (Nat.xor (Nat.land a b) (Nat.land a c)) (Nat.land b c)))) 4294967296) a b c
    (Nat.mod (Nat.add d t1) 4294967296) e f g
    w1 w2 w3 w4 w5 w6 w7 w8 w9 w10 w11 w12 w13 w14 w15
    (Nat.mod (Nat.add (Nat.add (Nat.add w0 (Nat.xor (Nat.xor (Nat.lor (Nat.shiftRight w1 7) (Nat.shiftLeft w1 25)) (Nat.lor (Nat.shiftRight w1 18) (Nat.shiftLeft w1 14))) (Nat.shiftRight w1 3))) w9) (Nat.xor (Nat.xor (Nat.lor (Nat.shiftRight w14 17) (Nat.shiftLeft w14 15)) (Nat.lor (Nat.shiftRight w14 19) (Nat.shiftLeft w14 13))) (Nat.shiftRight w14 10))) 4294967296)

def rnd32 (pa pb pc pd pe pf pg ph a b c d e f g h w0 w1 w2 w3 w4 w5 w6 w7 w8 w9 w10 w11 w12 w13 w14 w15 : Nat) : Sha256State :=
  let t1 := (Nat.add (Nat.add (Nat.add (Nat.add h (Nat.xor (Nat.xor (Nat.lor (Nat.shiftRight e 6) (Nat.shiftLeft e 26)) (Nat.lor (Nat.shiftRight e 11) (Nat.shiftLeft e 21))) (Nat.lor (Nat.shiftRight e 25) (Nat.shiftLeft e 7)))) (Nat.xor (Nat.land e f) (Nat.land (Nat.xor e 4294967295) g))) 666307205) w0)
  rnd33 pa pb pc pd pe pf pg ph
    (Nat.mod (Nat.add t1 (Nat.add (Nat.xor (Nat.xor (Nat.lor (Nat.shiftRight a 2) (Nat.shiftLeft a 30)) (Nat.lor (Nat.shiftRight a 13) (Nat.shiftLeft a 19))) (Nat.lor (Nat.shiftRight a 22) (Nat.shiftLeft a 10))) (Nat.xor (Nat.xor (Nat.land a b) (Nat.land a c)) (Nat.land b c)))) 4294967296) a b c
    (Nat.mod (Nat.add d t1) 4294967296) e f g
    w1 w2 w3 w4 w5 w6 w7 w8 w9 w10 w11 w12 w13 w14 w15
    (Nat.mod (Nat.add (Nat.add (Nat.add w0 (Nat.xor (Nat.xor (Nat.lor (Nat.shiftRight w1 7) (Nat.shiftLeft w1 25)) (Nat.lor (Nat.shiftRight w1 18) (Nat.shiftLeft w1 14))) (Nat.shiftRight w1 3))) w9) (Nat.xor (Nat.xor (Nat.lor (Nat.shiftRight w14 17) (Nat.shiftLeft w14 15)) (Nat.lor (Nat.shiftRight w14 19) (Nat.shiftLeft w14 13))) (Nat.shiftRight w14 10))) 4294967296)

def rnd31 (pa pb pc pd pe pf pg ph a b c d e f g h w0 w1 w2 w3 w4 w5 w6 w7 w8 w9 w10 w11 w12 w13 w14 w15 : Nat) : Sha256State :=
  let t1 := (Nat.add (Nat.add (Nat.add (Nat.add h (Nat.xor (Nat.xor (Nat.lor (Nat.shiftRight e 6) (Nat.shiftLeft e 26)) (Nat.lor (Nat.shiftRight e 11) (Nat.shiftLeft e 21))) (Nat.lor (Nat.shiftRight e 25) (Nat.shiftLeft e 7)))) (Nat.xor (Nat.land e f) (Nat.land (Nat.xor e 4294967295) g))) 338241895) w0)
  rnd32 pa pb pc pd pe pf pg ph
    (Nat.mod (Nat.add t1 (Nat.add (Nat.xor (Nat.xor (Nat.lor (Nat.shiftRight a 2) (Nat.shiftLeft a 30)) (Nat.lor (Nat.shiftRight a 13) (Nat.shiftLeft a 19))) (Nat.lor (Nat.shiftRight a 22) (Nat.shiftLeft a 10))) (Nat.xor (Nat.xor (Nat.land a b) (Nat.land a c)) (Nat.land b c)))) 4294967296) a b c
    (Nat.mod (Nat.add d t1) 4294967296) e f g
    w1 w2 w3 w4 w5 w6 w7 w8 w9 w10 w11 w12 w13 w14 w15
    (Nat.mod (Nat.add (Nat.add (Nat.add w0 (Nat.xor (Nat.xor (Nat.lor (Nat.shiftRight w1 7) (Nat.shiftLeft w1 25)) (Nat.lor (Nat.shiftRight w1 18) (Nat.shiftLeft w1 14))) (Nat.shiftRight w1 3))) w9) (Nat.xor (Nat.xor (Nat.lor (Nat.shiftRight w14 17) (Nat.shiftLeft w14 15)) (Nat.lor (Nat.shiftRight w14 19) (Nat.shiftLeft w14 13))) (Nat.shiftRight w14 10))) 4294967296)

def rnd30 (pa pb pc pd pe pf pg ph a b c d e f g h w0 w1 w2 w3 w4 w5 w6 w7 w8 w9 w10 w11 w12 w13 w14 w15 : Nat) : Sha256State :=
  let t1 := (Nat.add (Nat.add (Nat.add (Nat.add h (Nat.xor (Nat.xor (Nat.lor (Nat.shiftRight e 6) (Nat.shiftLeft e 26)) (Nat.lor (Nat.shiftRight e 11) (Nat.shiftLeft e 21))) (Nat.lor (Nat.shiftRight e 25) (Nat.shiftLeft e 7)))) (Nat.xor (Nat.land e f) (Nat.land (Nat.xor e 4294967295) g))) 113926993) w0)
  rnd31 pa pb pc pd pe pf pg ph
    (Nat.mod (Nat.add t1 (Nat.add (Nat.xor (Nat.xor (Nat.lor (Nat.shiftRight a 2) (Nat.shiftLeft a 30)) (Nat.lor (Nat.shiftRight a 13) (Nat.shiftLeft a 19))) (Nat.lor (Nat.shiftRight a 22) (Nat.shiftLeft a 10))) (Nat.xor (Nat.xor (Nat.land a b) (Nat.land a c)) (Nat.land b c)))) 4294967296) a b c
    (Nat.mod (Nat.add d t1) 4294967296) e f g
    w1 w2 w3 w4 w5 w6 w7 w8 w9 w10 w11 w12 w13 w14 w15
    (Nat.mod (Nat.add (Nat.add (Nat.add w0 (Nat.xor (Nat.xor (Nat.lor (Nat.shiftRight w1 7) (Nat.shiftLeft w1 25)) (Nat.lor (Nat.shiftRight w1 18) (Nat.shiftLeft w1 14))) (Nat.shiftRight w1 3))) w9) (Nat.xor (Nat.xor (Nat.lor (Nat.shiftRight w14 17) (Nat.shiftLeft w14 15)) (Nat.lor (Nat.shiftRight w14 19) (Nat.shiftLeft w14 13))) (Nat.shiftRight w14 10))) 4294967296)

def rnd29 (pa pb pc pd pe pf pg ph a b c d e f g h w0 w1 w2 w3 w4 w5 w6 w7 w8 w9 w10 w11 w12 w13 w14 w15 : Nat) : Sha256State :=
  let t1 := (Nat.add (Nat.add (Nat.add (Nat.add h (Nat.xor (Nat.xor (Nat.lor (Nat.shiftRight e 6) (Nat.shiftLeft e 26)) (Nat.lor (Nat.shiftRight e 11) (Nat.shiftLeft e 21))) (Nat.lor (Nat.shiftRight e 25) (Nat.shiftLeft e 7)))) (Nat.xor (Nat.land e f) (Nat.land (Nat.xor e 4294967295) g))) 3584528711) w0)
  rnd30 pa pb pc pd pe pf pg ph
    (Nat.mod (Nat.add t1 (Nat.add (Nat.xor (Nat.xor (Nat.lor (Nat.shiftRight a 2) (Nat.shiftLeft a 30)) (Nat.lor (Nat.shiftRight a 13) (Nat.shiftLeft a 19))) (Nat.lor (Nat.shiftRight a 22) (Nat.shiftLeft a 10))) (Nat.xor (Nat.xor (Nat.land a b) (Nat.land a c)) (Nat.land b c)))) 4294967296) a b c
    (Nat.mod (Nat.add d t1) 4294967296) e f g
    w1 w2 w3 w4 w5 w6 w7 w8 w9 w10 w11 w12 w13 w14 w15
    (Nat.mod (Nat.add (Nat.add (Nat.add w0 (Nat.xor (Nat.xor (Nat.lor (Nat.shiftRight w1 7) (Nat.shiftLeft w1 25)) (Nat.lor (Nat.shiftRight w1 18) (Nat.shiftLeft w1 14))) (Nat.shiftRight w1 3))) w9) (Nat.xor (Nat.xor (Nat.lor (Nat.shiftRight w14 17) (Nat.shiftLeft w14 15)) (Nat.lor (Nat.shiftRight w14 19) (Nat.shiftLeft w14 13))) (Nat.shiftRight w14 10))) 4294967296)

def rnd28 (pa pb pc pd pe pf pg ph a b c d e f g h w0 w1 w2 w3 w4 w5 w6 w7 w8 w9 w10 w11 w12 w13 w14 w15 : Nat) : Sha256State :=
  let t1 := (Nat.add (Nat.add (Nat.add (Nat.add h (Nat.xor (Nat.xor (Nat.lor (Nat.shiftRight e 6) (Nat.shiftLeft e 26)) (Nat.lor (Nat.shiftRight e 11) (Nat.shiftLeft e 21))) (Nat.lor (Nat.shiftRight e 25) (Nat.shiftLeft e 7)))) (Nat.xor (Nat.land e f) (Nat.land (Nat.xor e 4294967295) g))) 3336571891) w0)
  rnd29 pa pb pc pd pe pf pg ph
    (Nat.mod (Nat.add t1 (Nat.add (Nat.xor (Nat.xor (Nat.lor (Nat.shiftRight a 2) (Nat.shiftLeft a 30)) (Nat.lor (Nat.shiftRight a 13) (Nat.shiftLeft a 19))) (Nat.lor (Nat.shiftRight a 22) (Nat.shiftLeft a 10))) (Nat.xor (Nat.xor (Nat.land a b) (Nat.land a c)) (Nat.land b c)))) 4294967296) a b c
    (Nat.mod (Nat.add d t1) 4294967296) e f g
    w1 w2 w3 w4 w5 w6 w7 w8 w9 w10 w11 w12 w13 w14 w15
    (Nat.mod (Nat.add (Nat.add (Nat.add w0 (Nat.xor (Nat.xor (Nat.lor (Nat.shiftRight w1 7) (Nat.shiftLeft w1 25)) (Nat.lor (Nat.shiftRight w1 18) (Nat.shiftLeft w1 14))) (Nat.shiftRight w1 3))) w9) (Nat.xor (Nat.xor (Nat.lor (Nat.shiftRight w14 17) (Nat.shiftLeft w14 15)) (Nat.lor (Nat.shiftRight w14 19) (Nat.shiftLeft w14 13))) (Nat.shiftRight w14 10))) 4294967296)

def rnd27 (pa pb pc pd pe pf pg ph a b c d e f g h w0 w1 w2 w3 w4 w5 w6 w7 w8 w9 w10 w11 w12 w13 w14 w15 : Nat) : Sha256State :=
  let t1 := (Nat.add (Nat.add (Nat.add (Nat.add h (Nat.xor (Nat.xor (Nat.lor (Nat.shiftRight e 6) (Nat.shiftLeft e 26)) (Nat.lor (Nat.shiftRight e 11) (Nat.shiftLeft e 21))) (Nat.lor (Nat.shiftRight e 25) (Nat.shiftLeft e 7)))) (Nat.xor (Nat.land e f) (Nat.land (Nat.xor e 4294967295) g))) 3210313671) w0)
  rnd28 pa pb pc pd pe pf pg ph
    (Nat.mod (Nat.add t1 (Nat.add (Nat.xor (Nat.xor (Nat.lor (Nat.shiftRight a 2) (Nat.shiftLeft a 30)) (Nat.lor (Nat.shiftRight a 13) (Nat.shiftLeft a 19))) (Nat.lor (Nat.shiftRight a 22) (Nat.shiftLeft a 10))) (Nat.xor (Nat.xor (Nat.land a b) (Nat.land a c)) (Nat.land b c)))) 4294967296) a b c
    (Nat.mod (Nat.add d t1) 4294967296) e f g
    w1 w2 w3 w4 w5 w6 w7 w8 w9 w10 w11 w12 w13 w14 w15
    (Nat.mod (Nat.add (Nat.add (Nat.add w0 (Nat.xor (Nat.xor (Nat.lor (Nat.shiftRight w1 7) (Nat.shiftLeft w1 25)) (Nat.lor (Nat.shiftRight w1 18) (Nat.shiftLeft w1 14))) (Nat.shiftRight w1 3))) w9) (Nat.xor (Nat.xor (Nat.lor (Nat.shiftRight w14 17) (Nat.shiftLeft w14 15)) (Nat.lor (Nat.shiftRight w14 19) (Nat.shiftLeft w14 13))) (Nat.shiftRight w14 10))) 4294967296)

def rnd26 (pa pb pc pd pe pf pg ph a b c d e f g h w0 w1 w2 w3 w4 w5 w6 w7 w8 w9 w10 w11 w12 w13 w14 w15 : Nat) : Sha256State :=
  let t1 := (Nat.add (Nat.add (Nat.add (Nat.add h (Nat.xor (Nat.xor (Nat.lor (Nat.shiftRight e 6) (Nat.shiftLeft e 26)) (Nat.lor (Nat.shiftRight e 11) (Nat.shiftLeft e 21))) (Nat.lor (Nat.shiftRight e 25) (Nat.shiftLeft e 7)))) (Nat.xor (Nat.land e f) (Nat.land (Nat.xor e 4294967295) g))) 2952996808) w0)
  rnd27 pa pb pc pd pe pf pg ph
    (Nat.mod (Nat.add t1 (Nat.add (Nat.xor (Nat.xor (Nat.lor (Nat.shiftRight a 2) (Nat.shiftLeft a 30)) (Nat.lor (Nat.shiftRight a 13) (Nat.shiftLeft a 19))) (Nat.lor (Nat.shiftRight a 22) (Nat.shiftLeft a 10))) (Nat.xor (Nat.xor (Nat.land a b) (Nat.land a c)) (Nat.land b c)))) 4294967296) a b c
    (Nat.mod (Nat.add d t1) 4294967296) e f g
    w1 w2 w3 w4 w5 w6 w7 w8 w9 w10 w11 w12 w13 w14 w15
    (Nat.mod (Nat.add (Nat.add (Nat.add w0 (Nat.xor (Nat.xor (Nat.lor (Nat.shiftRight w1 7) (Nat.shiftLeft w1 25)) (Nat.lor (Nat.shiftRight w1 18) (Nat.shiftLeft w1 14))) (Nat.shiftRight w1 3))) w9) (Nat.xor (Nat.xor (Nat.lor (Nat.shiftRight w14 17) (Nat.shiftLeft w14 15)) (Nat.lor (Nat.shiftRight w14 19) (Nat.shiftLeft w14 13))) (Nat.shiftRight w14 10))) 4294967296)

def rnd25 (pa pb pc pd pe pf pg ph a b c d e f g h w0 w1 w2 w3 w4 w5 w6 w7 w8 w9 w10 w11 w12 w13 w14 w15 : Nat) : Sha256State :=
  let t1 := (Nat.add (Nat.add (Nat.add (Nat.add h (Nat.xor (Nat.xor (Nat.lor (Nat.shiftRight e 6) (Nat.shiftLeft e 26)) (Nat.lor (Nat.shiftRight e 11) (Nat.shiftLeft e 21))) (Nat.lor (Nat.shiftRight e 25) (Nat.shiftLeft e 7)))) (Nat.xor (Nat.land e f) (Nat.land (Nat.xor e 4294967295) g))) 2821834349) w0)
  rnd26 pa pb pc pd pe pf pg ph
    (Nat.mod (Nat.add t1 (Nat.add (Nat.xor (Nat.xor (Nat.lor (Nat.shiftRight a 2) (Nat.shiftLeft a 30)) (Nat.lor (Nat.shiftRight a 13) (Nat.shiftLeft a 19))) (Nat.lor (Nat.shiftRight a 22) (Nat.shiftLeft a 10))) (Nat.xor (Nat.xor (Nat.land a b) (Nat.land a c)) (Nat.land b c)))) 4294967296) a b c
    (Nat.mod (Nat.add d t1) 4294967296) e f g
    w1 w2 w3 w4 w5 w6 w7 w8 w9 w10 w11 w12 w13 w14 w15
    (Nat.mod (Nat.add (Nat.add (Nat.add w0 (Nat.xor (Nat.xor (Nat.lor (Nat.shiftRight w1 7) (Nat.shiftLeft w1 25)) (Nat.lor (Nat.shiftRight w1 18) (Nat.shiftLeft w1 14))) (Nat.shiftRight w1 3))) w9) (Nat.xor (Nat.xor (Nat.lor (Nat.shiftRight w14 17) (Nat.shiftLeft w14 15)) (Nat.lor (Nat.shiftRight w14 19) (Nat.shiftLeft w14 13))) (Nat.shiftRight w14 10))) 4294967296)

def rnd24 (pa pb pc pd pe pf pg ph a b c d e f g h w0 w1 w2 w3 w4 w5 w6 w7 w8 w9 w10 w11 w12 w13 w14 w15 : Nat) : Sha256State :=
  let t1 := (Nat.add (Nat.add (Nat.add (Nat.add h (Nat.xor (Nat.xor (Nat.lor (Nat.shiftRight e 6) (Nat.shiftLeft e 26)) (Nat.lor (Nat.shiftRight e 11) (Nat.shiftLeft e 21))) (Nat.lor (Nat.shiftRight e 25) (Nat.shiftLeft e 7)))) (Nat.xor (Nat.land e f) (Nat.land (Nat.xor e 4294967295) g))) 2554220882) w0)
  rnd25 pa pb pc pd pe pf pg ph
    (Nat.mod (Nat.add t1 (Nat.add (Nat.xor (Nat.xor (Nat.lor (Nat.shiftRight a 2) (Nat.shiftLeft a 30)) (Nat.lor (Nat.shiftRight a 13) (Nat.shiftLeft a 19))) (Nat.lor (Nat.shiftRight a 22) (Nat.shiftLeft a 10))) (Nat.xor (Nat.xor (Nat.land a b) (Nat.land a c)) (Nat.land b c)))) 4294967296) a b c
    (Nat.mod (Nat.add d t1) 4294967296) e f g
    w1 w2 w3 w4 w5 w6 w7 w8 w9 w10 w11 w12 w13 w14 w15
    (Nat.mod (Nat.add (Nat.add (Nat.add w0 (Nat.xor (Nat.xor (Nat.lor (Nat.shiftRight w1 7) (Nat.shiftLeft w1 25)) (Nat.lor (Nat.shiftRight w1 18) (Nat.shiftLeft w1 14))) (Nat.shiftRight w1 3))) w9) (Nat.xor (Nat.xor (Nat.lor (Nat.shiftRight w14 17) (Nat.shiftLeft w14 15)) (Nat.lor (Nat.shiftRight w14 19) (Nat.shiftLeft w14 13))) (Nat.shiftRight w14 10))) 4294967296)

def rnd23 (pa pb pc pd pe pf pg ph a b c d e f g h w0 w1 w2 w3 w4 w5 w6 w7 w8 w9 w10 w11 w12 w13 w14 w15 : Nat) : Sha256State :=
  let t1 := (Nat.add (Nat.add (Nat.add (Nat.add h (Nat.xor (Nat.xor (Nat.lor (Nat.shiftRight e 6) (Nat.shiftLeft e 26)) (Nat.lor (Nat.shiftRight e 11) (Nat.shiftLeft e 21))) (Nat.lor (Nat.shiftRight e 25) (Nat.shiftLeft e 7)))) (Nat.xor (Nat.land e f) (Nat.land (Nat.xor e 4294967295) g))) 1996064986) w0)
  rnd24 pa pb pc pd pe pf pg ph
    (Nat.mod (Nat.add t1 (Nat.add (Nat.xor (Nat.xor (Nat.lor (Nat.shiftRight a 2) (Nat.shiftLeft a 30)) (Nat.lor (Nat.shiftRight a 13) (Nat.shiftLeft a 19))) (Nat.lor (Nat.shiftRight a 22) (Nat.shiftLeft a 10))) (Nat.xor (Nat.xor (Nat.land a b) (Nat.land a c)) (Nat.land b c)))) 4294967296) a b c
    (Nat.mod (Nat.add d t1) 4294967296) e f g
    w1 w2 w3 w4 w5 w6 w7 w8 w9 w10 w11 w12 w13 w14 w15
    (Nat.mod (Nat.add (Nat.add (Nat.add w0 (Nat.xor (Nat.xor (Nat.lor (Nat.shiftRight w1 7) (Nat.shiftLeft w1 25)) (Nat.lor (Nat.shiftRight w1 18) (Nat.shiftLeft w1 14))) (Nat.shiftRight w1 3))) w9) (Nat.xor (Nat.xor (Nat.lor (Nat.shiftRight w14 17) (Nat.shiftLeft w14 15)) (Nat.lor (Nat.shiftRight w14 19) (Nat.shiftLeft w14 13))) (Nat.shiftRight w14 10))) 4294967296)

def rnd22 (pa pb pc pd pe pf pg ph a b c d e f g h w0 w1 w2 w3 w4 w5 w6 w7 w8 w9 w10 w11 w12 w13 w14 w15 : Nat) : Sha256State :=
  let t1 := (Nat.add (Nat.add (Nat.add (Nat.add h (Nat.xor (Nat.xor (Nat.lor (Nat.shiftRight e 6) (Nat.shiftLeft e 26)) (Nat.lor (Nat.shiftRight e 11) (Nat.shiftLeft e 21))) (Nat.lor (Nat.shiftRight e 25) (Nat.shiftLeft e 7)))) (Nat.xor (Nat.land e f) (Nat.land (Nat.xor e 4294967295) g))) 1555081692) w0)
  rnd23 pa pb pc pd pe pf pg ph
    (Nat.mod (Nat.add t1 (Nat.add (Nat.xor (Nat.xor (Nat.lor (Nat.shiftRight a 2) (Nat.shiftLeft a 30)) (Nat.lor (Nat.shiftRight a 13) (Nat.shiftLeft a 19))) (Nat.lor (Nat.shiftRight a 22) (Nat.shiftLeft a 10))) (Nat.xor (Nat.xor (Nat.land a b) (Nat.land a c)) (Nat.land b c)))) 4294967296) a b c
    (Nat.mod (Nat.add d t1) 4294967296) e f g
    w1 w2 w3 w4 w5 w6 w7 w8 w9 w10 w11 w12 w13 w14 w15
    (Nat.mod (Nat.add (Nat.add (Nat.add w0 (Nat.xor (Nat.xor (Nat.lor (Nat.shiftRight w1 7) (Nat.shiftLeft w1 25)) (Nat.lor (Nat.shiftRight w1 18) (Nat.shiftLeft w1 14))) (Nat.shiftRight w1 3))) w9) (Nat.xor (Nat.xor (Nat.lor (Nat.shiftRight w14 17) (Nat.shiftLeft w14 15)) (Nat.lor (Nat.shiftRight w14 19) (Nat.shiftLeft w14 13))) (Nat.shiftRight w14 10))) 4294967296)

def rnd21 (pa pb pc pd pe pf pg ph a b c d e f g h w0 w1 w2 w3 w4 w5 w6 w7 w8 w9 w10 w11 w12 w13 w14 w15 : Nat) : Sha256State :=
  let t1 := (Nat.add (Nat.add (Nat.add (Nat.add h (Nat.xor (Nat.xor (Nat.lor (Nat.shiftRight e 6) (Nat.shiftLeft e 26)) (Nat.lor (Nat.shiftRight e 11) (Nat.shiftLeft e 21))) (Nat.lor (Nat.shiftRight e 25) (Nat.shiftLeft e 7)))) (Nat.xor (Nat.land e f) (Nat.land (Nat.xor e 4294967295) g))) 1249150122) w0)
  rnd22 pa pb pc pd pe pf pg ph
    (Nat.mod (Nat.add t1 (Nat.add (Nat.xor (Nat.xor (Nat.lor (Nat.shiftRight a 2) (Nat.shiftLeft a 30)) (Nat.lor (Nat.shiftRight a 13) (Nat.shiftLeft a 19))) (Nat.lor (Nat.shiftRight a 22) (Nat.shiftLeft a 10))) (Nat.xor (Nat.xor (Nat.land a b) (Nat.land a c)) (Nat.land b c)))) 4294967296) a b c
    (Nat.mod (Nat.add d t1) 4294967296) e f g
    w1 w2 w3 w4 w5 w6 w7 w8 w9 w10 w11 w12 w13 w14 w15
    (Nat.mod (Nat.add (Nat.add (Nat.add w0 (Nat.xor (Nat.xor (Nat.lor (Nat.shiftRight w1 7) (Nat.shiftLeft w1 25)) (Nat.lor (Nat.shiftRight w1 18) (Nat.shiftLeft w1 14))) (Nat.shiftRight w1 3))) w9) (Nat.xor (Nat.xor (Nat.lor (Nat.shiftRight w14 17) (Nat.shiftLeft w14 15)) (Nat.lor (Nat.shiftRight w14 19) (Nat.shiftLeft w14 13))) (Nat.shiftRight w14 10))) 4294967296)

def rnd20 (pa pb pc pd pe pf pg ph a b c d e f g h w0 w1 w2 w3 w4 w5 w6 w7 w8 w9 w10 w11 w12 w13 w14 w15 : Nat) : Sha256State :=
  let t1 := (Nat.add (Nat.add (Nat.add (Nat.add h (Nat.xor (Nat.xor (Nat.lor (Nat.shiftRight e 6) (Nat.shiftLeft e 26)) (Nat.lor (Nat.shiftRight e 11) (Nat.shiftLeft e 21))) (Nat.lor (Nat.shiftRight e 25) (Nat.shiftLeft e 7)))) (Nat.xor (Nat.land e f) (Nat.land (Nat.xor e 4294967295) g))) 770255983) w0)
  rnd21 pa pb pc pd pe pf pg ph
    (Nat.mod (Nat.add t1 (Nat.add (Nat.xor (Nat.xor (Nat.lor (Nat.shiftRight a 2) (Nat.shiftLeft a 30)) (Nat.lor (Nat.shiftRight a 13) (Nat.shiftLeft a 19))) (Nat.lor (Nat.shiftRight a 22) (Nat.shiftLeft a 10))) (Nat.xor (Nat.xor (Nat.land a b) (Nat.land a c)) (Nat.land b c)))) 4294967296) a b c
    (Nat.mod (Nat.add d t1) 4294967296) e f g
    w1 w2 w3 w4 w5 w6 w7 w8 w9 w10 w11 w12 w13 w14 w15
    (Nat.mod (Nat.add (Nat.add (Nat.add w0 (Nat.xor (Nat.xor (Nat.lor (Nat.shiftRight w1 7) (Nat.shiftLeft w1 25)) (Nat.lor (Nat.shiftRight w1 18) (Nat.shiftLeft w1 14))) (Nat.shiftRight w1 3))) w9) (Nat.xor (Nat.xor (Nat.lor (Nat.shiftRight w14 17) (Nat.shiftLeft w14 15)) (Nat.lor (Nat.shiftRight w14 19) (Nat.shiftLeft w14 13))) (Nat.shiftRight w14 10))) 4294967296)

def rnd19 (pa pb pc pd pe pf pg ph a b c d e f g h w0 w1 w2 w3 w4 w5 w6 w7 w8 w9 w10 w11 w12 w13 w14 w15 : Nat) : Sha256State :=
  let t1 := (Nat.add (Nat.add (Nat.add (Nat.add h (Nat.xor (Nat.xor (Nat.lor (Nat.shiftRight e 6) (Nat.shiftLeft e 26)) (Nat.lor (Nat.shiftRight e 11) (Nat.shiftLeft e 21))) (Nat.lor (Nat.shiftRight e 25) (Nat.shiftLeft e 7)))) (Nat.xor (Nat.land e f) (Nat.land (Nat.xor e 4294967295) g))) 604807628) w0)
  rnd20 pa pb pc pd pe pf pg ph
    (Nat.mod (Nat.add t1 (Nat.add (Nat.xor (Nat.xor (Nat.lor (Nat.shiftRight a 2) (Nat.shiftLeft a 30)) (Nat.lor (Nat.shiftRight a 13) (Nat.shiftLeft a 19))) (Nat.lor (Nat.shiftRight a 22) (Nat.shiftLeft a 10))) (Nat.xor (Nat.xor (Nat.land a b) (Nat.land a c)) (Nat.land b c)))) 4294967296) a b c
    (Nat.mod (Nat.add d t1) 4294967296) e f g
    w1 w2 w3 w4 w5 w6 w7 w8 w9 w10 w11 w12 w13 w14 w15
    (Nat.mod (Nat.add (Nat.add (Nat.add w0 (Nat.xor (Nat.xor (Nat.lor (Nat.shiftRight w1 7) (Nat.shiftLeft w1 25)) (Nat.lor (Nat.shiftRight w1 18) (Nat.shiftLeft w1 14))) (Nat.shiftRight w1 3))) w9) (Nat.xor (Nat.xor (Nat.lor (Nat.shiftRight w14 17) (Nat.shiftLeft w14 15)) (Nat.lor (Nat.shiftRight w14 19) (Nat.shiftLeft w14 13))) (Nat.shiftRight w14 10))) 4294967296)

def rnd18 (pa pb pc pd pe pf pg ph a b c d e f g h w0 w1 w2 w3 w4 w5 w6 w7 w8 w9 w10 w11 w12 w13 w14 w15 : Nat) : Sha256State :=
  let t1 := (Nat.add (Nat.add (Nat.add (Nat.add h (Nat.xor (Nat.xor (Nat.lor (Nat.shiftRight e 6) (Nat.shiftLeft e 26)) (Nat.lor (Nat.shiftRight e 11) (Nat.shiftLeft e 21))) (Nat.lor (Nat.shiftRight e 25) (Nat.shiftLeft e 7)))) (Nat.xor (Nat.land e f) (Nat.land (Nat.xor e 4294967295) g))) 264347078) w0)
  rnd19 pa pb pc pd pe pf pg ph
    (Nat.mod (Nat.add t1 (Nat.add (Nat.xor (Nat.xor (Nat.lor (Nat.shiftRight a 2) (Nat.shiftLeft a 30)) (Nat.lor (Nat.shiftRight a 13) (Nat.shiftLeft a 19))) (Nat.lor (Nat.shiftRight a 22) (Nat.shiftLeft a 10))) (Nat.xor (Nat.xor (Nat.land a b) (Nat.land a c)) (Nat.land b c)))) 4294967296) a b c
    (Nat.mod (Nat.add d t1) 4294967296) e f g
    w1 w2 w3 w4 w5 w6 w7 w8 w9 w10 w11 w12 w13 w14 w15
    (Nat.mod (Nat.add (Nat.add (Nat.add w0 (Nat.xor (Nat.xor (Nat.lor (Nat.shiftRight w1 7) (Nat.shiftLeft w1 25)) (Nat.lor (Nat.shiftRight w1 18) (Nat.shiftLeft w1 14))) (Nat.shiftRight w1 3))) w9) (Nat.xor (Nat.xor (Nat.lor (Nat.shiftRight w14 17) (Nat.shiftLeft w14 15)) (Nat.lor (Nat.shiftRight w14 19) (Nat.shiftLeft w14 13))) (Nat.shiftRight w14 10))) 4294967296)

def rnd17 (pa pb pc pd pe pf pg ph a b c d e f g h w0 w1 w2 w3 w4 w5 w6 w7 w8 w9 w10 w11 w12 w13 w14 w15 : Nat) : Sha256State :=
  let t1 := (Nat.add (Nat.add (Nat.add (Nat.add h (Nat.xor (Nat.xor (Nat.lor (Nat.shiftRight e 6) (Nat.shiftLeft e 26)) (Nat.lor (Nat.shiftRight e 11) (Nat.shiftLeft e 21))) (Nat.lor (Nat.shiftRight e 25) (Nat.shiftLeft e 7)))) (Nat.xor (Nat.land e f) (Nat.land (Nat.xor e 4294967295) g))) 4022224774) w0)
  rnd18 pa pb pc pd pe pf pg ph
    (Nat.mod (Nat.add t1 (Nat.add (Nat.xor (Nat.xor (Nat.lor (Nat.shiftRight a 2) (Nat.shiftLeft a 30)) (Nat.lor (Nat.shiftRight a 13) (Nat.shiftLeft a 19))) (Nat.lor (Nat.shiftRight a 22) (Nat.shiftLeft a 10))) (Nat.xor (Nat.xor (Nat.land a b) (Nat.land a c)) (Nat.land b c)))) 4294967296) a b c
    (Nat.mod (Nat.add d t1) 4294967296) e f g
    w1 w2 w3 w4 w5 w6 w7 w8 w9 w10 w11 w12 w13 w14 w15
    (Nat.mod (Nat.add (Nat.add (Nat.add w0 (Nat.xor (Nat.xor (Nat.lor (Nat.shiftRight w1 7) (Nat.shiftLeft w1 25)) (Nat.lor (Nat.shiftRight w1 18) (Nat.shiftLeft w1 14))) (Nat.shiftRight w1 3))) w9) (Nat.xor (Nat.xor (Nat.lor (Nat.shiftRight w14 17) (Nat.shiftLeft w14 15)) (Nat.lor (Nat.shiftRight w14 19) (Nat.shiftLeft w14 13))) (Nat.shiftRight w14 10))) 4294967296)

def rnd16 (pa pb pc pd pe pf pg ph a b c d e f g h w0 w1 w2 w3 w4 w5 w6 w7 w8 w9 w10 w11 w12 w13 w14 w15 : Nat) : Sha256State :=
  let t1 := (Nat.add (Nat.add (Nat.add (Nat.add h (Nat.xor (Nat.xor (Nat.lor (Nat.shiftRight e 6) (Nat.shiftLeft e 26)) (Nat.lor (Nat.shiftRight e 11) (Nat.shiftLeft e 21))) (Nat.lor (Nat.shiftRight e 25) (Nat.shiftLeft e 7)))) (Nat.xor (Nat.land e f) (Nat.land (Nat.xor e 4294967295) g))) 3835390401) w0)
  rnd17 pa pb pc pd pe pf pg ph
    (Nat.mod (Nat.add t1 (Nat.add (Nat.xor (Nat.xor (Nat.lor (Nat.shiftRight a 2) (Nat.shiftLeft a 30)) (Nat.lor (Nat.shiftRight a 13) (Nat.shiftLeft a 19))) (Nat.lor (Nat.shiftRight a 22) (Nat.shiftLeft a 10))) (Nat.xor (Nat.xor (Nat.land a b) (Nat.land a c)) (Nat.land b c)))) 4294967296) a b c
    (Nat.mod (Nat.add d t1) 4294967296) e f g
    w1 w2 w3 w4 w5 w6 w7 w8 w9 w10 w11 w12 w13 w14 w15
    (Nat.mod (Nat.add (Nat.add (Nat.add w0 (Nat.xor (Nat.xor (Nat.lor (Nat.shiftRight w1 7) (Nat.shiftLeft w1 25)) (Nat.lor (Nat.shiftRight w1 18) (Nat.shiftLeft w1 14))) (Nat.shiftRight w1 3))) w9) (Nat.xor (Nat.xor (Nat.lor (Nat.shiftRight w14 17) (Nat.shiftLeft w14 15)) (Nat.lor (Nat.shiftRight w14 19) (Nat.shiftLeft w14 13))) (Nat.shiftRight w14 10))) 4294967296)

def rnd15 (pa pb pc pd pe pf pg ph a b c d e f g h w0 w1 w2 w3 w4 w5 w6 w7 w8 w9 w10 w11 w12 w13 w14 w15 : Nat) : Sha256State :=
  let t1 := (Nat.add (Nat.add (Nat.add (Nat.add h (Nat.xor (Nat.xor (Nat.lor (Nat.shiftRight e 6) (Nat.shiftLeft e 26)) (Nat.lor (Nat.shiftRight e 11) (Nat.shiftLeft e 21))) (Nat.lor (Nat.shiftRight e 25) (Nat.shiftLeft e 7)))) (Nat.xor (Nat.land e f) (Nat.land (Nat.xor e 4294967295) g))) 3248222580) w0)
  rnd16 pa pb pc pd pe pf pg ph
    (Nat.mod (Nat.add t1 (Nat.add (Nat.xor (Nat.xor (Nat.lor (Nat.shiftRight a 2) (Nat.shiftLeft a 30)) (Nat.lor (Nat.shiftRight a 13) (Nat.shiftLeft a 19))) (Nat.lor (Nat.shiftRight a 22) (Nat.shiftLeft a 10))) (Nat.xor (Nat.xor (Nat.land a b) (Nat.land a c)) (Nat.land b c)))) 4294967296) a b c
    (Nat.mod (Nat.add d t1) 4294967296) e f g
    w1 w2 w3 w4 w5 w6 w7 w8 w9 w10 w11 w12 w13 w14 w15
    (Nat.mod (Nat.add (Nat.add (Nat.add w0 (Nat.xor (Nat.xor (Nat.lor (Nat.shiftRight w1 7) (Nat.shiftLeft w1 25)) (Nat.lor (Nat.shiftRight w1 18) (Nat.shiftLeft w1 14))) (Nat.shiftRight w1 3))) w9) (Nat.xor (Nat.xor (Nat.lor (Nat.shiftRight w14 17) (Nat.shiftLeft w14 15)) (Nat.lor (Nat.shiftRight w14 19) (Nat.shiftLeft w14 13))) (Nat.shiftRight w14 10))) 4294967296)

def rnd14 (pa pb pc pd pe pf pg ph a b c d e f g h w0 w1 w2 w3 w4 w5 w6 w7 w8 w9 w10 w11 w12 w13 w14 w15 : Nat) : Sha256State :=
  let t1 := (Nat.add (Nat.add (Nat.add (Nat.add h (Nat.xor (Nat.xor (Nat.lor (Nat.shiftRight e 6) (Nat.shiftLeft e 26)) (Nat.lor (Nat.shiftRight e 11) (Nat.shiftLeft e 21))) (Nat.lor (Nat.shiftRight e 25) (Nat.shiftLeft e 7)))) (Nat.xor (Nat.land e f) (Nat.land (Nat.xor e 4294967295) g))) 2614888103) w0)
  rnd15 pa pb pc pd pe pf pg ph
    (Nat.mod (Nat.add t1 (Nat.add (Nat.xor (Nat.xor (Nat.lor (Nat.shiftRight a 2) (Nat.shiftLeft a 30)) (Nat.lor (Nat.shiftRight a 13) (Nat.shiftLeft a 19))) (Nat.lor (Nat.shiftRight a 22) (Nat.shiftLeft a 10))) (Nat.xor (Nat.xor (Nat.land a b) (Nat.land a c)) (Nat.land b c)))) 4294967296) a b c
    (Nat.mod (Nat.add d t1) 4294967296) e f g
    w1 w2 w3 w4 w5 w6 w7 w8 w9 w10 w11 w12 w13 w14 w15
    (Nat.mod (Nat.add (Nat.add (Nat.add w0 (Nat.xor (Nat.xor (Nat.lor (Nat.shiftRight w1 7) (Nat.shiftLeft w1 25)) (Nat.lor (Nat.shiftRight w1 18) (Nat.shiftLeft w1 14))) (Nat.shiftRight w1 3))) w9) (Nat.xor (Nat.xor (Nat.lor (Nat.shiftRight w14 17) (Nat.shiftLeft w14 15)) (Nat.lor (Nat.shiftRight w14 19) (Nat.shiftLeft w14 13))) (Nat.shiftRight w14 10))) 4294967296)

def rnd13 (pa pb pc pd pe pf pg ph a b c d e f g h w0 w1 w2 w3 w4 w5 w6 w7 w8 w9 w10 w11 w12 w13 w14 w15 : Nat) : Sha256State :=
  let t1 := (Nat.add (Nat.add (Nat.add (Nat.add h (Nat.xor (Nat.xor (Nat.lor (Nat.shiftRight e 6) (Nat.shiftLeft e 26)) (Nat.lor (Nat.shiftRight e 11) (Nat.shiftLeft e 21))) (Nat.lor (Nat.shiftRight e 25) (Nat.shiftLeft e 7)))) (Nat.xor (Nat.land e f) (Nat.land (Nat.xor e 4294967295) g))) 2162078206) w0)
  rnd14 pa pb pc pd pe pf pg ph
    (Nat.mod (Nat.add t1 (Nat.add (Nat.xor (Nat.xor (Nat.lor (Nat.shiftRight a 2) (Nat.shiftLeft a 30)) (Nat.lor (Nat.shiftRight a 13) (Nat.shiftLeft a 19))) (Nat.lor (Nat.shiftRight a 22) (Nat.shiftLeft a 10))) (Nat.xor (Nat.xor (Nat.land a b) (Nat.land a c)) (Nat.land b c)))) 4294967296) a b c
    (Nat.mod (Nat.add d t1) 4294967296) e f g
    w1 w2 w3 w4 w5 w6 w7 w8 w9 w10 w11 w12 w13 w14 w15
    (Nat.mod (Nat.add (Nat.add (Nat.add w0 (Nat.xor (Nat.xor (Nat.lor (Nat.shiftRight w1 7) (Nat.shiftLeft w1 25)) (Nat.lor (Nat.shiftRight w1 18) (Nat.shiftLeft w1 14))) (Nat.shiftRight w1 3))) w9) (Nat.xor (Nat.xor (Nat.lor (Nat.shiftRight w14 17) (Nat.shiftLeft w14 15)) (Nat.lor (Nat.shiftRight w14 19) (Nat.shiftLeft w14 13))) (Nat.shiftRight w14 10))) 4294967296)

def rnd12 (pa pb pc pd pe pf pg ph a b c d e f g h w0 w1 w2 w3 w4 w5 w6 w7 w8 w9 w10 w11 w12 w13 w14 w15 : Nat) : Sha256State :=
  let t1 := (Nat.add (Nat.add (Nat.add (Nat.add h (Nat.xor (Nat.xor (Nat.lor (Nat.shiftRight e 6) (Nat.shiftLeft e 26)) (Nat.lor (Nat.shiftRight e 11) (Nat.shiftLeft e 21))) (Nat.lor (Nat.shiftRight e 25) (Nat.shiftLeft e 7)))) (Nat.xor (Nat.land e f) (Nat.land (Nat.xor e 4294967295) g))) 1925078388) w0)
  rnd13 pa pb pc pd pe pf pg ph
    (Nat.mod (Nat.add t1 (Nat.add (Nat.xor (Nat.xor (Nat.lor (Nat.shiftRight a 2) (Nat.shiftLeft a 30)) (Nat.lor (Nat.shiftRight a 13) (Nat.shiftLeft a 19))) (Nat.lor (Nat.shiftRight a 22) (Nat.shiftLeft a 10))) (Nat.xor (Nat.xor (Nat.land a b) (Nat.land a c)) (Nat.land b c)))) 4294967296) a b c
    (Nat.mod (Nat.add d t1) 4294967296) e f g
    w1 w2 w3 w4 w5 w6 w7 w8 w9 w10 w11 w12 w13 w14 w15
    (Nat.mod (Nat.add (Nat.add (Nat.add w0 (Nat.xor (Nat.xor (Nat.lor (Nat.shiftRight w1 7) (Nat.shiftLeft w1 25)) (Nat.lor (Nat.shiftRight w1 18) (Nat.shiftLeft w1 14))) (Nat.shiftRight w1 3))) w9) (Nat.xor (Nat.xor (Nat.lor (Nat.shiftRight w14 17) (Nat.shiftLeft w14 15)) (Nat.lor (Nat.shiftRight w14 19) (Nat.shiftLeft w14 13))) (Nat.shiftRight w14 10))) 4294967296)

def rnd11 (pa pb pc pd pe pf pg ph a b c d e f g h w0 w1 w2 w3 w4 w5 w6 w7 w8 w9 w10 w11 w12 w13 w14 w15 : Nat) : Sha256State :=
  let t1 := (Nat.add (Nat.add (Nat.add (Nat.add h (Nat.xor (Nat.xor (Nat.lor (Nat.shiftRight e 6) (Nat.shiftLeft e 26)) (Nat.lor (Nat.shiftRight e 11) (Nat.shiftLeft e 21))) (Nat.lor (Nat.shiftRight e 25) (Nat.shiftLeft e 7)))) (Nat.xor (Nat.land e f) (Nat.land (Nat.xor e 4294967295) g))) 1426881987) w0)
  rnd12 pa pb pc pd pe pf pg ph
    (Nat.mod (Nat.add t1 (Nat.add (Nat.xor (Nat.xor (Nat.lor (Nat.shiftRight a 2) (Nat.shiftLeft a 30)) (Nat.lor (Nat.shiftRight a 13) (Nat.shiftLeft a 19))) (Nat.lor (Nat.shiftRight a 22) (Nat.shiftLeft a 10))) (Nat.xor (Nat.xor (Nat.land a b) (Nat.land a c)) (Nat.land b c)))) 4294967296) a b c
    (Nat.mod (Nat.add d t1) 4294967296) e f g
    w1 w2 w3 w4 w5 w6 w7 w8 w9 w10 w11 w12 w13 w14 w15
    (Nat.mod (Nat.add (Nat.add (Nat.add w0 (Nat.xor (Nat.xor (Nat.lor (Nat.shiftRight w1 7) (Nat.shiftLeft w1 25)) (Nat.lor (Nat.shiftRight w1 18) (Nat.shiftLeft w1 14))) (Nat.shiftRight w1 3))) w9) (Nat.xor (Nat.xor (Nat.lor (Nat.shiftRight w14 17) (Nat.shiftLeft w14 15)) (Nat.lor (Nat.shiftRight w14 19) (Nat.shiftLeft w14 13))) (Nat.shiftRight w14 10))) 4294967296)

def rnd10 (pa pb pc pd pe pf pg ph a b c d e f g h w0 w1 w2 w3 w4 w5 w6 w7 w8 w9 w10 w11 w12 w13 w14 w15 : Nat) : Sha256State :=
  let t1 := (Nat.add (Nat.add (Nat.add (Nat.add h (Nat.xor (Nat.xor (Nat.lor (Nat.shiftRight e 6) (Nat.shiftLeft e 26)) (Nat.lor (Nat.shiftRight e 11) (Nat.shiftLeft e 21))) (Nat.lor (Nat.shiftRight e 25) (Nat.shiftLeft e 7)))) (Nat.xor (Nat.land e f) (Nat.land (Nat.xor e 4294967295) g))) 607225278) w0)
  rnd11 pa pb pc pd pe pf pg ph
    (Nat.mod (Nat.add t1 (Nat.add (Nat.xor (Nat.xor (Nat.lor (Nat.shiftRight a 2) (Nat.shiftLeft a 30)) (Nat.lor (Nat.shiftRight a 13) (Nat.shiftLeft a 19))) (Nat.lor (Nat.shiftRight a 22) (Nat.shiftLeft a 10))) (Nat.xor (Nat.xor (Nat.land a b) (Nat.land a c)) (Nat.land b c)))) 4294967296) a b c
    (Nat.mod (Nat.add d t1) 4294967296) e f g
    w1 w2 w3 w4 w5 w6 w7 w8 w9 w10 w11 w12 w13 w14 w15
    (Nat.mod (Nat.add (Nat.add (Nat.add w0 (Nat.xor (Nat.xor (Nat.lor (Nat.shiftRight w1 7) (Nat.shiftLeft w1 25)) (Nat.lor (Nat.shiftRight w1 18) (Nat.shiftLeft w1 14))) (Nat.shiftRight w1 3))) w9) (Nat.xor (Nat.xor (Nat.lor (Nat.shiftRight w14 17) (Nat.shiftLeft w14 15)) (Nat.lor (Nat.shiftRight w14 19) (Nat.shiftLeft w14 13))) (Nat.shiftRight w14 10))) 4294967296)

def rnd9 (pa pb pc pd pe pf pg ph a b c d e f g h w0 w1 w2 w3 w4 w5 w6 w7 w8 w9 w10 w11 w12 w13 w14 w15 : Nat) : Sha256State :=
  let t1 := (Nat.add (Nat.add (Nat.add (Nat.add h (Nat.xor (Nat.xor (Nat.lor (Nat.shiftRight e 6) (Nat.shiftLeft e 26)) (Nat.lor (Nat.shiftRight e 11) (Nat.shiftLeft e 21))) (Nat.lor (Nat.shiftRight e 25) (Nat.shiftLeft e 7)))) (Nat.xor (Nat.land e f) (Nat.land (Nat.xor e 4294967295) g))) 310598401) w0)
  rnd10 pa pb pc pd pe pf pg ph
    (Nat.mod (Nat.add t1 (Nat.add (Nat.xor (Nat.xor (Nat.lor (Nat.shiftRight a 2) (Nat.shiftLeft a 30)) (Nat.lor (Nat.shiftRight a 13) (Nat.shiftLeft a 19))) (Nat.lor (Nat.shiftRight a 22) (Nat.shiftLeft a 10))) (Nat.xor (Nat.xor (Nat.land a b) (Nat.land a c)) (Nat.land b c)))) 4294967296) a b c
    (Nat.mod (Nat.add d t1) 4294967296) e f g
    w1 w2 w3 w4 w5 w6 w7 w8 w9 w10 w11 w12 w13 w14 w15
    (Nat.mod (Nat.add (Nat.add (Nat.add w0 (Nat.xor (Nat.xor (Nat.lor (Nat.shiftRight w1 7) (Nat.shiftLeft w1 25)) (Nat.lor (Nat.shiftRight w1 18) (Nat.shiftLeft w1 14))) (Nat.shiftRight w1 3))) w9) (Nat.xor (Nat.xor (Nat.lor (Nat.shiftRight w14 17) (Nat.shiftLeft w14 15)) (Nat.lor (Nat.shiftRight w14 19) (Nat.shiftLeft w14 13))) (Nat.shiftRight w14 10))) 4294967296)

def rnd8 (pa pb pc pd pe pf pg ph a b c d e f g h w0 w1 w2 w3 w4 w5 w6 w7 w8 w9 w10 w11 w12 w13 w14 w15 : Nat) : Sha256State :=
  let t1 := (Nat.add (Nat.add (Nat.add (Nat.add h (Nat.xor (Nat.xor (Nat.lor (Nat.shiftRight e 6) (Nat.shiftLeft e 26)) (Nat.lor (Nat.shiftRight e 11) (Nat.shiftLeft e 21))) (Nat.lor (Nat.shiftRight e 25) (Nat.shiftLeft e 7)))) (Nat.xor (Nat.land e f) (Nat.land (Nat.xor e 4294967295) g))) 3624381080) w0)
  rnd9 pa pb pc pd pe pf pg ph
    (Nat.mod (Nat.add t1 (Nat.add (Nat.xor (Nat.xor (Nat.lor (Nat.shiftRight a 2) (Nat.shiftLeft a 30)) (Nat.lor (Nat.shiftRight a 13) (Nat.shiftLeft a 19))) (Nat.lor (Nat.shiftRight a 22) (Nat.shiftLeft a 10))) (Nat.xor (Nat.xor (Nat.land a b) (Nat.land a c)) (Nat.land b c)))) 4294967296) a b c
    (Nat.mod (Nat.add d t1) 4294967296) e f g
    w1 w2 w3 w4 w5 w6 w7 w8 w9 w10 w11 w12 w13 w14 w15
    (Nat.mod (Nat.add (Nat.add (Nat.add w0 (Nat.xor (Nat.xor (Nat.lor (Nat.shiftRight w1 7) (Nat.shiftLeft w1 25)) (Nat.lor (Nat.shiftRight w1 18) (Nat.shiftLeft w1 14))) (Nat.shiftRight w1 3))) w9) (Nat.xor (Nat.xor (Nat.lor (Nat.shiftRight w14 17) (Nat.shiftLeft w14 15)) (Nat.lor (Nat.shiftRight w14 19) (Nat.shiftLeft w14 13))) (Nat.shiftRight w14 10))) 4294967296)

def rnd7 (pa pb pc pd pe pf pg ph a b c d e f g h w0 w1 w2 w3 w4 w5 w6 w7 w8 w9 w10 w11 w12 w13 w14 w15 : Nat) : Sha256State :=
  let t1 := (Nat.add (Nat.add (Nat.add (Nat.add h (Nat.xor (Nat.xor (Nat.lor (Nat.shiftRight e 6) (Nat.shiftLeft e 26)) (Nat.lor (Nat.shiftRight e 11) (Nat.shiftLeft e 21))) (Nat.lor (Nat.shiftRight e 25) (Nat.shiftLeft e 7)))) (Nat.xor (Nat.land e f) (Nat.land (Nat.xor e 4294967295) g))) 2870763221) w0)
  rnd8 pa pb pc pd pe pf pg ph
    (Nat.mod (Nat.add t1 (Nat.add (Nat.xor (Nat.xor (Nat.lor (Nat.shiftRight a 2) (Nat.shiftLeft a 30)) (Nat.lor (Nat.shiftRight a 13) (Nat.shiftLeft a 19))) (Nat.lor (Nat.shiftRight a 22) (Nat.shiftLeft a 10))) (Nat.xor (Nat.xor (Nat.land a b) (Nat.land a c)) (Nat.land b c)))) 4294967296) a b c
    (Nat.mod (Nat.add d t1) 4294967296) e f g
    w1 w2 w3 w4 w5 w6 w7 w8 w9 w10 w11 w12 w13 w14 w15
    (Nat.mod (Nat.add (Nat.add (Nat.add w0 (Nat.xor (Nat.xor (Nat.lor (Nat.shiftRight w1 7) (Nat.shiftLeft w1 25)) (Nat.lor (Nat.shiftRight w1 18) (Nat.shiftLeft w1 14))) (Nat.shiftRight w1 3))) w9) (Nat.xor (Nat.xor (Nat.lor (Nat.shiftRight w14 17) (Nat.shiftLeft w14 15)) (Nat.lor (Nat.shiftRight w14 19) (Nat.shiftLeft w14 13))) (Nat.shiftRight w14 10))) 4294967296)

def rnd6 (pa pb pc pd pe pf pg ph a b c d e f g h w0 w1 w2 w3 w4 w5 w6 w7 w8 w9 w10 w11 w12 w13 w14 w15 : Nat) : Sha256State :=
  let t1 := (Nat.add (Nat.add (Nat.add (Nat.add h (Nat.xor (Nat.xor (Nat.lor (Nat.shiftRight e 6) (Nat.shiftLeft e 26)) (Nat.lor (Nat.shiftRight e 11) (Nat.shiftLeft e 21))) (Nat.lor (Nat.shiftRight e 25) (Nat.shiftLeft e 7)))) (Nat.xor (Nat.land e f) (Nat.land (Nat.xor e 4294967295) g))) 2453635748) w0)
  rnd7 pa pb pc pd pe pf pg ph
    (Nat.mod (Nat.add t1 (Nat.add (Nat.xor (Nat.xor (Nat.lor (Nat.shiftRight a 2) (Nat.shiftLeft a 30)) (Nat.lor (Nat.shiftRight a 13) (Nat.shiftLeft a 19))) (Nat.lor (Nat.shiftRight a 22) (Nat.shiftLeft a 10))) (Nat.xor (Nat.xor (Nat.land a b) (Nat.land a c)) (Nat.land b c)))) 4294967296) a b c
    (Nat.mod (Nat.add d t1) 4294967296) e f g
    w1 w2 w3 w4 w5 w6 w7 w8 w9 w10 w11 w12 w13 w14 w15
    (Nat.mod (Nat.add (Nat.add (Nat.add w0 (Nat.xor (Nat.xor (Nat.lor (Nat.shiftRight w1 7) (Nat.shiftLeft w1 25)) (Nat.lor (Nat.shiftRight w1 18) (Nat.shiftLeft w1 14))) (Nat.shiftRight w1 3))) w9) (Nat.xor (Nat.xor (Nat.lor (Nat.shiftRight w14 17) (Nat.shiftLeft w14 15)) (Nat.lor (Nat.shiftRight w14 19) (Nat.shiftLeft w14 13))) (Nat.shiftRight w14 10))) 4294967296)

def rnd5 (pa pb pc pd pe pf pg ph a b c d e f g h w0 w1 w2 w3 w4 w5 w6 w7 w8 w9 w10 w11 w12 w13 w14 w15 : Nat) : Sha256State :=
  let t1 := (Nat.add (Nat.add (Nat.add (Nat.add h (Nat.xor (Nat.xor (Nat.lor (Nat.shiftRight e 6) (Nat.shiftLeft e 26)) (Nat.lor (Nat.shiftRight e 11) (Nat.shiftLeft e 21))) (Nat.lor (Nat.shiftRight e 25) (Nat.shiftLeft e 7)))) (Nat.xor (Nat.land e f) (Nat.land (Nat.xor e 4294967295) g))) 1508970993) w0)
  rnd6 pa pb pc pd pe pf pg ph
    (Nat.mod (Nat.add t1 (Nat.add (Nat.xor (Nat.xor (Nat.lor (Nat.shiftRight a 2) (Nat.shiftLeft a 30)) (Nat.lor (Nat.shiftRight a 13) (Nat.shiftLeft a 19))) (Nat.lor (Nat.shiftRight a 22) (Nat.shiftLeft a 10))) (Nat.xor (Nat.xor (Nat.land a b) (Nat.land a c)) (Nat.land b c)))) 4294967296) a b c
    (Nat.mod (Nat.add d t1) 4294967296) e f g
    w1 w2 w3 w4 w5 w6 w7 w8 w9 w10 w11 w12 w13 w14 w15
    (Nat.mod (Nat.add (Nat.add (Nat.add w0 (Nat.xor (Nat.xor (Nat.lor (Nat.shiftRight w1 7) (Nat.shiftLeft w1 25)) (Nat.lor (Nat.shiftRight w1 18) (Nat.shiftLeft w1 14))) (Nat.shiftRight w1 3))) w9) (Nat.xor (Nat.xor (Nat.lor (Nat.shiftRight w14 17) (Nat.shiftLeft w14 15)) (Nat.lor (Nat.shiftRight w14 19) (Nat.shiftLeft w14 13))) (Nat.shiftRight w14 10))) 4294967296)

def rnd4 (pa pb pc pd pe pf pg ph a b c d e f g h w0 w1 w2 w3 w4 w5 w6 w7 w8 w9 w10 w11 w12 w13 w14 w15 : Nat) : Sha256State :=
  let t1 := (Nat.add (Nat.add (Nat.add (Nat.add h (Nat.xor (Nat.xor (Nat.lor (Nat.shiftRight e 6) (Nat.shiftLeft e 26)) (Nat.lor (Nat.shiftRight e 11) (Nat.shiftLeft e 21))) (Nat.lor (Nat.shiftRight e 25) (Nat.shiftLeft e 7)))) (Nat.xor (Nat.land e f) (Nat.land (Nat.xor e 4294967295) g))) 961987163) w0)
  rnd5 pa pb pc pd pe pf pg ph
    (Nat.mod (Nat.add t1 (Nat.add (Nat.xor (Nat.xor (Nat.lor (Nat.shiftRight a 2) (Nat.shiftLeft a 30)) (Nat.lor (Nat.shiftRight a 13) (Nat.shiftLeft a 19))) (Nat.lor (Nat.shiftRight a 22) (Nat.shiftLeft a 10))) (Nat.xor (Nat.xor (Nat.land a b) (Nat.land a c)) (Nat.land b c)))) 4294967296) a b c
    (Nat.mod (Nat.add d t1) 4294967296) e f g
    w1 w2 w3 w4 w5 w6 w7 w8 w9 w10 w11 w12 w13 w14 w15
    (Nat.mod (Nat.add (Nat.add (Nat.add w0 (Nat.xor (Nat.xor (Nat.lor (Nat.shiftRight w1 7) (Nat.shiftLeft w1 25)) (Nat.lor (Nat.shiftRight w1 18) (Nat.shiftLeft w1 14))) (Nat.shiftRight w1 3))) w9) (Nat.xor (Nat.xor (Nat.lor (Nat.shiftRight w14 17) (Nat.shiftLeft w14 15)) (Nat.lor (Nat.shiftRight w14 19) (Nat.shiftLeft w14 13))) (Nat.shiftRight w14 10))) 4294967296)

def rnd3 (pa pb pc pd pe pf pg ph a b c d e f g h w0 w1 w2 w3 w4 w5 w6 w7 w8 w9 w10 w11 w12 w13 w14 w15 : Nat) : Sha256State :=
  let t1 := (Nat.add (Nat.add (Nat.add (Nat.add h (Nat.xor (Nat.xor (Nat.lor (Nat.shiftRight e 6) (Nat.shiftLeft e 26)) (Nat.lor (Nat.shiftRight e 11) (Nat.shiftLeft e 21))) (Nat.lor (Nat.shiftRight e 25) (Nat.shiftLeft e 7)))) (Nat.xor (Nat.land e f) (Nat.land (Nat.xor e 4294967295) g))) 3921009573) w0)
  rnd4 pa pb pc pd pe pf pg ph
    (Nat.mod (Nat.add t1 (Nat.add (Nat.xor (Nat.xor (Nat.lor (Nat.shiftRight a 2) (Nat.shiftLeft a 30)) (Nat.lor (Nat.shiftRight a 13) (Nat.shiftLeft a 19))) (Nat.lor (Nat.shiftRight a 22) (Nat.shiftLeft a 10))) (Nat.xor (Nat.xor (Nat.land a b) (Nat.land a c)) (Nat.land b c)))) 4294967296) a b c
    (Nat.mod (Nat.add d t1) 4294967296) e f g
    w1 w2 w3 w4 w5 w6 w7 w8 w9 w10 w11 w12 w13 w14 w15
    (Nat.mod (Nat.add (Nat.add (Nat.add w0 (Nat.xor (Nat.xor (Nat.lor (Nat.shiftRight w1 7) (Nat.shiftLeft w1 25)) (Nat.lor (Nat.shiftRight w1 18) (Nat.shiftLeft w1 14))) (Nat.shiftRight w1 3))) w9) (Nat.xor (Nat.xor (Nat.lor (Nat.shiftRight w14 17) (Nat.shiftLeft w14 15)) (Nat.lor (Nat.shiftRight w14 19) (Nat.shiftLeft w14 13))) (Nat.shiftRight w14 10))) 4294967296)

def rnd2 (pa pb pc pd pe pf pg ph a b c d e f g h w0 w1 w2 w3 w4 w5 w6 w7 w8 w9 w10 w11 w12 w13 w14 w15 : Nat) : Sha256State :=
  let t1 := (Nat.add (Nat.add (Nat.add (Nat.add h (Nat.xor (Nat.xor (Nat.lor (Nat.shiftRight e 6) (Nat.shiftLeft e 26)) (Nat.lor (Nat.shiftRight e 11) (Nat.shiftLeft e 21))) (Nat.lor (Nat.shiftRight e 25) (Nat.shiftLeft e 7)))) (Nat.xor (Nat.land e f) (Nat.land (Nat.xor e 4294967295) g))) 3049323471) w0)
  rnd3 pa pb pc pd pe pf pg ph
    (Nat.mod (Nat.add t1 (Nat.add (Nat.xor (Nat.xor (Nat.lor (Nat.shiftRight a 2) (Nat.shiftLeft a 30)) (Nat.lor (Nat.shiftRight a 13) (Nat.shiftLeft a 19))) (Nat.lor (Nat.shiftRight a 22) (Nat.shiftLeft a 10))) (Nat.xor (Nat.xor (Nat.land a b) (Nat.land a c)) (Nat.land b c)))) 4294967296) a b c
    (Nat.mod (Nat.add d t1) 4294967296) e f g
    w1 w2 w3 w4 w5 w6 w7 w8 w9 w10 w11 w12 w13 w14 w15
    (Nat.mod (Nat.add (Nat.add (Nat.add w0 (Nat.xor (Nat.xor (Nat.lor (Nat.shiftRight w1 7) (Nat.shiftLeft w1 25)) (Nat.lor (Nat.shiftRight w1 18) (Nat.shiftLeft w1 14))) (Nat.shiftRight w1 3))) w9) (Nat.xor (Nat.xor (Nat.lor (Nat.shiftRight w14 17) (Nat.shiftLeft w14 15)) (Nat.lor (Nat.shiftRight w14 19) (Nat.shiftLeft w14 13))) (Nat.shiftRight w14 10))) 4294967296)

def rnd1 (pa pb pc pd pe pf pg ph a b c d e f g h w0 w1 w2 w3 w4 w5 w6 w7 w8 w9 w10 w11 w12 w13 w14 w15 : Nat) : Sha256State :=
  let t1 := (Nat.add (Nat.add (Nat.add (Nat.add h (Nat.xor (Nat.xor (Nat.lor (Nat.shiftRight e 6) (Nat.shiftLeft e 26)) (Nat.lor (Nat.shiftRight e 11) (Nat.shiftLeft e 21))) (Nat.lor (Nat.shiftRight e 25) (Nat.shiftLeft e 7)))) (Nat.xor (Nat.land e f) (Nat.land (Nat.xor e 4294967295) g))) 1899447441) w0)
  rnd2 pa pb pc pd pe pf pg ph
    (Nat.mod (Nat.add t1 (Nat.add (Nat.xor (Nat.xor (Nat.lor (Nat.shiftRight a 2) (Nat.shiftLeft a 30)) (Nat.lor (Nat.shiftRight a 13) (Nat.shiftLeft a 19))) (Nat.lor (Nat.shiftRight a 22) (Nat.shiftLeft a 10))) (Nat.xor (Nat.xor (Nat.land a b) (Nat.land a c)) (Nat.land b c)))) 4294967296) a b c
    (Nat.mod (Nat.add d t1) 4294967296) e f g
    w1 w2 w3 w4 w5 w6 w7 w8 w9 w10 w11 w12 w13 w14 w15
    (Nat.mod (Nat.add (Nat.add (Nat.add w0 (Nat.xor (Nat.xor (Nat.lor (Nat.shiftRight w1 7) (Nat.shiftLeft w1 25)) (Nat.lor (Nat.shiftRight w1 18) (Nat.shiftLeft w1 14))) (Nat.shiftRight w1 3))) w9) (Nat.xor (Nat.xor (Nat.lor (Nat.shiftRight w14 17) (Nat.shiftLeft w14 15)) (Nat.lor (Nat.shiftRight w14 19) (Nat.shiftLeft w14 13))) (Nat.shiftRight w14 10))) 4294967296)

def rnd0 (pa pb pc pd pe pf pg ph a b c d e f g h w0 w1 w2 w3 w4 w5 w6 w7 w8 w9 w10 w11 w12 w13 w14 w15 : Nat) : Sha256State :=
  let t1 := (Nat.add (Nat.add (Nat.add (Nat.add h (Nat.xor (Nat.xor (Nat.lor (Nat.shiftRight e 6) (Nat.shiftLeft e 26)) (Nat.lor (Nat.shiftRight e 11) (Nat.shiftLeft e 21))) (Nat.lor (Nat.shiftRight e 25) (Nat.shiftLeft e 7)))) (Nat.xor (Nat.land e f) (Nat.land (Nat.xor e 4294967295) g))) 1116352408) w0)
  rnd1 pa pb pc pd pe pf pg ph
    (Nat.mod (Nat.add t1 (Nat.add (Nat.xor (Nat.xor (Nat.lor (Nat.shiftRight a 2) (Nat.shiftLeft a 30)) (Nat.lor (Nat.shiftRight a 13) (Nat.shiftLeft a 19))) (Nat.lor (Nat.shiftRight a 22) (Nat.shiftLeft a 10))) (Nat.xor (Nat.xor (Nat.land a b) (Nat.land a c)) (Nat.land b c)))) 4294967296) a b c
    (Nat.mod (Nat.add d t1) 4294967296) e f g
    w1 w2 w3 w4 w5 w6 w7 w8 w9 w10 w11 w12 w13 w14 w15
    (Nat.mod (Nat.add (Nat.add (Nat.add w0 (Nat.xor (Nat.xor (Nat.lor (Nat.shiftRight w1 7) (Nat.shiftLeft w1 25)) (Nat.lor (Nat.shiftRight w1 18) (Nat.shiftLeft w1 14))) (Nat.shiftRight w1 3))) w9) (Nat.xor (Nat.xor (Nat.lor (Nat.shiftRight w14 17) (Nat.shiftLeft w14 15)) (Nat.lor (Nat.shiftRight w14 19) (Nat.shiftLeft w14 13))) (Nat.shiftRight w14 10))) 4294967296)

def sha256Compress (st : Sha256State) (w0 w1 w2 w3 w4 w5 w6 w7 w8 w9 w10 w11 w12 w13 w14 w15 : Nat) : Sha256State :=
  rnd0 st.a st.b st.c st.d st.e st.f st.g st.h st.a st.b st.c st.d st.e st.f st.g st.h w0 w1 w2 w3 w4 w5 w6 w7 w8 w9 w10 w11 w12 w13 w14 w15

/-- The SHA-256 initial hash value (FIPS 180-4 §5.3.3). -/
def sha256Init : Sha256State :=
  ⟨0x6a09e667, 0xbb67ae85, 0x3c6ef372, 0xa54ff53a,
   0x510e527f, 0x9b05688c, 0x1f83d9ab, 0x5be0cd19⟩

/-- Process a padded message 16 words (one block) at a time. -/
def sha256Blocks (st : Sha256State) : List Nat → Sha256State
  | w0 :: w1 :: w2 :: w3 :: w4 :: w5 :: w6 :: w7 ::
    w8 :: w9 :: w10 :: w11 :: w12 :: w13 :: w14 :: w15 :: rest =>
    sha256Blocks (sha256Compress st w0 w1 w2 w3 w4 w5 w6 w7 w8 w9 w10 w11 w12 w13 w14 w15) rest
  | _ => st

/-- SHA-256 padding: `0x80`, zeros to 56 mod 64, 8-byte big-endian bit
length (FIPS 180-4 §5.1.1). -/
def sha256Pad (msg : List Nat) : List Nat :=
  let len := msg.length
  let zeros := (119 - len % 64) % 64
  msg ++ [0x80] ++ List.replicate zeros 0 ++ natToBytesBE 8 (len * 8)

/-- SHA-256 of a byte list: 32-byte digest. -/
def sha256 (msg : List Nat) : List Nat :=
  let s := sha256Blocks sha256Init (bytesToWordsBE (sha256Pad msg))
  wordsToBytesBE [s.a, s.b, s.c, s.d, s.e, s.f, s.g, s.h]

/-! ## HMAC-SHA-256 (RFC 2104) and PBKDF2 (RFC 8018) -/

/-- HMAC-SHA-256: keys longer than the 64-byte block are hashed first;
the key is zero-padded to 64 bytes and xored with the `0x36`/`0x5c`
pads. -/
def hmacSha256 (key msg : List Nat) : List Nat :=
  let k0 := if 64 < key.length then sha256 key else key
  let k0p := k0 ++ List.replicate (64 - k0.length) 0
  let inner := sha256 (zipXor k0p (List.replicate 64 0x36) ++ msg)
  sha256 (zipXor k0p (List.replicate 64 0x5c) ++ inner)

/-- One PBKDF2 iteration inside a block: `U_{j+1} = PRF(P, U_j)` and the
running xor accumulator `T`. -/
def pbkdf2Step (p : List Nat) (s : List Nat × List Nat) : List Nat × List Nat :=
  let u := hmacSha256 p s.1
  (u, zipXor s.2 u)

/-- `n` PBKDF2 iterations. -/
def pbkdf2Loop (p : List Nat) : Nat → List Nat × List Nat → List Nat × List Nat
  | 0, s => s
  | n + 1, s => pbkdf2Loop p n (pbkdf2Step p s)

/-- PBKDF2-HMAC-SHA256 with a 32-byte (256-bit) output: since dkLen
equals the hash length, the derived key is the single block
`T₁ = U₁ ⊕ … ⊕ U_c` with `U₁ = PRF(P, S ‖ INT₃₂ᴮᴱ(1))` (RFC 8018 §5.2).
This is `pbkdf2_hmac_sha256` of user-password.ts, which always requests
256 bits from WebCrypto `deriveBits`. -/
def pbkdf2Sha256 (p salt : List Nat) (c : Nat) : List Nat :=
  let u1 := hmacSha256 p (salt ++ natToBytesBE 4 1)
  (pbkdf2Loop p (c - 1) (u1, u1)).2

set_option maxRecDepth 100000 in
theorem sha256_empty_vector :
    bytesToHex (sha256 []) = "e3b0c44298fc1c149afbf4c8996fb92427ae41e4649b934ca495991b7852b855" := by decide

set_option maxRecDepth 100000 in
theorem pbkdf2_rfc_vector :
    bytesToHex (pbkdf2Sha256 (utf8Encode "password") (utf8Encode "salt") 2) =
      "ae4d0c95af6b46d32d0adff928f06dd02a303f8ef3c251dfd6e2d85a95474c43" := by decide


/-! ## JavaScript failure modes and the V2 challenge path -/

/-- The exceptions the challenge code can raise: `TypeError` (a builtin
applied to `undefined`, or an out-of-range WebCrypto parameter),
`SyntaxError` (`Uint8Array.fromHex` on bad input), `OperationError`
(WebCrypto `deriveBits` with zero iterations). -/
inductive JsErr where
  | typeError
  | syntaxError
  | operationError
deriving DecidableEq, Repr

deriving instance DecidableEq for Except

/-- JS `String.prototype.split` with a one-character separator,
structurally on the character list: `"".split(sep)` is `[""]`, a
trailing separator yields a trailing empty field. -/
def jsSplitAux (sep : Char) : List Char → List Char → List String
  | [], acc => [⟨acc.reverse⟩]
  | c :: cs, acc =>
    if c = sep then ⟨acc.reverse⟩ :: jsSplitAux sep cs []
    else jsSplitAux sep cs (c :: acc)

/-- `challenge.split("$")`. -/
def jsSplit (s : String) (sep : Char) : List String :=
  jsSplitAux sep s.data []

/-- Boolean list prefix test. -/
def listStartsWith : List Char → List Char → Bool
  | [], _ => true
  | _ :: _, [] => false
  | p :: ps, c :: cs => p = c && listStartsWith ps cs

/-- JS `String.prototype.startsWith`. -/
def jsStartsWith (s p : String) : Bool :=
  listStartsWith p.data s.data

/-- `Uint8Array.fromHex` on a possibly-`undefined` argument (`none`
models `undefined`, as produced by destructuring a too-short array):
`undefined` throws `TypeError`, odd-length or non-hex input throws
`SyntaxError`. -/
def uint8ArrayFromHex : Option String → Except JsErr (List Nat)
  | none => .error .typeError
  | some s =>
    match hexCharsToBytes s.data with
    | some bs => .ok bs
    | none => .error .syntaxError

/-- Longest leading run of decimal digits, as a number. -/
def digitsPrefix : List Char → Option Nat
  | c :: cs =>
    if 48 ≤ c.toNat ∧ c.toNat ≤ 57 then
      some ((digitsPrefix cs).getD 0 + (c.toNat - 48) * 10 ^ (cs.takeWhile (fun d => 48 ≤ d.toNat ∧ d.toNat ≤ 57)).length)
    else none
  | [] => none

/-- JS `parseInt(s, 10)` on a possibly-`undefined` argument: skip leading
whitespace, optional sign, then the longest digit run; `none` models
`NaN` (also the result of `parseInt(undefined, 10)`). Exotic whitespace
beyond space/tab/newline/carriage-return is out of scope. -/
def jsParseInt : Option String → Option Int
  | none => none
  | some s =>
    let cs := s.data.dropWhile (fun c => c = ' ' ∨ c = '\t' ∨ c = '\n' ∨ c = '\r')
    match cs with
    | '-' :: rest => (digitsPrefix rest).map (fun n => -(n : Int))
    | '+' :: rest => (digitsPrefix rest).map (fun n => (n : Int))
    | _ => (digitsPrefix cs).map (fun n => (n : Int))

/-- WebCrypto `deriveBits` for PBKDF2 (as wrapped by
`pbkdf2_hmac_sha256`): the iteration count is `[EnforceRange] unsigned
long`, so `NaN` (`none`) or an out-of-range value throws `TypeError`,
zero iterations throw `OperationError`, and otherwise the RFC 8018
derivation runs with a 256-bit output. -/
def deriveBitsPbkdf2 (p salt : List Nat) (iters : Option Int) : Except JsErr (List Nat) :=
  match iters with
  | none => .error .typeError
  | some i =>
    if i < 0 ∨ 4294967295 < i then .error .typeError
    else if i = 0 then .error .operationError
    else .ok (pbkdf2Sha256 p salt i.toNat)

/-- `handleChallengeV2`: split on `$`, destructure the first five fields
(missing fields are `undefined`, extra fields are dropped — JS array
destructuring), then the two chained PBKDF2 passes of
user-password.ts. -/
def handleChallengeV2 (challenge password : String) : Except JsErr String :=
  let fields := jsSplit challenge '$'
  let iter1 := fields.get? 1
  let salt1 := fields.get? 2
  let iter2 := fields.get? 3
  let salt2 := fields.get? 4
  do
    let pw := utf8Encode password
    let s1 ← uint8ArrayFromHex salt1
    let hash1 ← deriveBitsPbkdf2 pw s1 (jsParseInt iter1)
    let s2 ← uint8ArrayFromHex salt2
    let hash2 ← deriveBitsPbkdf2 hash1 s2 (jsParseInt iter2)
    pure (salt2.getD "undefined" ++ "$" ++ bytesToHex hash2)

/-- `handleChallenge`: version dispatch on the challenge prefix. The V1
path cannot fail. -/
def handleChallenge (challenge password : String) : Except JsErr String :=
  if jsStartsWith challenge "2$" then handleChallengeV2 challenge password
  else .ok (handleChallengeV1 challenge password)



/-! ## Word-level evaluation form of the PBKDF2 loop

`pbkdf2Loop` re-derives the HMAC pads and re-pads both hash inputs on
every iteration, which is prohibitively deep for kernel evaluation of
the 10000-iteration test vector. The loop is therefore replayed on a
word-level form (`pbkdf2LoopW`) that keeps the 256-bit running values as
eight 32-bit words and reuses the two precompressed pad states; the
bridge theorems below prove the two forms compute the same bytes. -/

/-- A 256-bit value as eight 32-bit big-endian words. -/
structure Words8 where
  x0 : Nat
  x1 : Nat
  x2 : Nat
  x3 : Nat
  x4 : Nat
  x5 : Nat
  x6 : Nat
  x7 : Nat
deriving DecidableEq, Repr

/-- The 32 bytes of a `Words8`. -/
def w8ToBytes (w : Words8) : List Nat :=
  wordsToBytesBE [w.x0, w.x1, w.x2, w.x3, w.x4, w.x5, w.x6, w.x7]

/-- SHA-256 state seen as eight words. -/
def w8OfState (s : Sha256State) : Words8 :=
  ⟨s.a, s.b, s.c, s.d, s.e, s.f, s.g, s.h⟩

/-- Pointwise xor of two 256-bit values. -/
def w8Xor (a b : Words8) : Words8 :=
  ⟨Nat.xor a.x0 b.x0, Nat.xor a.x1 b.x1, Nat.xor a.x2 b.x2, Nat.xor a.x3 b.x3,
   Nat.xor a.x4 b.x4, Nat.xor a.x5 b.x5, Nat.xor a.x6 b.x6, Nat.xor a.x7 b.x7⟩

/-- Every word fits in 32 bits. -/
def Words8.Bounded (w : Words8) : Prop :=
  w.x0 < 4294967296 ∧ w.x1 < 4294967296 ∧ w.x2 < 4294967296 ∧ w.x3 < 4294967296 ∧
  w.x4 < 4294967296 ∧ w.x5 < 4294967296 ∧ w.x6 < 4294967296 ∧ w.x7 < 4294967296

instance (w : Words8) : Decidable w.Bounded := by
  unfold Words8.Bounded
  infer_instance

/-- HMAC-SHA-256 of a 32-byte message, starting from the two
precompressed pad states `ist = compress(init, ipad-block)` and
`ost = compress(init, opad-block)`: one further compression per hash,
with the fixed padding block of a 96-byte message (`0x80`, zeros,
bit length 768). -/
def hmacW (ist ost : Sha256State) (u : Words8) : Words8 :=
  let inn := w8OfState (sha256Compress ist u.x0 u.x1 u.x2 u.x3 u.x4 u.x5 u.x6 u.x7
    2147483648 0 0 0 0 0 0 768)
  w8OfState (sha256Compress ost inn.x0 inn.x1 inn.x2 inn.x3 inn.x4 inn.x5 inn.x6 inn.x7
    2147483648 0 0 0 0 0 0 768)

/-- Word-level PBKDF2 iteration. -/
def pbkdf2StepW (ist ost : Sha256State) (s : Words8 × Words8) : Words8 × Words8 :=
  let u := hmacW ist ost s.1
  (u, w8Xor s.2 u)

/-- `n` word-level PBKDF2 iterations. -/
def pbkdf2LoopW (ist ost : Sha256State) : Nat → Words8 × Words8 → Words8 × Words8
  | 0, s => s
  | n + 1, s => pbkdf2LoopW ist ost n (pbkdf2StepW ist ost s)

theorem pbkdf2LoopW_add (ist ost : Sha256State) (m n : Nat) (s : Words8 × Words8) :
    pbkdf2LoopW ist ost (m + n) s = pbkdf2LoopW ist ost n (pbkdf2LoopW ist ost m s) := by
  induction m generalizing s with
  | zero => rw [Nat.zero_add]; rfl
  | succ k ih =>
    rw [Nat.succ_add]
    exact ih (pbkdf2StepW ist ost s)

/-! ### Byte/word conversion lemmas for the bridge -/

theorem natToBytesBE_four (v : Nat) :
    natToBytesBE 4 v = [v >>> 24 % 256, v >>> 16 % 256, v >>> 8 % 256, v % 256] := by
  show [v / 256 / 256 / 256 % 256, v / 256 / 256 % 256, v / 256 % 256, v % 256] = _
  simp [Nat.shiftRight_eq_div_pow, Nat.div_div_eq_div_mul]

theorem xor_byte_at (k a b : Nat) :
    Nat.xor (a >>> k % 256) (b >>> k % 256) = Nat.xor a b >>> k % 256 := by
  show (a >>> k % 256) ^^^ (b >>> k % 256) = (a ^^^ b) >>> k % 256
  apply Nat.eq_of_testBit_eq
  intro i
  have h256 : (256 : Nat) = 2 ^ 8 := by norm_num
  simp only [h256, Nat.testBit_mod_two_pow, Nat.testBit_xor, Nat.testBit_shiftRight]
  by_cases hi : i < 8 <;> simp [hi]

theorem bytesToWordsBE_roundTrip (v : Nat) (hv : v < 4294967296) (rest : List Nat) :
    bytesToWordsBE (natToBytesBE 4 v ++ rest) = v :: bytesToWordsBE rest := by
  rw [natToBytesBE_four]
  show wordOfBytesBE (v >>> 24 % 256) (v >>> 16 % 256) (v >>> 8 % 256) (v % 256)
      :: bytesToWordsBE rest = _
  have e : wordOfBytesBE (v >>> 24 % 256) (v >>> 16 % 256) (v >>> 8 % 256) (v % 256) = v := by
    show ((v >>> 24 % 256 * 256 + v >>> 16 % 256) * 256 + v >>> 8 % 256) * 256 + v % 256 = v
    simp only [Nat.shiftRight_eq_div_pow]
    omega
  rw [e]

theorem zipXor_bytes4 (a b : Nat) (ra rb : List Nat) :
    zipXor (natToBytesBE 4 a ++ ra) (natToBytesBE 4 b ++ rb)
      = natToBytesBE 4 (Nat.xor a b) ++ zipXor ra rb := by
  simp only [natToBytesBE_four]
  show [Nat.xor (a >>> 24 % 256) (b >>> 24 % 256), Nat.xor (a >>> 16 % 256) (b >>> 16 % 256),
        Nat.xor (a >>> 8 % 256) (b >>> 8 % 256), Nat.xor (a % 256) (b % 256)] ++ zipXor ra rb = _
  have e0 : Nat.xor (a % 256) (b % 256) = Nat.xor a b % 256 := by
    have h := xor_byte_at 0 a b
    simpa using h
  rw [xor_byte_at 24 a b, xor_byte_at 16 a b, xor_byte_at 8 a b, e0]

theorem zipXor_w8 (t u : Words8) :
    zipXor (w8ToBytes t) (w8ToBytes u) = w8ToBytes (w8Xor t u) := by
  show zipXor
      (natToBytesBE 4 t.x0 ++ (natToBytesBE 4 t.x1 ++ (natToBytesBE 4 t.x2 ++ (natToBytesBE 4 t.x3 ++
       (natToBytesBE 4 t.x4 ++ (natToBytesBE 4 t.x5 ++ (natToBytesBE 4 t.x6 ++ (natToBytesBE 4 t.x7 ++ []))))))))
      (natToBytesBE 4 u.x0 ++ (natToBytesBE 4 u.x1 ++ (natToBytesBE 4 u.x2 ++ (natToBytesBE 4 u.x3 ++
       (natToBytesBE 4 u.x4 ++ (natToBytesBE 4 u.x5 ++ (natToBytesBE 4 u.x6 ++ (natToBytesBE 4 u.x7 ++ [])))))))) =
      natToBytesBE 4 (Nat.xor t.x0 u.x0) ++ (natToBytesBE 4 (Nat.xor t.x1 u.x1) ++
      (natToBytesBE 4 (Nat.xor t.x2 u.x2) ++ (natToBytesBE 4 (Nat.xor t.x3 u.x3) ++
      (natToBytesBE 4 (Nat.xor t.x4 u.x4) ++ (natToBytesBE 4 (Nat.xor t.x5 u.x5) ++
      (natToBytesBE 4 (Nat.xor t.x6 u.x6) ++ (natToBytesBE 4 (Nat.xor t.x7 u.x7) ++ [])))))))
  rw [zipXor_bytes4, zipXor_bytes4, zipXor_bytes4, zipXor_bytes4,
      zipXor_bytes4, zipXor_bytes4, zipXor_bytes4, zipXor_bytes4]
  rfl

theorem sha256Compress_bounded (st : Sha256State)
    (w0 w1 w2 w3 w4 w5 w6 w7 w8 w9 w10 w11 w12 w13 w14 w15 : Nat) :
    (w8OfState (sha256Compress st w0 w1 w2 w3 w4 w5 w6 w7 w8 w9 w10 w11 w12 w13 w14 w15)).Bounded := by
  refine ⟨?_, ?_, ?_, ?_, ?_, ?_, ?_, ?_⟩ <;> exact Nat.mod_lt _ (by norm_num)

theorem w8Xor_bounded {t u : Words8} (ht : t.Bounded) (hu : u.Bounded) :
    (w8Xor t u).Bounded := by
  obtain ⟨h0, h1, h2, h3, h4, h5, h6, h7⟩ := ht
  obtain ⟨g0, g1, g2, g3, g4, g5, g6, g7⟩ := hu
  have hx : ∀ a b : Nat, a < 4294967296 → b < 4294967296 → Nat.xor a b < 4294967296 := by
    intro a b ha hb
    have p : (4294967296 : Nat) = 2 ^ 32 := by norm_num
    rw [p] at ha hb ⊢
    exact Nat.xor_lt_two_pow ha hb
  exact ⟨hx _ _ h0 g0, hx _ _ h1 g1, hx _ _ h2 g2, hx _ _ h3 g3,
    hx _ _ h4 g4, hx _ _ h5 g5, hx _ _ h6 g6, hx _ _ h7 g7⟩

theorem hmacW_bounded (ist ost : Sha256State) (u : Words8) : (hmacW ist ost u).Bounded :=
  sha256Compress_bounded ost _ _ _ _ _ _ _ _ _ _ _ _ _ _ _ _

theorem natToBytesBE_length (n v : Nat) : (natToBytesBE n v).length = n := by
  induction n generalizing v with
  | zero => rfl
  | succ m ih => simp [natToBytesBE, ih]

theorem w8ToBytes_length (w : Words8) : (w8ToBytes w).length = 32 := by
  simp [w8ToBytes, wordsToBytesBE, natToBytesBE_length]

/-- The padding of a 96-byte message: `0x80`, 23 zeros, bit length 768. -/
theorem sha256Pad_96 (m : List Nat) (hm : m.length = 96) :
    sha256Pad m = m ++ [128] ++ List.replicate 23 0 ++ natToBytesBE 8 768 := by
  unfold sha256Pad
  rw [hm]

/-- Unfolding step of the byte-to-word conversion. -/
theorem bytesToWordsBE_cons4 (a b c d : Nat) (rest : List Nat) :
    bytesToWordsBE (a :: b :: c :: d :: rest) = wordOfBytesBE a b c d :: bytesToWordsBE rest := rfl

/-- Bridge for one full HMAC hash pass: SHA-256 of a 64-byte pad block
followed by a 32-byte value equals the two word-level compressions (the
second block is the value, `0x80`, 23 zeros and the bit length 768 of
the 96-byte message). -/
theorem sha256_block_bridge
    (i0 i1 i2 i3 i4 i5 i6 i7 i8 i9 i10 i11 i12 i13 i14 i15 i16 i17 i18 i19 i20 i21 i22 i23 i24 i25 i26 i27 i28 i29 i30 i31 i32 i33 i34 i35 i36 i37 i38 i39 i40 i41 i42 i43 i44 i45 i46 i47 i48 i49 i50 i51 i52 i53 i54 i55 i56 i57 i58 i59 i60 i61 i62 i63 : Nat) (u : Words8) (hu : u.Bounded) :
    sha256 ([i0, i1, i2, i3, i4, i5, i6, i7, i8, i9, i10, i11, i12, i13, i14, i15, i16, i17, i18, i19, i20, i21, i22, i23, i24, i25, i26, i27, i28, i29, i30, i31, i32, i33, i34, i35, i36, i37, i38, i39, i40, i41, i42, i43, i44, i45, i46, i47, i48, i49, i50, i51, i52, i53, i54, i55, i56, i57, i58, i59, i60, i61, i62, i63] ++ w8ToBytes u) =
      w8ToBytes (w8OfState (sha256Compress
        (sha256Compress sha256Init (wordOfBytesBE i0 i1 i2 i3) (wordOfBytesBE i4 i5 i6 i7) (wordOfBytesBE i8 i9 i10 i11) (wordOfBytesBE i12 i13 i14 i15) (wordOfBytesBE i16 i17 i18 i19) (wordOfBytesBE i20 i21 i22 i23) (wordOfBytesBE i24 i25 i26 i27) (wordOfBytesBE i28 i29 i30 i31) (wordOfBytesBE i32 i33 i34 i35) (wordOfBytesBE i36 i37 i38 i39) (wordOfBytesBE i40 i41 i42 i43) (wordOfBytesBE i44 i45 i46 i47) (wordOfBytesBE i48 i49 i50 i51) (wordOfBytesBE i52 i53 i54 i55) (wordOfBytesBE i56 i57 i58 i59) (wordOfBytesBE i60 i61 i62 i63))
        u.x0 u.x1 u.x2 u.x3 u.x4 u.x5 u.x6 u.x7 2147483648 0 0 0 0 0 0 768)) := by
  obtain ⟨b0, b1, b2, b3, b4, b5, b6, b7⟩ := u
  obtain ⟨h0, h1, h2, h3, h4, h5, h6, h7⟩ := hu
  have hlen : ([i0, i1, i2, i3, i4, i5, i6, i7, i8, i9, i10, i11, i12, i13, i14, i15, i16, i17, i18, i19, i20, i21, i22, i23, i24, i25, i26, i27, i28, i29, i30, i31, i32, i33, i34, i35, i36, i37, i38, i39, i40, i41, i42, i43, i44, i45, i46, i47, i48, i49, i50, i51, i52, i53, i54, i55, i56, i57, i58, i59, i60, i61, i62, i63] ++ w8ToBytes ⟨b0, b1, b2, b3, b4, b5, b6, b7⟩).length = 96 := by
    rw [List.length_append, w8ToBytes_length]
    rfl
  have e : bytesToWordsBE (sha256Pad ([i0, i1, i2, i3, i4, i5, i6, i7, i8, i9, i10, i11, i12, i13, i14, i15, i16, i17, i18, i19, i20, i21, i22, i23, i24, i25, i26, i27, i28, i29, i30, i31, i32, i33, i34, i35, i36, i37, i38, i39, i40, i41, i42, i43, i44, i45, i46, i47, i48, i49, i50, i51, i52, i53, i54, i55, i56, i57, i58, i59, i60, i61, i62, i63] ++ w8ToBytes ⟨b0, b1, b2, b3, b4, b5, b6, b7⟩)) =
      [wordOfBytesBE i0 i1 i2 i3, wordOfBytesBE i4 i5 i6 i7, wordOfBytesBE i8 i9 i10 i11, wordOfBytesBE i12 i13 i14 i15, wordOfBytesBE i16 i17 i18 i19, wordOfBytesBE i20 i21 i22 i23, wordOfBytesBE i24 i25 i26 i27, wordOfBytesBE i28 i29 i30 i31, wordOfBytesBE i32 i33 i34 i35, wordOfBytesBE i36 i37 i38 i39, wordOfBytesBE i40 i41 i42 i43, wordOfBytesBE i44 i45 i46 i47, wordOfBytesBE i48 i49 i50 i51, wordOfBytesBE i52 i53 i54 i55, wordOfBytesBE i56 i57 i58 i59, wordOfBytesBE i60 i61 i62 i63,
       b0, b1, b2, b3, b4, b5, b6, b7, 2147483648, 0, 0, 0, 0, 0, 0, 768] := by
    rw [sha256Pad_96 _ hlen]
    simp only [w8ToBytes, wordsToBytesBE, List.flatMap_cons, List.flatMap_nil,
      List.cons_append, List.nil_append, List.append_assoc, List.append_nil]
    simp only [List.replicate, List.cons_append, List.nil_append]
    simp only [bytesToWordsBE_cons4]
    rw [bytesToWordsBE_roundTrip b0 h0, bytesToWordsBE_roundTrip b1 h1,
        bytesToWordsBE_roundTrip b2 h2, bytesToWordsBE_roundTrip b3 h3,
        bytesToWordsBE_roundTrip b4 h4, bytesToWordsBE_roundTrip b5 h5,
        bytesToWordsBE_roundTrip b6 h6, bytesToWordsBE_roundTrip b7 h7]
    rfl
  simp only [sha256]
  rw [e]
  rfl

/-- Key bytes of PBKDF2 pass 1 of the V2 test vector (the UTF-8 bytes of the password). -/
def pbkdf2Key1 : List Nat := [49, 101, 120, 97, 109, 112, 108, 101, 33]

/-- `compress(init, ipad-block)` for pass 1. -/
def ipadState1 : Sha256State :=
  sha256Compress sha256Init (wordOfBytesBE 7 83 78 87) (wordOfBytesBE 91 70 90 83) (wordOfBytesBE 23 54 54 54) (wordOfBytesBE 54 54 54 54) (wordOfBytesBE 54 54 54 54) (wordOfBytesBE 54 54 54 54) (wordOfBytesBE 54 54 54 54) (wordOfBytesBE 54 54 54 54) (wordOfBytesBE 54 54 54 54) (wordOfBytesBE 54 54 54 54) (wordOfBytesBE 54 54 54 54) (wordOfBytesBE 54 54 54 54) (wordOfBytesBE 54 54 54 54) (wordOfBytesBE 54 54 54 54) (wordOfBytesBE 54 54 54 54) (wordOfBytesBE 54 54 54 54)

/-- `compress(init, opad-block)` for pass 1. -/
def opadState1 : Sha256State :=
  sha256Compress sha256Init (wordOfBytesBE 109 57 36 61) (wordOfBytesBE 49 44 48 57) (wordOfBytesBE 125 92 92 92) (wordOfBytesBE 92 92 92 92) (wordOfBytesBE 92 92 92 92) (wordOfBytesBE 92 92 92 92) (wordOfBytesBE 92 92 92 92) (wordOfBytesBE 92 92 92 92) (wordOfBytesBE 92 92 92 92) (wordOfBytesBE 92 92 92 92) (wordOfBytesBE 92 92 92 92) (wordOfBytesBE 92 92 92 92) (wordOfBytesBE 92 92 92 92) (wordOfBytesBE 92 92 92 92) (wordOfBytesBE 92 92 92 92) (wordOfBytesBE 92 92 92 92)

set_option maxHeartbeats 2000000 in
/-- The byte-level HMAC with the key of pass 1 on a 32-byte value
agrees with the word-level form. -/
theorem hmac_w8_pass1 (u : Words8) (hu : u.Bounded) :
    hmacSha256 pbkdf2Key1 (w8ToBytes u) = w8ToBytes (hmacW ipadState1 opadState1 u) := by
  simp only [hmacSha256]
  rw [if_neg (by decide : ¬ 64 < pbkdf2Key1.length)]
  rw [(by decide : zipXor (pbkdf2Key1 ++ List.replicate (64 - pbkdf2Key1.length) 0) (List.replicate 64 54) = [7, 83, 78, 87, 91, 70, 90, 83, 23, 54, 54, 54, 54, 54, 54, 54, 54, 54, 54, 54, 54, 54, 54, 54, 54, 54, 54, 54, 54, 54, 54, 54, 54, 54, 54, 54, 54, 54, 54, 54, 54, 54, 54, 54, 54, 54, 54, 54, 54, 54, 54, 54, 54, 54, 54, 54, 54, 54, 54, 54, 54, 54, 54, 54])]
  rw [(by decide : zipXor (pbkdf2Key1 ++ List.replicate (64 - pbkdf2Key1.length) 0) (List.replicate 64 92) = [109, 57, 36, 61, 49, 44, 48, 57, 125, 92, 92, 92, 92, 92, 92, 92, 92, 92, 92, 92, 92, 92, 92, 92, 92, 92, 92, 92, 92, 92, 92, 92, 92, 92, 92, 92, 92, 92, 92, 92, 92, 92, 92, 92, 92, 92, 92, 92, 92, 92, 92, 92, 92, 92, 92, 92, 92, 92, 92, 92, 92, 92, 92, 92])]
  rw [sha256_block_bridge 7 83 78 87 91 70 90 83 23 54 54 54 54 54 54 54 54 54 54 54 54 54 54 54 54 54 54 54 54 54 54 54 54 54 54 54 54 54 54 54 54 54 54 54 54 54 54 54 54 54 54 54 54 54 54 54 54 54 54 54 54 54 54 54 u hu]
  rw [sha256_block_bridge 109 57 36 61 49 44 48 57 125 92 92 92 92 92 92 92 92 92 92 92 92 92 92 92 92 92 92 92 92 92 92 92 92 92 92 92 92 92 92 92 92 92 92 92 92 92 92 92 92 92 92 92 92 92 92 92 92 92 92 92 92 92 92 92]
  · rfl
  · exact sha256Compress_bounded _ _ _ _ _ _ _ _ _ _ _ _ _ _ _ _ _

/-- Key bytes of PBKDF2 pass 2 of the V2 test vector (the first derived key). -/
def pbkdf2Key2 : List Nat := [35, 66, 142, 157, 236, 57, 217, 90, 199, 164, 5, 20, 6, 45, 240, 249, 233, 79, 153, 110, 23, 195, 152, 199, 152, 152, 208, 64, 59, 51, 45, 59]

/-- `compress(init, ipad-block)` for pass 2. -/
def ipadState2 : Sha256State :=
  sha256Compress sha256Init (wordOfBytesBE 21 116 184 171) (wordOfBytesBE 218 15 239 108) (wordOfBytesBE 241 146 51 34) (wordOfBytesBE 48 27 198 207) (wordOfBytesBE 223 121 175 88) (wordOfBytesBE 33 245 174 241) (wordOfBytesBE 174 174 230 118) (wordOfBytesBE 13 5 27 13) (wordOfBytesBE 54 54 54 54) (wordOfBytesBE 54 54 54 54) (wordOfBytesBE 54 54 54 54) (wordOfBytesBE 54 54 54 54) (wordOfBytesBE 54 54 54 54) (wordOfBytesBE 54 54 54 54) (wordOfBytesBE 54 54 54 54) (wordOfBytesBE 54 54 54 54)

/-- `compress(init, opad-block)` for pass 2. -/
def opadState2 : Sha256State :=
  sha256Compress sha256Init (wordOfBytesBE 127 30 210 193) (wordOfBytesBE 176 101 133 6) (wordOfBytesBE 155 248 89 72) (wordOfBytesBE 90 113 172 165) (wordOfBytesBE 181 19 197 50) (wordOfBytesBE 75 159 196 155) (wordOfBytesBE 196 196 140 28) (wordOfBytesBE 103 111 113 103) (wordOfBytesBE 92 92 92 92) (wordOfBytesBE 92 92 92 92) (wordOfBytesBE 92 92 92 92) (wordOfBytesBE 92 92 92 92) (wordOfBytesBE 92 92 92 92) (wordOfBytesBE 92 92 92 92) (wordOfBytesBE 92 92 92 92) (wordOfBytesBE 92 92 92 92)

set_option maxHeartbeats 2000000 in
/-- The byte-level HMAC with the key of pass 2 on a 32-byte value
agrees with the word-level form. -/
theorem hmac_w8_pass2 (u : Words8) (hu : u.Bounded) :
    hmacSha256 pbkdf2Key2 (w8ToBytes u) = w8ToBytes (hmacW ipadState2 opadState2 u) := by
  simp only [hmacSha256]
  rw [if_neg (by decide : ¬ 64 < pbkdf2Key2.length)]
  rw [(by decide : zipXor (pbkdf2Key2 ++ List.replicate (64 - pbkdf2Key2.length) 0) (List.replicate 64 54) = [21, 116, 184, 171, 218, 15, 239, 108, 241, 146, 51, 34, 48, 27, 198, 207, 223, 121, 175, 88, 33, 245, 174, 241, 174, 174, 230, 118, 13, 5, 27, 13, 54, 54, 54, 54, 54, 54, 54, 54, 54, 54, 54, 54, 54, 54, 54, 54, 54, 54, 54, 54, 54, 54, 54, 54, 54, 54, 54, 54, 54, 54, 54, 54])]
  rw [(by decide : zipXor (pbkdf2Key2 ++ List.replicate (64 - pbkdf2Key2.length) 0) (List.replicate 64 92) = [127, 30, 210, 193, 176, 101, 133, 6, 155, 248, 89, 72, 90, 113, 172, 165, 181, 19, 197, 50, 75, 159, 196, 155, 196, 196, 140, 28, 103, 111, 113, 103, 92, 92, 92, 92, 92, 92, 92, 92, 92, 92, 92, 92, 92, 92, 92, 92, 92, 92, 92, 92, 92, 92, 92, 92, 92, 92, 92, 92, 92, 92, 92, 92])]
  rw [sha256_block_bridge 21 116 184 171 218 15 239 108 241 146 51 34 48 27 198 207 223 121 175 88 33 245 174 241 174 174 230 118 13 5 27 13 54 54 54 54 54 54 54 54 54 54 54 54 54 54 54 54 54 54 54 54 54 54 54 54 54 54 54 54 54 54 54 54 u hu]
  rw [sha256_block_bridge 127 30 210 193 176 101 133 6 155 248 89 72 90 113 172 165 181 19 197 50 75 159 196 155 196 196 140 28 103 111 113 103 92 92 92 92 92 92 92 92 92 92 92 92 92 92 92 92 92 92 92 92 92 92 92 92 92 92 92 92 92 92 92 92]
  · rfl
  · exact sha256Compress_bounded _ _ _ _ _ _ _ _ _ _ _ _ _ _ _ _ _


/-- The byte-level PBKDF2 iteration loop agrees with the word-level
loop, given the HMAC agreement for the loop key. -/
theorem pbkdf2Loop_toW (p : List Nat) (ist ost : Sha256State)
    (hb : ∀ u : Words8, u.Bounded → hmacSha256 p (w8ToBytes u) = w8ToBytes (hmacW ist ost u)) :
    ∀ (n : Nat) (u t : Words8), u.Bounded → t.Bounded →
      pbkdf2Loop p n (w8ToBytes u, w8ToBytes t) =
        (w8ToBytes (pbkdf2LoopW ist ost n (u, t)).1, w8ToBytes (pbkdf2LoopW ist ost n (u, t)).2) := by
  intro n
  induction n with
  | zero => intro u t _ _; rfl
  | succ m ih =>
    intro u t hu ht
    show pbkdf2Loop p m (pbkdf2Step p (w8ToBytes u, w8ToBytes t)) = _
    have estep : pbkdf2Step p (w8ToBytes u, w8ToBytes t)
        = (w8ToBytes (hmacW ist ost u), w8ToBytes (w8Xor t (hmacW ist ost u))) := by
      show (hmacSha256 p (w8ToBytes u), zipXor (w8ToBytes t) (hmacSha256 p (w8ToBytes u))) = _
      rw [hb u hu, zipXor_w8]
    rw [estep]
    rw [ih (hmacW ist ost u) (w8Xor t (hmacW ist ost u)) (hmacW_bounded ist ost u)
        (w8Xor_bounded ht (hmacW_bounded ist ost u))]
    rfl
/-! ### Evaluated iteration chunks of the two PBKDF2 passes of the V2 test vector -/

set_option maxRecDepth 1000000 in
theorem p1c0 : pbkdf2LoopW ipadState1 opadState1 100 (⟨3556773727, 3303591100, 3320445487, 1863158927, 427735909, 2372888702, 339099722, 3162803260⟩, ⟨3556773727, 3303591100, 3320445487, 1863158927, 427735909, 2372888702, 339099722, 3162803260⟩) = (⟨772754135, 2077192504, 3169931944, 3549876342, 3269033194, 3451573323, 2929649283, 1045178304⟩, ⟨3222538350, 3481861011, 4024898841, 3861449372, 2942266077, 24828918, 1006725405, 1230117435⟩) := by decide!

set_option maxRecDepth 1000000 in
theorem p1c1 : pbkdf2LoopW ipadState1 opadState1 100 (⟨772754135, 2077192504, 3169931944, 3549876342, 3269033194, 3451573323, 2929649283, 1045178304⟩, ⟨3222538350, 3481861011, 4024898841, 3861449372, 2942266077, 24828918, 1006725405, 1230117435⟩) = (⟨47541701, 2738629948, 2741893171, 3460740227, 48076068, 1723677660, 3792152616, 4010996771⟩, ⟨1452661456, 3196893558, 3752861452, 2229286969, 4130876249, 1788830631, 1776421915, 2798713571⟩) := by decide!

set_option maxRecDepth 1000000 in
theorem p1c2 : pbkdf2LoopW ipadState1 opadState1 100 (⟨47541701, 2738629948, 2741893171, 3460740227, 48076068, 1723677660, 3792152616, 4010996771⟩, ⟨1452661456, 3196893558, 3752861452, 2229286969, 4130876249, 1788830631, 1776421915, 2798713571⟩) = (⟨3547493853, 3693136349, 773237828, 3987555897, 3342246419, 4136758759, 2315356565, 3690652426⟩, ⟨1535782288, 2424029078, 2115665712, 780092715, 3684023593, 498443664, 2432507191, 660056466⟩) := by decide!

set_option maxRecDepth 1000000 in
theorem p1c3 : pbkdf2LoopW ipadState1 opadState1 100 (⟨3547493853, 3693136349, 773237828, 3987555897, 3342246419, 4136758759, 2315356565, 3690652426⟩, ⟨1535782288, 2424029078, 2115665712, 780092715, 3684023593, 498443664, 2432507191, 660056466⟩) = (⟨717430537, 3477409880, 3337687030, 2315119877, 3234430444, 3040661796, 2790464281, 3984548514⟩, ⟨2053252159, 1574540680, 2343514336, 168978814, 2992758087, 3210958361, 4208030493, 732703387⟩) := by decide!

set_option maxRecDepth 1000000 in
theorem p1c4 : pbkdf2LoopW ipadState1 opadState1 100 (⟨717430537, 3477409880, 3337687030, 2315119877, 3234430444, 3040661796, 2790464281, 3984548514⟩, ⟨2053252159, 1574540680, 2343514336, 168978814, 2992758087, 3210958361, 4208030493, 732703387⟩) = (⟨3128395630, 3373476103, 266280013, 1891904681, 1724712843, 1985090580, 3854516944, 3577298602⟩, ⟨1342273236, 3922845944, 2081185362, 4181761924, 1838121956, 2941892993, 963142213, 3632767197⟩) := by decide!

set_option maxRecDepth 1000000 in
theorem p1c5 : pbkdf2LoopW ipadState1 opadState1 100 (⟨3128395630, 3373476103, 266280013, 1891904681, 1724712843, 1985090580, 3854516944, 3577298602⟩, ⟨1342273236, 3922845944, 2081185362, 4181761924, 1838121956, 2941892993, 963142213, 3632767197⟩) = (⟨1895980883, 2771329461, 2875652805, 2942700150, 3448627152, 620249520, 4085078385, 3433242942⟩, ⟨1628405968, 2541449510, 3076957464, 3454770749, 1829231256, 587086133, 1763076712, 1086465697⟩) := by decide!

set_option maxRecDepth 1000000 in
theorem p1c6 : pbkdf2LoopW ipadState1 opadState1 100 (⟨1895980883, 2771329461, 2875652805, 2942700150, 3448627152, 620249520, 4085078385, 3433242942⟩, ⟨1628405968, 2541449510, 3076957464, 3454770749, 1829231256, 587086133, 1763076712, 1086465697⟩) = (⟨2079243904, 3645886707, 20385484, 2853517184, 3789059519, 2628179493, 3163867862, 792276351⟩, ⟨2994723848, 3824906387, 4080718820, 3382259204, 1900312237, 3705328438, 4187625851, 1626855194⟩) := by decide!

set_option maxRecDepth 1000000 in
theorem p1c7 : pbkdf2LoopW ipadState1 opadState1 100 (⟨2079243904, 3645886707, 20385484, 2853517184, 3789059519, 2628179493, 3163867862, 792276351⟩, ⟨2994723848, 3824906387, 4080718820, 3382259204, 1900312237, 3705328438, 4187625851, 1626855194⟩) = (⟨3812317406, 1338581361, 800482926, 4256675322, 3405280557, 3272438078, 322794771, 2386257668⟩, ⟨4175983544, 2822230822, 3712253679, 1906346640, 791270073, 452618526, 422615671, 3861574641⟩) := by decide!

set_option maxRecDepth 1000000 in
theorem p1c8 : pbkdf2LoopW ipadState1 opadState1 100 (⟨3812317406, 1338581361, 800482926, 4256675322, 3405280557, 3272438078, 322794771, 2386257668⟩, ⟨4175983544, 2822230822, 3712253679, 1906346640, 791270073, 452618526, 422615671, 3861574641⟩) = (⟨3396993999, 3411822103, 1292166628, 2643394242, 704300694, 1503369414, 362757975, 2581264227⟩, ⟨2657003603, 2258025633, 450320752, 1245009100, 313834921, 1215118802, 4236374163, 1231277980⟩) := by decide!

set_option maxRecDepth 1000000 in
theorem p1c9 : pbkdf2LoopW ipadState1 opadState1 100 (⟨3396993999, 3411822103, 1292166628, 2643394242, 704300694, 1503369414, 362757975, 2581264227⟩, ⟨2657003603, 2258025633, 450320752, 1245009100, 313834921, 1215118802, 4236374163, 1231277980⟩) = (⟨2213148179, 4148222080, 1334196083, 3741803933, 1624883191, 1405929848, 1244717044, 1605328347⟩, ⟨2153627312, 1098481695, 3894602583, 608103220, 366347460, 521121398, 216695748, 2395558024⟩) := by decide!

set_option maxRecDepth 1000000 in
theorem p1c10 : pbkdf2LoopW ipadState1 opadState1 100 (⟨2213148179, 4148222080, 1334196083, 3741803933, 1624883191, 1405929848, 1244717044, 1605328347⟩, ⟨2153627312, 1098481695, 3894602583, 608103220, 366347460, 521121398, 216695748, 2395558024⟩) = (⟨166378690, 249502795, 351660814, 3123605428, 1207092584, 679674401, 242579343, 3829097716⟩, ⟨2820578962, 1832205757, 704530139, 1573615954, 4079663173, 2817525152, 1965173443, 168358281⟩) := by decide!

set_option maxRecDepth 1000000 in
theorem p1c11 : pbkdf2LoopW ipadState1 opadState1 100 (⟨166378690, 249502795, 351660814, 3123605428, 1207092584, 679674401, 242579343, 3829097716⟩, ⟨2820578962, 1832205757, 704530139, 1573615954, 4079663173, 2817525152, 1965173443, 168358281⟩) = (⟨1502431252, 2921438497, 794382894, 1701313623, 1141656193, 4081153685, 3071195479, 263246079⟩, ⟨3930039449, 4152782309, 3146379513, 2523775207, 3884147093, 1148435219, 2015725209, 3744272754⟩) := by decide!

set_option maxRecDepth 1000000 in
theorem p1c12 : pbkdf2LoopW ipadState1 opadState1 100 (⟨1502431252, 2921438497, 794382894, 1701313623, 1141656193, 4081153685, 3071195479, 263246079⟩, ⟨3930039449, 4152782309, 3146379513, 2523775207, 3884147093, 1148435219, 2015725209, 3744272754⟩) = (⟨3511844690, 4006269089, 3304845067, 3170011866, 3301923214, 2950144712, 408998762, 465018151⟩, ⟨2532552395, 4157836076, 1068983399, 2118056075, 169303653, 769630434, 230077036, 2531341812⟩) := by decide!

set_option maxRecDepth 1000000 in
theorem p1c13 : pbkdf2LoopW ipadState1 opadState1 100 (⟨3511844690, 4006269089, 3304845067, 3170011866, 3301923214, 2950144712, 408998762, 465018151⟩, ⟨2532552395, 4157836076, 1068983399, 2118056075, 169303653, 769630434, 230077036, 2531341812⟩) = (⟨3674750797, 634496181, 3806623484, 3692676986, 3396120654, 4025112001, 868203402, 1542440669⟩, ⟨3201252221, 1643003180, 1639574404, 3062808285, 3863571189, 3050375640, 3791721025, 3236631985⟩) := by decide!

set_option maxRecDepth 1000000 in
theorem p1c14 : pbkdf2LoopW ipadState1 opadState1 100 (⟨3674750797, 634496181, 3806623484, 3692676986, 3396120654, 4025112001, 868203402, 1542440669⟩, ⟨3201252221, 1643003180, 1639574404, 3062808285, 3863571189, 3050375640, 3791721025, 3236631985⟩) = (⟨1400030595, 1725388633, 3111986101, 3714221450, 1252019957, 3525448493, 87363197, 631286477⟩, ⟨2466738372, 3574900725, 1018658185, 3513861577, 2490176937, 3734701185, 1090639546, 910111923⟩) := by decide!

set_option maxRecDepth 1000000 in
theorem p1c15 : pbkdf2LoopW ipadState1 opadState1 100 (⟨1400030595, 1725388633, 3111986101, 3714221450, 1252019957, 3525448493, 87363197, 631286477⟩, ⟨2466738372, 3574900725, 1018658185, 3513861577, 2490176937, 3734701185, 1090639546, 910111923⟩) = (⟨367300826, 645481634, 1844040508, 287448854, 785415911, 3926281278, 1480186134, 851017996⟩, ⟨3198059617, 4150307231, 3497606369, 632061030, 1635769593, 422018743, 3504142475, 389107744⟩) := by decide!

set_option maxRecDepth 1000000 in
theorem p1c16 : pbkdf2LoopW ipadState1 opadState1 100 (⟨367300826, 645481634, 1844040508, 287448854, 785415911, 3926281278, 1480186134, 851017996⟩, ⟨3198059617, 4150307231, 3497606369, 632061030, 1635769593, 422018743, 3504142475, 389107744⟩) = (⟨3499947983, 1445667719, 2359637870, 4171618137, 648436701, 403483407, 74639824, 1238140785⟩, ⟨3623689469, 3890829336, 136954047, 1605471240, 3062317699, 2227296028, 4006893231, 2129074563⟩) := by decide!

set_option maxRecDepth 1000000 in
theorem p1c17 : pbkdf2LoopW ipadState1 opadState1 100 (⟨3499947983, 1445667719, 2359637870, 4171618137, 648436701, 403483407, 74639824, 1238140785⟩, ⟨3623689469, 3890829336, 136954047, 1605471240, 3062317699, 2227296028, 4006893231, 2129074563⟩) = (⟨1994879899, 687788578, 3209978194, 235873844, 1155253868, 2059482179, 2118625778, 356894915⟩, ⟨4120395231, 1225666237, 953232302, 1642657481, 2392908588, 2466113794, 3478093802, 2846982180⟩) := by decide!

set_option maxRecDepth 1000000 in
theorem p1c18 : pbkdf2LoopW ipadState1 opadState1 100 (⟨1994879899, 687788578, 3209978194, 235873844, 1155253868, 2059482179, 2118625778, 356894915⟩, ⟨4120395231, 1225666237, 953232302, 1642657481, 2392908588, 2466113794, 3478093802, 2846982180⟩) = (⟨1512060279, 1384387809, 4153817748, 3105998078, 641001823, 2638967318, 2866978997, 2131882693⟩, ⟨4001769466, 4287272279, 1979240780, 1358938664, 2684724100, 1896529773, 2305638386, 3327792435⟩) := by decide!

set_option maxRecDepth 1000000 in
theorem p1c19 : pbkdf2LoopW ipadState1 opadState1 100 (⟨1512060279, 1384387809, 4153817748, 3105998078, 641001823, 2638967318, 2866978997, 2131882693⟩, ⟨4001769466, 4287272279, 1979240780, 1358938664, 2684724100, 1896529773, 2305638386, 3327792435⟩) = (⟨3699684198, 3233307080, 4004308997, 4146503087, 3971560279, 2983105186, 190421221, 2536340651⟩, ⟨590535692, 1534139458, 1925065528, 987959709, 2947289012, 2893567031, 2087251467, 4052803637⟩) := by decide!

set_option maxRecDepth 1000000 in
theorem p1c20 : pbkdf2LoopW ipadState1 opadState1 100 (⟨3699684198, 3233307080, 4004308997, 4146503087, 3971560279, 2983105186, 190421221, 2536340651⟩, ⟨590535692, 1534139458, 1925065528, 987959709, 2947289012, 2893567031, 2087251467, 4052803637⟩) = (⟨3670184803, 2692149857, 1692109280, 3970651007, 3378899598, 1719066264, 1364589969, 2794687536⟩, ⟨476541471, 1327797674, 2977595425, 2407385741, 1395205536, 3042902917, 168087380, 2595674753⟩) := by decide!

set_option maxRecDepth 1000000 in
theorem p1c21 : pbkdf2LoopW ipadState1 opadState1 100 (⟨3670184803, 2692149857, 1692109280, 3970651007, 3378899598, 1719066264, 1364589969, 2794687536⟩, ⟨476541471, 1327797674, 2977595425, 2407385741, 1395205536, 3042902917, 168087380, 2595674753⟩) = (⟨2559243151, 63884395, 1310858389, 85250933, 3477340424, 2399303346, 3680502223, 2841676217⟩, ⟨1631228826, 2360251460, 3903714852, 2992582536, 3673800678, 1613230558, 1213843414, 1102408633⟩) := by decide!

set_option maxRecDepth 1000000 in
theorem p1c22 : pbkdf2LoopW ipadState1 opadState1 100 (⟨2559243151, 63884395, 1310858389, 85250933, 3477340424, 2399303346, 3680502223, 2841676217⟩, ⟨1631228826, 2360251460, 3903714852, 2992582536, 3673800678, 1613230558, 1213843414, 1102408633⟩) = (⟨3931544813, 4280550768, 1892094539, 3678153984, 4241689665, 471124770, 493181500, 951548447⟩, ⟨3836795920, 2017428619, 3538561600, 2948266521, 1728732930, 1890104006, 3726713308, 1711217119⟩) := by decide!

set_option maxRecDepth 1000000 in
theorem p1c23 : pbkdf2LoopW ipadState1 opadState1 100 (⟨3931544813, 4280550768, 1892094539, 3678153984, 4241689665, 471124770, 493181500, 951548447⟩, ⟨3836795920, 2017428619, 3538561600, 2948266521, 1728732930, 1890104006, 3726713308, 1711217119⟩) = (⟨942408555, 766249952, 1806084494, 1977179039, 3638714231, 1503727168, 2109943823, 4034424187⟩, ⟨323576227, 3525137710, 1681154046, 3345831351, 2767708838, 2501153846, 2077295373, 4039297412⟩) := by decide!

set_option maxRecDepth 1000000 in
theorem p1c24 : pbkdf2LoopW ipadState1 opadState1 100 (⟨942408555, 766249952, 1806084494, 1977179039, 3638714231, 1503727168, 2109943823, 4034424187⟩, ⟨323576227, 3525137710, 1681154046, 3345831351, 2767708838, 2501153846, 2077295373, 4039297412⟩) = (⟨3515781794, 2788922488, 2884179738, 906641678, 1841715378, 2992317136, 11653960, 2711491499⟩, ⟨2313039814, 2579794026, 3125139268, 2240065842, 3785905043, 2532753563, 334209044, 3663254457⟩) := by decide!

set_option maxRecDepth 1000000 in
theorem p1c25 : pbkdf2LoopW ipadState1 opadState1 100 (⟨3515781794, 2788922488, 2884179738, 906641678, 1841715378, 2992317136, 11653960, 2711491499⟩, ⟨2313039814, 2579794026, 3125139268, 2240065842, 3785905043, 2532753563, 334209044, 3663254457⟩) = (⟨1064546588, 3492103152, 318462999, 1100651151, 4051855844, 2179797742, 758298749, 2511095974⟩, ⟨3388681665, 2737130034, 3444970866, 3791064413, 3550450884, 3025830321, 1885048694, 3980815992⟩) := by decide!

set_option maxRecDepth 1000000 in
theorem p1c26 : pbkdf2LoopW ipadState1 opadState1 100 (⟨1064546588, 3492103152, 318462999, 1100651151, 4051855844, 2179797742, 758298749, 2511095974⟩, ⟨3388681665, 2737130034, 3444970866, 3791064413, 3550450884, 3025830321, 1885048694, 3980815992⟩) = (⟨3428352511, 1544891283, 23767565, 3304878458, 447831620, 1851256616, 2955918791, 3363915874⟩, ⟨2677905833, 79268005, 79550541, 3747775117, 3747387713, 1790380079, 514092331, 1612914887⟩) := by decide!

set_option maxRecDepth 1000000 in
theorem p1c27 : pbkdf2LoopW ipadState1 opadState1 100 (⟨3428352511, 1544891283, 23767565, 3304878458, 447831620, 1851256616, 2955918791, 3363915874⟩, ⟨2677905833, 79268005, 79550541, 3747775117, 3747387713, 1790380079, 514092331, 1612914887⟩) = (⟨3173695009, 3281702307, 2061382220, 3936591940, 2318722668, 3050908159, 3527957605, 1370809882⟩, ⟨3615196055, 2741171747, 527954445, 422261865, 3326532975, 1906478708, 1650614602, 3750254458⟩) := by decide!

set_option maxRecDepth 1000000 in
theorem p1c28 : pbkdf2LoopW ipadState1 opadState1 100 (⟨3173695009, 3281702307, 2061382220, 3936591940, 2318722668, 3050908159, 3527957605, 1370809882⟩, ⟨3615196055, 2741171747, 527954445, 422261865, 3326532975, 1906478708, 1650614602, 3750254458⟩) = (⟨1438742516, 4179526868, 2496302339, 399075730, 1530592092, 3530080016, 3344180128, 4138197540⟩, ⟨1537673292, 3583734835, 2435386254, 105873129, 1271498961, 2106303295, 2489868958, 1252054402⟩) := by decide!

set_option maxRecDepth 1000000 in
theorem p1c29 : pbkdf2LoopW ipadState1 opadState1 100 (⟨1438742516, 4179526868, 2496302339, 399075730, 1530592092, 3530080016, 3344180128, 4138197540⟩, ⟨1537673292, 3583734835, 2435386254, 105873129, 1271498961, 2106303295, 2489868958, 1252054402⟩) = (⟨1867269216, 3176038978, 3065759600, 2394646986, 293973567, 1835562202, 1392226025, 289974151⟩, ⟨604712199, 1162079413, 2771000241, 1166994593, 3102856488, 3518313659, 3757129999, 388806709⟩) := by decide!

set_option maxRecDepth 1000000 in
theorem p1c30 : pbkdf2LoopW ipadState1 opadState1 100 (⟨1867269216, 3176038978, 3065759600, 2394646986, 293973567, 1835562202, 1392226025, 289974151⟩, ⟨604712199, 1162079413, 2771000241, 1166994593, 3102856488, 3518313659, 3757129999, 388806709⟩) = (⟨1314236270, 4266336187, 920962863, 3281898993, 4231530299, 1608711046, 244118948, 3902859565⟩, ⟨727294300, 1053930514, 1119048326, 2171944786, 1350796689, 2843132435, 1369079059, 401556172⟩) := by decide!

set_option maxRecDepth 1000000 in
theorem p1c31 : pbkdf2LoopW ipadState1 opadState1 100 (⟨1314236270, 4266336187, 920962863, 3281898993, 4231530299, 1608711046, 244118948, 3902859565⟩, ⟨727294300, 1053930514, 1119048326, 2171944786, 1350796689, 2843132435, 1369079059, 401556172⟩) = (⟨2129226489, 259697642, 2863992637, 2566466957, 4145281119, 99700617, 1680982643, 1131845064⟩, ⟨53865579, 1748860, 2357275756, 2468712177, 796641657, 3011223204, 253734621, 2357431474⟩) := by decide!

set_option maxRecDepth 1000000 in
theorem p1c32 : pbkdf2LoopW ipadState1 opadState1 100 (⟨2129226489, 259697642, 2863992637, 2566466957, 4145281119, 99700617, 1680982643, 1131845064⟩, ⟨53865579, 1748860, 2357275756, 2468712177, 796641657, 3011223204, 253734621, 2357431474⟩) = (⟨1835667307, 709759503, 1212074745, 3034203194, 1904408839, 712107755, 1707740465, 377998661⟩, ⟨4237930332, 1225525823, 1723518417, 1125880060, 185359099, 547063201, 3928241305, 952094005⟩) := by decide!

set_option maxRecDepth 1000000 in
theorem p1c33 : pbkdf2LoopW ipadState1 opadState1 100 (⟨1835667307, 709759503, 1212074745, 3034203194, 1904408839, 712107755, 1707740465, 377998661⟩, ⟨4237930332, 1225525823, 1723518417, 1125880060, 185359099, 547063201, 3928241305, 952094005⟩) = (⟨2115615671, 127263902, 3335133196, 2210431480, 1596705278, 2436221544, 2248433902, 1536396464⟩, ⟨1225445027, 3624468160, 2367427007, 2961681245, 1142000159, 1606899479, 2624709159, 1851032326⟩) := by decide!

set_option maxRecDepth 1000000 in
theorem p1c34 : pbkdf2LoopW ipadState1 opadState1 100 (⟨2115615671, 127263902, 3335133196, 2210431480, 1596705278, 2436221544, 2248433902, 1536396464⟩, ⟨1225445027, 3624468160, 2367427007, 2961681245, 1142000159, 1606899479, 2624709159, 1851032326⟩) = (⟨738586262, 3917880685, 1589356375, 1337678120, 3980955164, 1260721120, 1379071688, 3441850401⟩, ⟨4008174129, 371406407, 2703898007, 3845974409, 874959984, 839546425, 1506878216, 1004239556⟩) := by decide!

set_option maxRecDepth 1000000 in
theorem p1c35 : pbkdf2LoopW ipadState1 opadState1 100 (⟨738586262, 3917880685, 1589356375, 1337678120, 3980955164, 1260721120, 1379071688, 3441850401⟩, ⟨4008174129, 371406407, 2703898007, 3845974409, 874959984, 839546425, 1506878216, 1004239556⟩) = (⟨3693677694, 1850691693, 3232351113, 1517314629, 2397384857, 242689319, 3584198187, 2573409269⟩, ⟨2926509306, 4083494455, 532200693, 2212615560, 505687364, 133875138, 3544616183, 566225591⟩) := by decide!

set_option maxRecDepth 1000000 in
theorem p1c36 : pbkdf2LoopW ipadState1 opadState1 100 (⟨3693677694, 1850691693, 3232351113, 1517314629, 2397384857, 242689319, 3584198187, 2573409269⟩, ⟨2926509306, 4083494455, 532200693, 2212615560, 505687364, 133875138, 3544616183, 566225591⟩) = (⟨236367395, 1366126521, 3385733888, 2106560683, 4104186199, 4112083314, 3799656089, 4207039964⟩, ⟨3815740070, 2239377529, 2595161534, 1129172531, 3871509354, 2853169757, 4218976838, 932354239⟩) := by decide!

set_option maxRecDepth 1000000 in
theorem p1c37 : pbkdf2LoopW ipadState1 opadState1 100 (⟨236367395, 1366126521, 3385733888, 2106560683, 4104186199, 4112083314, 3799656089, 4207039964⟩, ⟨3815740070, 2239377529, 2595161534, 1129172531, 3871509354, 2853169757, 4218976838, 932354239⟩) = (⟨4035317962, 680970900, 2534071877, 1124762377, 1552343117, 1076501256, 646146876, 326576835⟩, ⟨1168817259, 3567461589, 51083525, 774863126, 984244748, 1070778203, 3551504128, 1140349830⟩) := by decide!

set_option maxRecDepth 1000000 in
theorem p1c38 : pbkdf2LoopW ipadState1 opadState1 100 (⟨4035317962, 680970900, 2534071877, 1124762377, 1552343117, 1076501256, 646146876, 326576835⟩, ⟨1168817259, 3567461589, 51083525, 774863126, 984244748, 1070778203, 3551504128, 1140349830⟩) = (⟨1416730269, 3601372530, 135650216, 1651241904, 376906419, 2029721015, 3515789185, 464300076⟩, ⟨1052700133, 2341895669, 2009066069, 3619637061, 1846258096, 3335652359, 2698777486, 3134578465⟩) := by decide!

set_option maxRecDepth 1000000 in
theorem p1c39 : pbkdf2LoopW ipadState1 opadState1 100 (⟨1416730269, 3601372530, 135650216, 1651241904, 376906419, 2029721015, 3515789185, 464300076⟩, ⟨1052700133, 2341895669, 2009066069, 3619637061, 1846258096, 3335652359, 2698777486, 3134578465⟩) = (⟨41782299, 2611445868, 2395688316, 1733033080, 4268589234, 1727620246, 697694056, 3728114542⟩, ⟨1841391467, 1624891889, 647551990, 2929580990, 3274800660, 72880110, 1482834013, 1989428170⟩) := by decide!

set_option maxRecDepth 1000000 in
theorem p1c40 : pbkdf2LoopW ipadState1 opadState1 100 (⟨41782299, 2611445868, 2395688316, 1733033080, 4268589234, 1727620246, 697694056, 3728114542⟩, ⟨1841391467, 1624891889, 647551990, 2929580990, 3274800660, 72880110, 1482834013, 1989428170⟩) = (⟨1822006387, 3074016777, 342571600, 4258385879, 355355316, 1943770690, 1017286817, 4246830741⟩, ⟨883739409, 3875384423, 1135489633, 3835471782, 3130054683, 1916080175, 220802962, 811135063⟩) := by decide!

set_option maxRecDepth 1000000 in
theorem p1c41 : pbkdf2LoopW ipadState1 opadState1 100 (⟨1822006387, 3074016777, 342571600, 4258385879, 355355316, 1943770690, 1017286817, 4246830741⟩, ⟨883739409, 3875384423, 1135489633, 3835471782, 3130054683, 1916080175, 220802962, 811135063⟩) = (⟨4197487228, 1789515812, 639742002, 3198584726, 2017938663, 2575393846, 181091026, 2269866299⟩, ⟨2907750487, 3585282659, 3065991462, 1852416081, 3221075043, 745435458, 3490188502, 1121196755⟩) := by decide!

set_option maxRecDepth 1000000 in
theorem p1c42 : pbkdf2LoopW ipadState1 opadState1 100 (⟨4197487228, 1789515812, 639742002, 3198584726, 2017938663, 2575393846, 181091026, 2269866299⟩, ⟨2907750487, 3585282659, 3065991462, 1852416081, 3221075043, 745435458, 3490188502, 1121196755⟩) = (⟨2724763525, 2273044698, 1335064445, 1154444687, 1506980605, 3617751690, 2041397253, 3562635393⟩, ⟨405888516, 3901515816, 749679137, 3052362468, 1464594001, 312850968, 2790944090, 3613500622⟩) := by decide!

set_option maxRecDepth 1000000 in
theorem p1c43 : pbkdf2LoopW ipadState1 opadState1 100 (⟨2724763525, 2273044698, 1335064445, 1154444687, 1506980605, 3617751690, 2041397253, 3562635393⟩, ⟨405888516, 3901515816, 749679137, 3052362468, 1464594001, 312850968, 2790944090, 3613500622⟩) = (⟨1065033836, 1627259108, 1125446422, 4136252719, 3525502144, 1212724935, 1024079136, 256996243⟩, ⟨300193491, 3812486093, 1012133500, 1679393912, 2379468924, 902569358, 662645987, 4224836392⟩) := by decide!

set_option maxRecDepth 1000000 in
theorem p1c44 : pbkdf2LoopW ipadState1 opadState1 100 (⟨1065033836, 1627259108, 1125446422, 4136252719, 3525502144, 1212724935, 1024079136, 256996243⟩, ⟨300193491, 3812486093, 1012133500, 1679393912, 2379468924, 902569358, 662645987, 4224836392⟩) = (⟨440563293, 4007637698, 3645477761, 3560891090, 3233452239, 1367335864, 4255670908, 2627947047⟩, ⟨1485765263, 3163041098, 1361362074, 203834807, 2558068616, 590777983, 1720449218, 209386129⟩) := by decide!

set_option maxRecDepth 1000000 in
theorem p1c45 : pbkdf2LoopW ipadState1 opadState1 100 (⟨440563293, 4007637698, 3645477761, 3560891090, 3233452239, 1367335864, 4255670908, 2627947047⟩, ⟨1485765263, 3163041098, 1361362074, 203834807, 2558068616, 590777983, 1720449218, 209386129⟩) = (⟨1859266821, 2791257142, 575807673, 2127281780, 3602582695, 1331458478, 3124801304, 671808271⟩, ⟨3973163941, 779173944, 3158941795, 674376619, 306907762, 3761802166, 154460895, 3585702444⟩) := by decide!

set_option maxRecDepth 1000000 in
theorem p1c46 : pbkdf2LoopW ipadState1 opadState1 100 (⟨1859266821, 2791257142, 575807673, 2127281780, 3602582695, 1331458478, 3124801304, 671808271⟩, ⟨3973163941, 779173944, 3158941795, 674376619, 306907762, 3761802166, 154460895, 3585702444⟩) = (⟨3146514099, 626368855, 3748778669, 607320035, 1748045431, 1345083428, 3653587815, 1809335170⟩, ⟨800948581, 2487549138, 2549260106, 1883434245, 3996556611, 4210482567, 2281718523, 4109402813⟩) := by decide!

set_option maxRecDepth 1000000 in
theorem p1c47 : pbkdf2LoopW ipadState1 opadState1 100 (⟨3146514099, 626368855, 3748778669, 607320035, 1748045431, 1345083428, 3653587815, 1809335170⟩, ⟨800948581, 2487549138, 2549260106, 1883434245, 3996556611, 4210482567, 2281718523, 4109402813⟩) = (⟨723581440, 278690540, 1319913840, 1197794739, 2713695778, 1424539731, 709975809, 2234739894⟩, ⟨3003214907, 572217417, 1673103139, 3798845319, 3944590154, 3928204214, 2181372255, 2610107075⟩) := by decide!

set_option maxRecDepth 1000000 in
theorem p1c48 : pbkdf2LoopW ipadState1 opadState1 100 (⟨723581440, 278690540, 1319913840, 1197794739, 2713695778, 1424539731, 709975809, 2234739894⟩, ⟨3003214907, 572217417, 1673103139, 3798845319, 3944590154, 3928204214, 2181372255, 2610107075⟩) = (⟨341475766, 521474941, 3453104623, 2959313388, 2703349139, 1824627769, 961978980, 3800965734⟩, ⟨2390261937, 2815379637, 3161006449, 2180567223, 1232987570, 3239329361, 3114485116, 992781549⟩) := by decide!

set_option maxRecDepth 1000000 in
theorem p1c49 : pbkdf2LoopW ipadState1 opadState1 100 (⟨341475766, 521474941, 3453104623, 2959313388, 2703349139, 1824627769, 961978980, 3800965734⟩, ⟨2390261937, 2815379637, 3161006449, 2180567223, 1232987570, 3239329361, 3114485116, 992781549⟩) = (⟨2546553685, 976104416, 1286947619, 3642333476, 442862100, 1107702645, 4075507786, 2635596230⟩, ⟨2087849888, 3178737143, 1782058430, 500045706, 947189824, 930559019, 162538840, 3109193702⟩) := by decide!

set_option maxRecDepth 1000000 in
theorem p1c50 : pbkdf2LoopW ipadState1 opadState1 100 (⟨2546553685, 976104416, 1286947619, 3642333476, 442862100, 1107702645, 4075507786, 2635596230⟩, ⟨2087849888, 3178737143, 1782058430, 500045706, 947189824, 930559019, 162538840, 3109193702⟩) = (⟨3691629067, 1675666014, 3096857531, 970313835, 1705867300, 2043042401, 189784191, 1528640389⟩, ⟨1667699563, 2828274568, 577656213, 2226160114, 1030709391, 2322815562, 1446861275, 3409697620⟩) := by decide!

set_option maxRecDepth 1000000 in
theorem p1c51 : pbkdf2LoopW ipadState1 opadState1 100 (⟨3691629067, 1675666014, 3096857531, 970313835, 1705867300, 2043042401, 189784191, 1528640389⟩, ⟨1667699563, 2828274568, 577656213, 2226160114, 1030709391, 2322815562, 1446861275, 3409697620⟩) = (⟨535230567, 3577318680, 3189843863, 3965942219, 3452451676, 983024987, 1503167112, 3071614782⟩, ⟨2955835509, 2536122705, 3870553455, 4217652637, 2199623783, 10245977, 1769306710, 628669640⟩) := by decide!

set_option maxRecDepth 1000000 in
theorem p1c52 : pbkdf2LoopW ipadState1 opadState1 100 (⟨535230567, 3577318680, 3189843863, 3965942219, 3452451676, 983024987, 1503167112, 3071614782⟩, ⟨2955835509, 2536122705, 3870553455, 4217652637, 2199623783, 10245977, 1769306710, 628669640⟩) = (⟨587556418, 1373262251, 1362947604, 2524692301, 1423205188, 303643639, 1476859759, 1347767878⟩, ⟨1052980380, 2492917095, 368781076, 3406561750, 1446795201, 3390020182, 4282857634, 2103728114⟩) := by decide!

set_option maxRecDepth 1000000 in
theorem p1c53 : pbkdf2LoopW ipadState1 opadState1 100 (⟨587556418, 1373262251, 1362947604, 2524692301, 1423205188, 303643639, 1476859759, 1347767878⟩, ⟨1052980380, 2492917095, 368781076, 3406561750, 1446795201, 3390020182, 4282857634, 2103728114⟩) = (⟨4127871653, 3103143508, 753614342, 4085265418, 85344409, 666638351, 3414360062, 4031234491⟩, ⟨933626450, 2484167598, 3719382423, 2418205123, 1809585934, 1258296580, 676369591, 1264255141⟩) := by decide!

set_option maxRecDepth 1000000 in
theorem p1c54 : pbkdf2LoopW ipadState1 opadState1 100 (⟨4127871653, 3103143508, 753614342, 4085265418, 85344409, 666638351, 3414360062, 4031234491⟩, ⟨933626450, 2484167598, 3719382423, 2418205123, 1809585934, 1258296580, 676369591, 1264255141⟩) = (⟨1821296226, 2911191654, 2296394799, 3120992348, 1368107101, 3523498895, 559099573, 2818742790⟩, ⟨2727966420, 94204256, 1123350422, 3338009016, 4260696914, 1880608545, 816193804, 3536533998⟩) := by decide!

set_option maxRecDepth 1000000 in
theorem p1c55 : pbkdf2LoopW ipadState1 opadState1 100 (⟨1821296226, 2911191654, 2296394799, 3120992348, 1368107101, 3523498895, 559099573, 2818742790⟩, ⟨2727966420, 94204256, 1123350422, 3338009016, 4260696914, 1880608545, 816193804, 3536533998⟩) = (⟨693598024, 2842951513, 2473293245, 1378671492, 2170126512, 234707222, 2809778367, 767456570⟩, ⟨2727443175, 2423089687, 3560182274, 1253139655, 2390682192, 1690017279, 3385024446, 3468078828⟩) := by decide!

set_option maxRecDepth 1000000 in
theorem p1c56 : pbkdf2LoopW ipadState1 opadState1 100 (⟨693598024, 2842951513, 2473293245, 1378671492, 2170126512, 234707222, 2809778367, 767456570⟩, ⟨2727443175, 2423089687, 3560182274, 1253139655, 2390682192, 1690017279, 3385024446, 3468078828⟩) = (⟨2814651672, 2830825059, 2082451313, 1410305046, 574736766, 1625348435, 4251029591, 2111418963⟩, ⟨1941241707, 3468173645, 1672297623, 2998841893, 3992325872, 432953379, 3177221278, 2434251110⟩) := by decide!

set_option maxRecDepth 1000000 in
theorem p1c57 : pbkdf2LoopW ipadState1 opadState1 100 (⟨2814651672, 2830825059, 2082451313, 1410305046, 574736766, 1625348435, 4251029591, 2111418963⟩, ⟨1941241707, 3468173645, 1672297623, 2998841893, 3992325872, 432953379, 3177221278, 2434251110⟩) = (⟨1435183338, 2441303110, 2986003155, 185200301, 1692981554, 1987554619, 1563773360, 4116515656⟩, ⟨56941571, 1957778693, 1309007327, 2425188717, 4143005538, 2914942068, 1151086049, 299869999⟩) := by decide!

set_option maxRecDepth 1000000 in
theorem p1c58 : pbkdf2LoopW ipadState1 opadState1 100 (⟨1435183338, 2441303110, 2986003155, 185200301, 1692981554, 1987554619, 1563773360, 4116515656⟩, ⟨56941571, 1957778693, 1309007327, 2425188717, 4143005538, 2914942068, 1151086049, 299869999⟩) = (⟨3352701709, 380545943, 3882993201, 2585323037, 441473686, 1275515765, 1327245028, 1892017307⟩, ⟨2927362989, 1671461213, 1504160162, 1670370805, 4164681735, 2896024557, 1925736557, 107942630⟩) := by decide!

set_option maxRecDepth 1000000 in
theorem p1c59 : pbkdf2LoopW ipadState1 opadState1 100 (⟨3352701709, 380545943, 3882993201, 2585323037, 441473686, 1275515765, 1327245028, 1892017307⟩, ⟨2927362989, 1671461213, 1504160162, 1670370805, 4164681735, 2896024557, 1925736557, 107942630⟩) = (⟨2424171940, 290522389, 2660844711, 1358596054, 2834800215, 3519725899, 3517259623, 264743746⟩, ⟨535643133, 2736420887, 2769629175, 4008752694, 58169160, 3910919103, 1409299389, 3453437407⟩) := by decide!

set_option maxRecDepth 1000000 in
theorem p1c60 : pbkdf2LoopW ipadState1 opadState1 100 (⟨2424171940, 290522389, 2660844711, 1358596054, 2834800215, 3519725899, 3517259623, 264743746⟩, ⟨535643133, 2736420887, 2769629175, 4008752694, 58169160, 3910919103, 1409299389, 3453437407⟩) = (⟨1235747580, 1877677868, 2171989550, 1322490046, 1293614949, 1893156202, 1213104212, 459166398⟩, ⟨3604575098, 2770948590, 4162162056, 2404534127, 3260567186, 496862163, 2635518161, 3956640114⟩) := by decide!

set_option maxRecDepth 1000000 in
theorem p1c61 : pbkdf2LoopW ipadState1 opadState1 100 (⟨1235747580, 1877677868, 2171989550, 1322490046, 1293614949, 1893156202, 1213104212, 459166398⟩, ⟨3604575098, 2770948590, 4162162056, 2404534127, 3260567186, 496862163, 2635518161, 3956640114⟩) = (⟨1928312293, 2344242344, 455163760, 685584742, 3426439743, 987421070, 2303472944, 2208698741⟩, ⟨574429754, 1058808640, 3986518601, 2611035583, 2980047605, 2536406153, 3070197172, 3130286222⟩) := by decide!

set_option maxRecDepth 1000000 in
theorem p1c62 : pbkdf2LoopW ipadState1 opadState1 100 (⟨1928312293, 2344242344, 455163760, 685584742, 3426439743, 987421070, 2303472944, 2208698741⟩, ⟨574429754, 1058808640, 3986518601, 2611035583, 2980047605, 2536406153, 3070197172, 3130286222⟩) = (⟨4048163514, 2280658973, 778578927, 1106406484, 3407080725, 4138438844, 1586074520, 3795704513⟩, ⟨203545643, 2124611509, 1548320863, 3473701358, 4292353816, 419915310, 790812442, 2296539918⟩) := by decide!

set_option maxRecDepth 1000000 in
theorem p1c63 : pbkdf2LoopW ipadState1 opadState1 100 (⟨4048163514, 2280658973, 778578927, 1106406484, 3407080725, 4138438844, 1586074520, 3795704513⟩, ⟨203545643, 2124611509, 1548320863, 3473701358, 4292353816, 419915310, 790812442, 2296539918⟩) = (⟨2114968275, 2620050047, 574183862, 3906022381, 47111101, 4140876876, 863619223, 1674960109⟩, ⟨2049631386, 298536667, 4110767202, 261776071, 4138790331, 2136484711, 1617664660, 266649093⟩) := by decide!

set_option maxRecDepth 1000000 in
theorem p1c64 : pbkdf2LoopW ipadState1 opadState1 100 (⟨2114968275, 2620050047, 574183862, 3906022381, 47111101, 4140876876, 863619223, 1674960109⟩, ⟨2049631386, 298536667, 4110767202, 261776071, 4138790331, 2136484711, 1617664660, 266649093⟩) = (⟨3134703188, 3197994846, 2522270440, 137272906, 1668302036, 4182998167, 4024261591, 2702724515⟩, ⟨3853312943, 1298994128, 753212369, 1615121053, 1759937381, 3268947152, 2939011282, 2654609177⟩) := by decide!

set_option maxRecDepth 1000000 in
theorem p1c65 : pbkdf2LoopW ipadState1 opadState1 100 (⟨3134703188, 3197994846, 2522270440, 137272906, 1668302036, 4182998167, 4024261591, 2702724515⟩, ⟨3853312943, 1298994128, 753212369, 1615121053, 1759937381, 3268947152, 2939011282, 2654609177⟩) = (⟨3863226277, 592450291, 240944318, 2474534197, 1502319747, 2405342394, 2385787037, 3840740795⟩, ⟨3431371694, 1798939594, 2000718341, 3869254851, 231060239, 2972578405, 1126851513, 519272994⟩) := by decide!

set_option maxRecDepth 1000000 in
theorem p1c66 : pbkdf2LoopW ipadState1 opadState1 100 (⟨3863226277, 592450291, 240944318, 2474534197, 1502319747, 2405342394, 2385787037, 3840740795⟩, ⟨3431371694, 1798939594, 2000718341, 3869254851, 231060239, 2972578405, 1126851513, 519272994⟩) = (⟨3161556020, 3796833557, 2822258950, 2092188688, 1935373242, 2522372636, 1636430896, 3551617251⟩, ⟨1201633278, 2281003812, 2341254847, 747374725, 311702875, 201441334, 248700448, 494348587⟩) := by decide!

set_option maxRecDepth 1000000 in
theorem p1c67 : pbkdf2LoopW ipadState1 opadState1 100 (⟨3161556020, 3796833557, 2822258950, 2092188688, 1935373242, 2522372636, 1636430896, 3551617251⟩, ⟨1201633278, 2281003812, 2341254847, 747374725, 311702875, 201441334, 248700448, 494348587⟩) = (⟨3989628881, 761579675, 2630583500, 3979330888, 3796148003, 3649999385, 703018988, 1704622849⟩, ⟨3658354105, 2436905838, 1231274859, 1342212081, 2397584818, 116452142, 1371387528, 3502047965⟩) := by decide!

set_option maxRecDepth 1000000 in
theorem p1c68 : pbkdf2LoopW ipadState1 opadState1 100 (⟨3989628881, 761579675, 2630583500, 3979330888, 3796148003, 3649999385, 703018988, 1704622849⟩, ⟨3658354105, 2436905838, 1231274859, 1342212081, 2397584818, 116452142, 1371387528, 3502047965⟩) = (⟨197376928, 718376280, 2109517250, 2970931654, 2320631085, 1765723371, 2893868315, 1005594852⟩, ⟨1221671792, 2689926195, 1532151371, 1948876616, 1172638675, 3948857897, 1379369427, 1389508909⟩) := by decide!

set_option maxRecDepth 1000000 in
theorem p1c69 : pbkdf2LoopW ipadState1 opadState1 100 (⟨197376928, 718376280, 2109517250, 2970931654, 2320631085, 1765723371, 2893868315, 1005594852⟩, ⟨1221671792, 2689926195, 1532151371, 1948876616, 1172638675, 3948857897, 1379369427, 1389508909⟩) = (⟨331980083, 2929446166, 3315412956, 1025064319, 1729945431, 2420801094, 2005333377, 1482537361⟩, ⟨2841383637, 4213717208, 2959587118, 3698864999, 4260107208, 1673795509, 3547106414, 3574620784⟩) := by decide!

set_option maxRecDepth 1000000 in
theorem p1c70 : pbkdf2LoopW ipadState1 opadState1 100 (⟨331980083, 2929446166, 3315412956, 1025064319, 1729945431, 2420801094, 2005333377, 1482537361⟩, ⟨2841383637, 4213717208, 2959587118, 3698864999, 4260107208, 1673795509, 3547106414, 3574620784⟩) = (⟨2775399253, 2866246706, 4069454355, 3467851834, 1321623885, 1550798506, 4234301989, 2632138919⟩, ⟨3797372042, 2002995839, 2196203590, 3339236058, 3164338637, 1669414015, 162289421, 298857582⟩) := by decide!

set_option maxRecDepth 1000000 in
theorem p1c71 : pbkdf2LoopW ipadState1 opadState1 100 (⟨2775399253, 2866246706, 4069454355, 3467851834, 1321623885, 1550798506, 4234301989, 2632138919⟩, ⟨3797372042, 2002995839, 2196203590, 3339236058, 3164338637, 1669414015, 162289421, 298857582⟩) = (⟨3206508532, 4165050480, 292412998, 796575580, 1658684920, 853806125, 932820338, 697026977⟩, ⟨3707420535, 2042248409, 3252571851, 1097966800, 2102550234, 3050942349, 2406166668, 3344569473⟩) := by decide!

set_option maxRecDepth 1000000 in
theorem p1c72 : pbkdf2LoopW ipadState1 opadState1 100 (⟨3206508532, 4165050480, 292412998, 796575580, 1658684920, 853806125, 932820338, 697026977⟩, ⟨3707420535, 2042248409, 3252571851, 1097966800, 2102550234, 3050942349, 2406166668, 3344569473⟩) = (⟨594044014, 1096692330, 4283655847, 1646192952, 1800031654, 65983324, 3597289520, 1615613001⟩, ⟨3541639568, 1190671958, 1066897251, 1730686057, 325842125, 2988886885, 3808367450, 733133498⟩) := by decide!

set_option maxRecDepth 1000000 in
theorem p1c73 : pbkdf2LoopW ipadState1 opadState1 100 (⟨594044014, 1096692330, 4283655847, 1646192952, 1800031654, 65983324, 3597289520, 1615613001⟩, ⟨3541639568, 1190671958, 1066897251, 1730686057, 325842125, 2988886885, 3808367450, 733133498⟩) = (⟨1182883307, 1449883918, 1712171758, 1212220530, 3340003574, 3567477562, 2072298359, 2993394974⟩, ⟨4181223114, 2392578524, 2590548052, 3835132501, 3866759385, 384371036, 2305740835, 1763927429⟩) := by decide!

set_option maxRecDepth 1000000 in
theorem p1c74 : pbkdf2LoopW ipadState1 opadState1 100 (⟨1182883307, 1449883918, 1712171758, 1212220530, 3340003574, 3567477562, 2072298359, 2993394974⟩, ⟨4181223114, 2392578524, 2590548052, 3835132501, 3866759385, 384371036, 2305740835, 1763927429⟩) = (⟨4114441875, 1322498295, 4018171135, 580264443, 2927579538, 4025190402, 2805958376, 2976556996⟩, ⟨2292703240, 2694375959, 132827064, 479420607, 3068838413, 1991855012, 3461873538, 3200980371⟩) := by decide!

set_option maxRecDepth 1000000 in
theorem p1c75 : pbkdf2LoopW ipadState1 opadState1 100 (⟨4114441875, 1322498295, 4018171135, 580264443, 2927579538, 4025190402, 2805958376, 2976556996⟩, ⟨2292703240, 2694375959, 132827064, 479420607, 3068838413, 1991855012, 3461873538, 3200980371⟩) = (⟨1853707898, 3411177360, 494026883, 1404201853, 3110155837, 3966971264, 521467800, 2775259616⟩, ⟨4183643909, 2272416713, 4258910305, 670066913, 3278081403, 2052875701, 2697566977, 2644144801⟩) := by decide!

set_option maxRecDepth 1000000 in
theorem p1c76 : pbkdf2LoopW ipadState1 opadState1 100 (⟨1853707898, 3411177360, 494026883, 1404201853, 3110155837, 3966971264, 521467800, 2775259616⟩, ⟨4183643909, 2272416713, 4258910305, 670066913, 3278081403, 2052875701, 2697566977, 2644144801⟩) = (⟨3677152578, 3066398242, 33318225, 1614285845, 681622619, 1728119324, 2798130686, 4106663517⟩, ⟨1913515749, 1250954553, 2510364606, 1969820766, 4121240212, 706288788, 3243682674, 1895611225⟩) := by decide!

set_option maxRecDepth 1000000 in
theorem p1c77 : pbkdf2LoopW ipadState1 opadState1 100 (⟨3677152578, 3066398242, 33318225, 1614285845, 681622619, 1728119324, 2798130686, 4106663517⟩, ⟨1913515749, 1250954553, 2510364606, 1969820766, 4121240212, 706288788, 3243682674, 1895611225⟩) = (⟨3774465377, 3270847743, 2690935167, 148520001, 567430327, 4108052995, 3881979490, 1288752951⟩, ⟨214502340, 728088110, 4290693171, 1379631004, 4273191445, 2240954720, 2516703691, 1584428756⟩) := by decide!

set_option maxRecDepth 1000000 in
theorem p1c78 : pbkdf2LoopW ipadState1 opadState1 100 (⟨3774465377, 3270847743, 2690935167, 148520001, 567430327, 4108052995, 3881979490, 1288752951⟩, ⟨214502340, 728088110, 4290693171, 1379631004, 4273191445, 2240954720, 2516703691, 1584428756⟩) = (⟨1121080361, 2347111702, 2329593255, 2939594229, 2293400006, 3201387972, 3771476270, 1582144968⟩, ⟨731805267, 2820615079, 4018432175, 747253992, 3294785058, 235294503, 2142894559, 3326531808⟩) := by decide!

set_option maxRecDepth 1000000 in
theorem p1c79 : pbkdf2LoopW ipadState1 opadState1 100 (⟨1121080361, 2347111702, 2329593255, 2939594229, 2293400006, 3201387972, 3771476270, 1582144968⟩, ⟨731805267, 2820615079, 4018432175, 747253992, 3294785058, 235294503, 2142894559, 3326531808⟩) = (⟨232389199, 885553225, 1601168541, 1044443221, 2653455171, 455550530, 4159262803, 3280398931⟩, ⟨2423781840, 3784272583, 3852885208, 1814001105, 351570886, 1698103736, 1431633503, 178967386⟩) := by decide!

set_option maxRecDepth 1000000 in
theorem p1c80 : pbkdf2LoopW ipadState1 opadState1 100 (⟨232389199, 885553225, 1601168541, 1044443221, 2653455171, 455550530, 4159262803, 3280398931⟩, ⟨2423781840, 3784272583, 3852885208, 1814001105, 351570886, 1698103736, 1431633503, 178967386⟩) = (⟨3683865715, 3835204829, 2267676640, 3613546500, 3998761014, 1996529860, 2739975690, 882345190⟩, ⟨4169865985, 2035473328, 29072482, 3863355450, 1694745325, 2051643820, 2749149242, 1145390854⟩) := by decide!

set_option maxRecDepth 1000000 in
theorem p1c81 : pbkdf2LoopW ipadState1 opadState1 100 (⟨3683865715, 3835204829, 2267676640, 3613546500, 3998761014, 1996529860, 2739975690, 882345190⟩, ⟨4169865985, 2035473328, 29072482, 3863355450, 1694745325, 2051643820, 2749149242, 1145390854⟩) = (⟨3741763244, 4028432101, 3294319240, 515035578, 736163332, 833177195, 3927347522, 2333680714⟩, ⟨2854878139, 1463223583, 3375953292, 1798949566, 736673922, 388344039, 2359243712, 759778060⟩) := by decide!

set_option maxRecDepth 1000000 in
theorem p1c82 : pbkdf2LoopW ipadState1 opadState1 100 (⟨3741763244, 4028432101, 3294319240, 515035578, 736163332, 833177195, 3927347522, 2333680714⟩, ⟨2854878139, 1463223583, 3375953292, 1798949566, 736673922, 388344039, 2359243712, 759778060⟩) = (⟨3967965596, 2932273096, 1963820297, 3787675777, 228788213, 795672526, 824676036, 3606985535⟩, ⟨2750188328, 356527767, 523700728, 1870912447, 1462395267, 3459573211, 1923604724, 3657885858⟩) := by decide!

set_option maxRecDepth 1000000 in
theorem p1c83 : pbkdf2LoopW ipadState1 opadState1 100 (⟨3967965596, 2932273096, 1963820297, 3787675777, 228788213, 795672526, 824676036, 3606985535⟩, ⟨2750188328, 356527767, 523700728, 1870912447, 1462395267, 3459573211, 1923604724, 3657885858⟩) = (⟨1975661712, 974744940, 4147473752, 3575296357, 2955290680, 4229477425, 1023868069, 3329412865⟩, ⟨1593851724, 374348182, 1293433061, 266075877, 3079014751, 1223199941, 407114720, 2109943922⟩) := by decide!

set_option maxRecDepth 1000000 in
theorem p1c84 : pbkdf2LoopW ipadState1 opadState1 100 (⟨1975661712, 974744940, 4147473752, 3575296357, 2955290680, 4229477425, 1023868069, 3329412865⟩, ⟨1593851724, 374348182, 1293433061, 266075877, 3079014751, 1223199941, 407114720, 2109943922⟩) = (⟨2054894568, 3880696321, 373306166, 1652967387, 3569245774, 1286205557, 3019907242, 3915091929⟩, ⟨519650604, 4048086210, 4105857438, 3875098586, 410485571, 3662428149, 1781153628, 2831394592⟩) := by decide!

set_option maxRecDepth 1000000 in
theorem p1c85 : pbkdf2LoopW ipadState1 opadState1 100 (⟨2054894568, 3880696321, 373306166, 1652967387, 3569245774, 1286205557, 3019907242, 3915091929⟩, ⟨519650604, 4048086210, 4105857438, 3875098586, 410485571, 3662428149, 1781153628, 2831394592⟩) = (⟨4281191324, 3777366695, 3402718928, 1036342216, 2203865829, 3093623344, 3378214488, 1071010448⟩, ⟨3693256550, 3341211851, 27683333, 912837738, 3487637453, 197330054, 2758535397, 205858801⟩) := by decide!

set_option maxRecDepth 1000000 in
theorem p1c86 : pbkdf2LoopW ipadState1 opadState1 100 (⟨4281191324, 3777366695, 3402718928, 1036342216, 2203865829, 3093623344, 3378214488, 1071010448⟩, ⟨3693256550, 3341211851, 27683333, 912837738, 3487637453, 197330054, 2758535397, 205858801⟩) = (⟨2588856208, 3369740069, 4148901823, 280335814, 2506698375, 1734368574, 601658572, 4272382736⟩, ⟨3870787876, 3216580202, 2105309285, 4163774310, 4168802782, 1745431016, 371508696, 829943431⟩) := by decide!

set_option maxRecDepth 1000000 in
theorem p1c87 : pbkdf2LoopW ipadState1 opadState1 100 (⟨2588856208, 3369740069, 4148901823, 280335814, 2506698375, 1734368574, 601658572, 4272382736⟩, ⟨3870787876, 3216580202, 2105309285, 4163774310, 4168802782, 1745431016, 371508696, 829943431⟩) = (⟨1116417740, 2461329337, 1080122899, 3772483047, 2199109796, 3881962439, 2827026684, 3696332484⟩, ⟨2974744819, 2658291982, 363670989, 2920939477, 3151508526, 995402424, 3083048728, 1721846724⟩) := by decide!

set_option maxRecDepth 1000000 in
theorem p1c88 : pbkdf2LoopW ipadState1 opadState1 100 (⟨1116417740, 2461329337, 1080122899, 3772483047, 2199109796, 3881962439, 2827026684, 3696332484⟩, ⟨2974744819, 2658291982, 363670989, 2920939477, 3151508526, 995402424, 3083048728, 1721846724⟩) = (⟨3172583618, 1311557695, 3782991270, 2658287306, 2914934994, 3296014838, 224941133, 3238113265⟩, ⟨934460933, 2809748643, 109838061, 161467230, 902606800, 2116380859, 1357487694, 154678657⟩) := by decide!

set_option maxRecDepth 1000000 in
theorem p1c89 : pbkdf2LoopW ipadState1 opadState1 100 (⟨3172583618, 1311557695, 3782991270, 2658287306, 2914934994, 3296014838, 224941133, 3238113265⟩, ⟨934460933, 2809748643, 109838061, 161467230, 902606800, 2116380859, 1357487694, 154678657⟩) = (⟨138406217, 3427076209, 3187502068, 3288345553, 538921504, 3782871402, 4249397674, 1185552986⟩, ⟨3697790852, 2930844107, 1312142456, 2014611422, 3784703812, 396310843, 2100200769, 1164537457⟩) := by decide!

set_option maxRecDepth 1000000 in
theorem p1c90 : pbkdf2LoopW ipadState1 opadState1 100 (⟨138406217, 3427076209, 3187502068, 3288345553, 538921504, 3782871402, 4249397674, 1185552986⟩, ⟨3697790852, 2930844107, 1312142456, 2014611422, 3784703812, 396310843, 2100200769, 1164537457⟩) = (⟨174275226, 4136866544, 3424538273, 3056136066, 2397317135, 856287578, 2305231440, 825429846⟩, ⟨4208385247, 2081692503, 60629414, 1263813543, 2203900013, 3156914823, 2090646062, 2668333778⟩) := by decide!

set_option maxRecDepth 1000000 in
theorem p1c91 : pbkdf2LoopW ipadState1 opadState1 100 (⟨174275226, 4136866544, 3424538273, 3056136066, 2397317135, 856287578, 2305231440, 825429846⟩, ⟨4208385247, 2081692503, 60629414, 1263813543, 2203900013, 3156914823, 2090646062, 2668333778⟩) = (⟨1956706946, 3598123251, 1345823522, 507250918, 730933539, 2030868125, 6100785, 3134868098⟩, ⟨3717473169, 809903771, 1506081492, 897581644, 1644411648, 3316879044, 3855596409, 3531301456⟩) := by decide!

set_option maxRecDepth 1000000 in
theorem p1c92 : pbkdf2LoopW ipadState1 opadState1 100 (⟨1956706946, 3598123251, 1345823522, 507250918, 730933539, 2030868125, 6100785, 3134868098⟩, ⟨3717473169, 809903771, 1506081492, 897581644, 1644411648, 3316879044, 3855596409, 3531301456⟩) = (⟨3327915635, 2686706855, 3509552763, 4264807506, 1861857277, 1309893793, 2793773901, 2354425644⟩, ⟨3293003461, 3088635093, 2157257127, 2166567052, 161954343, 1791901177, 3474733009, 4206471606⟩) := by decide!

set_option maxRecDepth 1000000 in
theorem p1c93 : pbkdf2LoopW ipadState1 opadState1 100 (⟨3327915635, 2686706855, 3509552763, 4264807506, 1861857277, 1309893793, 2793773901, 2354425644⟩, ⟨3293003461, 3088635093, 2157257127, 2166567052, 161954343, 1791901177, 3474733009, 4206471606⟩) = (⟨3260848986, 1379364308, 1975069013, 1270068930, 645047090, 471332512, 2360223798, 27799007⟩, ⟨2418740668, 3875944624, 1325722028, 552341811, 2620536645, 1153024270, 3950421070, 1467159124⟩) := by decide!

set_option maxRecDepth 1000000 in
theorem p1c94 : pbkdf2LoopW ipadState1 opadState1 100 (⟨3260848986, 1379364308, 1975069013, 1270068930, 645047090, 471332512, 2360223798, 27799007⟩, ⟨2418740668, 3875944624, 1325722028, 552341811, 2620536645, 1153024270, 3950421070, 1467159124⟩) = (⟨3427499861, 3958159775, 3878281565, 1276384459, 2673006109, 4183398362, 129978262, 2584847538⟩, ⟨3973792498, 198346779, 3885612991, 1696599952, 479361464, 1918365397, 1002496886, 1794225715⟩) := by decide!

set_option maxRecDepth 1000000 in
theorem p1c95 : pbkdf2LoopW ipadState1 opadState1 100 (⟨3427499861, 3958159775, 3878281565, 1276384459, 2673006109, 4183398362, 129978262, 2584847538⟩, ⟨3973792498, 198346779, 3885612991, 1696599952, 479361464, 1918365397, 1002496886, 1794225715⟩) = (⟨3075291953, 975474251, 2836844931, 3011256520, 1386869632, 502217791, 1760924529, 3413582957⟩, ⟨2867382298, 3823601225, 1182193271, 2817528345, 2362161036, 2235705997, 2284810895, 1613291604⟩) := by decide!

set_option maxRecDepth 1000000 in
theorem p1c96 : pbkdf2LoopW ipadState1 opadState1 100 (⟨3075291953, 975474251, 2836844931, 3011256520, 1386869632, 502217791, 1760924529, 3413582957⟩, ⟨2867382298, 3823601225, 1182193271, 2817528345, 2362161036, 2235705997, 2284810895, 1613291604⟩) = (⟨4148631973, 3042195016, 2377111852, 1879191351, 2268214689, 91318378, 2583541179, 378160601⟩, ⟨2622138440, 3216966386, 4245760158, 2408197432, 3860929826, 854031554, 2939081717, 3751794207⟩) := by decide!

set_option maxRecDepth 1000000 in
theorem p1c97 : pbkdf2LoopW ipadState1 opadState1 100 (⟨4148631973, 3042195016, 2377111852, 1879191351, 2268214689, 91318378, 2583541179, 378160601⟩, ⟨2622138440, 3216966386, 4245760158, 2408197432, 3860929826, 854031554, 2939081717, 3751794207⟩) = (⟨1635673559, 921147039, 26641242, 3023541695, 1063579353, 3346756895, 3377759236, 1256127652⟩, ⟨2293025813, 608461378, 2574866570, 4077449214, 3022161239, 2455260560, 3398140716, 47312265⟩) := by decide!

set_option maxRecDepth 1000000 in
theorem p1c98 : pbkdf2LoopW ipadState1 opadState1 100 (⟨1635673559, 921147039, 26641242, 3023541695, 1063579353, 3346756895, 3377759236, 1256127652⟩, ⟨2293025813, 608461378, 2574866570, 4077449214, 3022161239, 2455260560, 3398140716, 47312265⟩) = (⟨200851539, 4015120581, 2880613692, 2507671185, 2208243122, 3167311346, 511599526, 1335983154⟩, ⟨3673806766, 90083107, 1739141721, 3006109086, 2868426264, 1309592274, 4177683896, 172387070⟩) := by decide!

set_option maxRecDepth 1000000 in
theorem p1c99 : pbkdf2LoopW ipadState1 opadState1 99 (⟨200851539, 4015120581, 2880613692, 2507671185, 2208243122, 3167311346, 511599526, 1335983154⟩, ⟨3673806766, 90083107, 1739141721, 3006109086, 2868426264, 1309592274, 4177683896, 172387070⟩) = (⟨4269355426, 4214484357, 828599553, 3506071617, 3481826968, 245018044, 544721570, 3954148444⟩, ⟨591564445, 3963214170, 3349415188, 103674105, 3914307950, 398694599, 2560151616, 993209659⟩) := by decide!

theorem p1s1 : pbkdf2LoopW ipadState1 opadState1 200 (⟨3556773727, 3303591100, 3320445487, 1863158927, 427735909, 2372888702, 339099722, 3162803260⟩, ⟨3556773727, 3303591100, 3320445487, 1863158927, 427735909, 2372888702, 339099722, 3162803260⟩) = (⟨47541701, 2738629948, 2741893171, 3460740227, 48076068, 1723677660, 3792152616, 4010996771⟩, ⟨1452661456, 3196893558, 3752861452, 2229286969, 4130876249, 1788830631, 1776421915, 2798713571⟩) := by
  rw [(by norm_num : (200 : Nat) = 100 + 100), pbkdf2LoopW_add, p1c0, p1c1]

theorem p1s2 : pbkdf2LoopW ipadState1 opadState1 300 (⟨3556773727, 3303591100, 3320445487, 1863158927, 427735909, 2372888702, 339099722, 3162803260⟩, ⟨3556773727, 3303591100, 3320445487, 1863158927, 427735909, 2372888702, 339099722, 3162803260⟩) = (⟨3547493853, 3693136349, 773237828, 3987555897, 3342246419, 4136758759, 2315356565, 3690652426⟩, ⟨1535782288, 2424029078, 2115665712, 780092715, 3684023593, 498443664, 2432507191, 660056466⟩) := by
  rw [(by norm_num : (300 : Nat) = 200 + 100), pbkdf2LoopW_add, p1s1, p1c2]

theorem p1s3 : pbkdf2LoopW ipadState1 opadState1 400 (⟨3556773727, 3303591100, 3320445487, 1863158927, 427735909, 2372888702, 339099722, 3162803260⟩, ⟨3556773727, 3303591100, 3320445487, 1863158927, 427735909, 2372888702, 339099722, 3162803260⟩) = (⟨717430537, 3477409880, 3337687030, 2315119877, 3234430444, 3040661796, 2790464281, 3984548514⟩, ⟨2053252159, 1574540680, 2343514336, 168978814, 2992758087, 3210958361, 4208030493, 732703387⟩) := by
  rw [(by norm_num : (400 : Nat) = 300 + 100), pbkdf2LoopW_add, p1s2, p1c3]

theorem p1s4 : pbkdf2LoopW ipadState1 opadState1 500 (⟨3556773727, 3303591100, 3320445487, 1863158927, 427735909, 2372888702, 339099722, 3162803260⟩, ⟨3556773727, 3303591100, 3320445487, 1863158927, 427735909, 2372888702, 339099722, 3162803260⟩) = (⟨3128395630, 3373476103, 266280013, 1891904681, 1724712843, 1985090580, 3854516944, 3577298602⟩, ⟨1342273236, 3922845944, 2081185362, 4181761924, 1838121956, 2941892993, 963142213, 3632767197⟩) := by
  rw [(by norm_num : (500 : Nat) = 400 + 100), pbkdf2LoopW_add, p1s3, p1c4]

theorem p1s5 : pbkdf2LoopW ipadState1 opadState1 600 (⟨3556773727, 3303591100, 3320445487, 1863158927, 427735909, 2372888702, 339099722, 3162803260⟩, ⟨3556773727, 3303591100, 3320445487, 1863158927, 427735909, 2372888702, 339099722, 3162803260⟩) = (⟨1895980883, 2771329461, 2875652805, 2942700150, 3448627152, 620249520, 4085078385, 3433242942⟩, ⟨1628405968, 2541449510, 3076957464, 3454770749, 1829231256, 587086133, 1763076712, 1086465697⟩) := by
  rw [(by norm_num : (600 : Nat) = 500 + 100), pbkdf2LoopW_add, p1s4, p1c5]

theorem p1s6 : pbkdf2LoopW ipadState1 opadState1 700 (⟨3556773727, 3303591100, 3320445487, 1863158927, 427735909, 2372888702, 339099722, 3162803260⟩, ⟨3556773727, 3303591100, 3320445487, 1863158927, 427735909, 2372888702, 339099722, 3162803260⟩) = (⟨2079243904, 3645886707, 20385484, 2853517184, 3789059519, 2628179493, 3163867862, 792276351⟩, ⟨2994723848, 3824906387, 4080718820, 3382259204, 1900312237, 3705328438, 4187625851, 1626855194⟩) := by
  rw [(by norm_num : (700 : Nat) = 600 + 100), pbkdf2LoopW_add, p1s5, p1c6]

theorem p1s7 : pbkdf2LoopW ipadState1 opadState1 800 (⟨3556773727, 3303591100, 3320445487, 1863158927, 427735909, 2372888702, 339099722, 3162803260⟩, ⟨3556773727, 3303591100, 3320445487, 1863158927, 427735909, 2372888702, 339099722, 3162803260⟩) = (⟨3812317406, 1338581361, 800482926, 4256675322, 3405280557, 3272438078, 322794771, 2386257668⟩, ⟨4175983544, 2822230822, 3712253679, 1906346640, 791270073, 452618526, 422615671, 3861574641⟩) := by
  rw [(by norm_num : (800 : Nat) = 700 + 100), pbkdf2LoopW_add, p1s6, p1c7]

theorem p1s8 : pbkdf2LoopW ipadState1 opadState1 900 (⟨3556773727, 3303591100, 3320445487, 1863158927, 427735909, 2372888702, 339099722, 3162803260⟩, ⟨3556773727, 3303591100, 3320445487, 1863158927, 427735909, 2372888702, 339099722, 3162803260⟩) = (⟨3396993999, 3411822103, 1292166628, 2643394242, 704300694, 1503369414, 362757975, 2581264227⟩, ⟨2657003603, 2258025633, 450320752, 1245009100, 313834921, 1215118802, 4236374163, 1231277980⟩) := by
  rw [(by norm_num : (900 : Nat) = 800 + 100), pbkdf2LoopW_add, p1s7, p1c8]

theorem p1s9 : pbkdf2LoopW ipadState1 opadState1 1000 (⟨3556773727, 3303591100, 3320445487, 1863158927, 427735909, 2372888702, 339099722, 3162803260⟩, ⟨3556773727, 3303591100, 3320445487, 1863158927, 427735909, 2372888702, 339099722, 3162803260⟩) = (⟨2213148179, 4148222080, 1334196083, 3741803933, 1624883191, 1405929848, 1244717044, 1605328347⟩, ⟨2153627312, 1098481695, 3894602583, 608103220, 366347460, 521121398, 216695748, 2395558024⟩) := by
  rw [(by norm_num : (1000 : Nat) = 900 + 100), pbkdf2LoopW_add, p1s8, p1c9]

theorem p1s10 : pbkdf2LoopW ipadState1 opadState1 1100 (⟨3556773727, 3303591100, 3320445487, 1863158927, 427735909, 2372888702, 339099722, 3162803260⟩, ⟨3556773727, 3303591100, 3320445487, 1863158927, 427735909, 2372888702, 339099722, 3162803260⟩) = (⟨166378690, 249502795, 351660814, 3123605428, 1207092584, 679674401, 242579343, 3829097716⟩, ⟨2820578962, 1832205757, 704530139, 1573615954, 4079663173, 2817525152, 1965173443, 168358281⟩) := by
  rw [(by norm_num : (1100 : Nat) = 1000 + 100), pbkdf2LoopW_add, p1s9, p1c10]

theorem p1s11 : pbkdf2LoopW ipadState1 opadState1 1200 (⟨3556773727, 3303591100, 3320445487, 1863158927, 427735909, 2372888702, 339099722, 3162803260⟩, ⟨3556773727, 3303591100, 3320445487, 1863158927, 427735909, 2372888702, 339099722, 3162803260⟩) = (⟨1502431252, 2921438497, 794382894, 1701313623, 1141656193, 4081153685, 3071195479, 263246079⟩, ⟨3930039449, 4152782309, 3146379513, 2523775207, 3884147093, 1148435219, 2015725209, 3744272754⟩) := by
  rw [(by norm_num : (1200 : Nat) = 1100 + 100), pbkdf2LoopW_add, p1s10, p1c11]

theorem p1s12 : pbkdf2LoopW ipadState1 opadState1 1300 (⟨3556773727, 3303591100, 3320445487, 1863158927, 427735909, 2372888702, 339099722, 3162803260⟩, ⟨3556773727, 3303591100, 3320445487, 1863158927, 427735909, 2372888702, 339099722, 3162803260⟩) = (⟨3511844690, 4006269089, 3304845067, 3170011866, 3301923214, 2950144712, 408998762, 465018151⟩, ⟨2532552395, 4157836076, 1068983399, 2118056075, 169303653, 769630434, 230077036, 2531341812⟩) := by
  rw [(by norm_num : (1300 : Nat) = 1200 + 100), pbkdf2LoopW_add, p1s11, p1c12]

theorem p1s13 : pbkdf2LoopW ipadState1 opadState1 1400 (⟨3556773727, 3303591100, 3320445487, 1863158927, 427735909, 2372888702, 339099722, 3162803260⟩, ⟨3556773727, 3303591100, 3320445487, 1863158927, 427735909, 2372888702, 339099722, 3162803260⟩) = (⟨3674750797, 634496181, 3806623484, 3692676986, 3396120654, 4025112001, 868203402, 1542440669⟩, ⟨3201252221, 1643003180, 1639574404, 3062808285, 3863571189, 3050375640, 3791721025, 3236631985⟩) := by
  rw [(by norm_num : (1400 : Nat) = 1300 + 100), pbkdf2LoopW_add, p1s12, p1c13]

theorem p1s14 : pbkdf2LoopW ipadState1 opadState1 1500 (⟨3556773727, 3303591100, 3320445487, 1863158927, 427735909, 2372888702, 339099722, 3162803260⟩, ⟨3556773727, 3303591100, 3320445487, 1863158927, 427735909, 2372888702, 339099722, 3162803260⟩) = (⟨1400030595, 1725388633, 3111986101, 3714221450, 1252019957, 3525448493, 87363197, 631286477⟩, ⟨2466738372, 3574900725, 1018658185, 3513861577, 2490176937, 3734701185, 1090639546, 910111923⟩) := by
  rw [(by norm_num : (1500 : Nat) = 1400 + 100), pbkdf2LoopW_add, p1s13, p1c14]

theorem p1s15 : pbkdf2LoopW ipadState1 opadState1 1600 (⟨3556773727, 3303591100, 3320445487, 1863158927, 427735909, 2372888702, 339099722, 3162803260⟩, ⟨3556773727, 3303591100, 3320445487, 1863158927, 427735909, 2372888702, 339099722, 3162803260⟩) = (⟨367300826, 645481634, 1844040508, 287448854, 785415911, 3926281278, 1480186134, 851017996⟩, ⟨3198059617, 4150307231, 3497606369, 632061030, 1635769593, 422018743, 3504142475, 389107744⟩) := by
  rw [(by norm_num : (1600 : Nat) = 1500 + 100), pbkdf2LoopW_add, p1s14, p1c15]

theorem p1s16 : pbkdf2LoopW ipadState1 opadState1 1700 (⟨3556773727, 3303591100, 3320445487, 1863158927, 427735909, 2372888702, 339099722, 3162803260⟩, ⟨3556773727, 3303591100, 3320445487, 1863158927, 427735909, 2372888702, 339099722, 3162803260⟩) = (⟨3499947983, 1445667719, 2359637870, 4171618137, 648436701, 403483407, 74639824, 1238140785⟩, ⟨3623689469, 3890829336, 136954047, 1605471240, 3062317699, 2227296028, 4006893231, 2129074563⟩) := by
  rw [(by norm_num : (1700 : Nat) = 1600 + 100), pbkdf2LoopW_add, p1s15, p1c16]

theorem p1s17 : pbkdf2LoopW ipadState1 opadState1 1800 (⟨3556773727, 3303591100, 3320445487, 1863158927, 427735909, 2372888702, 339099722, 3162803260⟩, ⟨3556773727, 3303591100, 3320445487, 1863158927, 427735909, 2372888702, 339099722, 3162803260⟩) = (⟨1994879899, 687788578, 3209978194, 235873844, 1155253868, 2059482179, 2118625778, 356894915⟩, ⟨4120395231, 1225666237, 953232302, 1642657481, 2392908588, 2466113794, 3478093802, 2846982180⟩) := by
  rw [(by norm_num : (1800 : Nat) = 1700 + 100), pbkdf2LoopW_add, p1s16, p1c17]

theorem p1s18 : pbkdf2LoopW ipadState1 opadState1 1900 (⟨3556773727, 3303591100, 3320445487, 1863158927, 427735909, 2372888702, 339099722, 3162803260⟩, ⟨3556773727, 3303591100, 3320445487, 1863158927, 427735909, 2372888702, 339099722, 3162803260⟩) = (⟨1512060279, 1384387809, 4153817748, 3105998078, 641001823, 2638967318, 2866978997, 2131882693⟩, ⟨4001769466, 4287272279, 1979240780, 1358938664, 2684724100, 1896529773, 2305638386, 3327792435⟩) := by
  rw [(by norm_num : (1900 : Nat) = 1800 + 100), pbkdf2LoopW_add, p1s17, p1c18]

theorem p1s19 : pbkdf2LoopW ipadState1 opadState1 2000 (⟨3556773727, 3303591100, 3320445487, 1863158927, 427735909, 2372888702, 339099722, 3162803260⟩, ⟨3556773727, 3303591100, 3320445487, 1863158927, 427735909, 2372888702, 339099722, 3162803260⟩) = (⟨3699684198, 3233307080, 4004308997, 4146503087, 3971560279, 2983105186, 190421221, 2536340651⟩, ⟨590535692, 1534139458, 1925065528, 987959709, 2947289012, 2893567031, 2087251467, 4052803637⟩) := by
  rw [(by norm_num : (2000 : Nat) = 1900 + 100), pbkdf2LoopW_add, p1s18, p1c19]

theorem p1s20 : pbkdf2LoopW ipadState1 opadState1 2100 (⟨3556773727, 3303591100, 3320445487, 1863158927, 427735909, 2372888702, 339099722, 3162803260⟩, ⟨3556773727, 3303591100, 3320445487, 1863158927, 427735909, 2372888702, 339099722, 3162803260⟩) = (⟨3670184803, 2692149857, 1692109280, 3970651007, 3378899598, 1719066264, 1364589969, 2794687536⟩, ⟨476541471, 1327797674, 2977595425, 2407385741, 1395205536, 3042902917, 168087380, 2595674753⟩) := by
  rw [(by norm_num : (2100 : Nat) = 2000 + 100), pbkdf2LoopW_add, p1s19, p1c20]

theorem p1s21 : pbkdf2LoopW ipadState1 opadState1 2200 (⟨3556773727, 3303591100, 3320445487, 1863158927, 427735909, 2372888702, 339099722, 3162803260⟩, ⟨3556773727, 3303591100, 3320445487, 1863158927, 427735909, 2372888702, 339099722, 3162803260⟩) = (⟨2559243151, 63884395, 1310858389, 85250933, 3477340424, 2399303346, 3680502223, 2841676217⟩, ⟨1631228826, 2360251460, 3903714852, 2992582536, 3673800678, 1613230558, 1213843414, 1102408633⟩) := by
  rw [(by norm_num : (2200 : Nat) = 2100 + 100), pbkdf2LoopW_add, p1s20, p1c21]

theorem p1s22 : pbkdf2LoopW ipadState1 opadState1 2300 (⟨3556773727, 3303591100, 3320445487, 1863158927, 427735909, 2372888702, 339099722, 3162803260⟩, ⟨3556773727, 3303591100, 3320445487, 1863158927, 427735909, 2372888702, 339099722, 3162803260⟩) = (⟨3931544813, 4280550768, 1892094539, 3678153984, 4241689665, 471124770, 493181500, 951548447⟩, ⟨3836795920, 2017428619, 3538561600, 2948266521, 1728732930, 1890104006, 3726713308, 1711217119⟩) := by
  rw [(by norm_num : (2300 : Nat) = 2200 + 100), pbkdf2LoopW_add, p1s21, p1c22]

theorem p1s23 : pbkdf2LoopW ipadState1 opadState1 2400 (⟨3556773727, 3303591100, 3320445487, 1863158927, 427735909, 2372888702, 339099722, 3162803260⟩, ⟨3556773727, 3303591100, 3320445487, 1863158927, 427735909, 2372888702, 339099722, 3162803260⟩) = (⟨942408555, 766249952, 1806084494, 1977179039, 3638714231, 1503727168, 2109943823, 4034424187⟩, ⟨323576227, 3525137710, 1681154046, 3345831351, 2767708838, 2501153846, 2077295373, 4039297412⟩) := by
  rw [(by norm_num : (2400 : Nat) = 2300 + 100), pbkdf2LoopW_add, p1s22, p1c23]

theorem p1s24 : pbkdf2LoopW ipadState1 opadState1 2500 (⟨3556773727, 3303591100, 3320445487, 1863158927, 427735909, 2372888702, 339099722, 3162803260⟩, ⟨3556773727, 3303591100, 3320445487, 1863158927, 427735909, 2372888702, 339099722, 3162803260⟩) = (⟨3515781794, 2788922488, 2884179738, 906641678, 1841715378, 2992317136, 11653960, 2711491499⟩, ⟨2313039814, 2579794026, 3125139268, 2240065842, 3785905043, 2532753563, 334209044, 3663254457⟩) := by
  rw [(by norm_num : (2500 : Nat) = 2400 + 100), pbkdf2LoopW_add, p1s23, p1c24]

theorem p1s25 : pbkdf2LoopW ipadState1 opadState1 2600 (⟨3556773727, 3303591100, 3320445487, 1863158927, 427735909, 2372888702, 339099722, 3162803260⟩, ⟨3556773727, 3303591100, 3320445487, 1863158927, 427735909, 2372888702, 339099722, 3162803260⟩) = (⟨1064546588, 3492103152, 318462999, 1100651151, 4051855844, 2179797742, 758298749, 2511095974⟩, ⟨3388681665, 2737130034, 3444970866, 3791064413, 3550450884, 3025830321, 1885048694, 3980815992⟩) := by
  rw [(by norm_num : (2600 : Nat) = 2500 + 100), pbkdf2LoopW_add, p1s24, p1c25]

theorem p1s26 : pbkdf2LoopW ipadState1 opadState1 2700 (⟨3556773727, 3303591100, 3320445487, 1863158927, 427735909, 2372888702, 339099722, 3162803260⟩, ⟨3556773727, 3303591100, 3320445487, 1863158927, 427735909, 2372888702, 339099722, 3162803260⟩) = (⟨3428352511, 1544891283, 23767565, 3304878458, 447831620, 1851256616, 2955918791, 3363915874⟩, ⟨2677905833, 79268005, 79550541, 3747775117, 3747387713, 1790380079, 514092331, 1612914887⟩) := by
  rw [(by norm_num : (2700 : Nat) = 2600 + 100), pbkdf2LoopW_add, p1s25, p1c26]

theorem p1s27 : pbkdf2LoopW ipadState1 opadState1 2800 (⟨3556773727, 3303591100, 3320445487, 1863158927, 427735909, 2372888702, 339099722, 3162803260⟩, ⟨3556773727, 3303591100, 3320445487, 1863158927, 427735909, 2372888702, 339099722, 3162803260⟩) = (⟨3173695009, 3281702307, 2061382220, 3936591940, 2318722668, 3050908159, 3527957605, 1370809882⟩, ⟨3615196055, 2741171747, 527954445, 422261865, 3326532975, 1906478708, 1650614602, 3750254458⟩) := by
  rw [(by norm_num : (2800 : Nat) = 2700 + 100), pbkdf2LoopW_add, p1s26, p1c27]

theorem p1s28 : pbkdf2LoopW ipadState1 opadState1 2900 (⟨3556773727, 3303591100, 3320445487, 1863158927, 427735909, 2372888702, 339099722, 3162803260⟩, ⟨3556773727, 3303591100, 3320445487, 1863158927, 427735909, 2372888702, 339099722, 3162803260⟩) = (⟨1438742516, 4179526868, 2496302339, 399075730, 1530592092, 3530080016, 3344180128, 4138197540⟩, ⟨1537673292, 3583734835, 2435386254, 105873129, 1271498961, 2106303295, 2489868958, 1252054402⟩) := by
  rw [(by norm_num : (2900 : Nat) = 2800 + 100), pbkdf2LoopW_add, p1s27, p1c28]

theorem p1s29 : pbkdf2LoopW ipadState1 opadState1 3000 (⟨3556773727, 3303591100, 3320445487, 1863158927, 427735909, 2372888702, 339099722, 3162803260⟩, ⟨3556773727, 3303591100, 3320445487, 1863158927, 427735909, 2372888702, 339099722, 3162803260⟩) = (⟨1867269216, 3176038978, 3065759600, 2394646986, 293973567, 1835562202, 1392226025, 289974151⟩, ⟨604712199, 1162079413, 2771000241, 1166994593, 3102856488, 3518313659, 3757129999, 388806709⟩) := by
  rw [(by norm_num : (3000 : Nat) = 2900 + 100), pbkdf2LoopW_add, p1s28, p1c29]

theorem p1s30 : pbkdf2LoopW ipadState1 opadState1 3100 (⟨3556773727, 3303591100, 3320445487, 1863158927, 427735909, 2372888702, 339099722, 3162803260⟩, ⟨3556773727, 3303591100, 3320445487, 1863158927, 427735909, 2372888702, 339099722, 3162803260⟩) = (⟨1314236270, 4266336187, 920962863, 3281898993, 4231530299, 1608711046, 244118948, 3902859565⟩, ⟨727294300, 1053930514, 1119048326, 2171944786, 1350796689, 2843132435, 1369079059, 401556172⟩) := by
  rw [(by norm_num : (3100 : Nat) = 3000 + 100), pbkdf2LoopW_add, p1s29, p1c30]

theorem p1s31 : pbkdf2LoopW ipadState1 opadState1 3200 (⟨3556773727, 3303591100, 3320445487, 1863158927, 427735909, 2372888702, 339099722, 3162803260⟩, ⟨3556773727, 3303591100, 3320445487, 1863158927, 427735909, 2372888702, 339099722, 3162803260⟩) = (⟨2129226489, 259697642, 2863992637, 2566466957, 4145281119, 99700617, 1680982643, 1131845064⟩, ⟨53865579, 1748860, 2357275756, 2468712177, 796641657, 3011223204, 253734621, 2357431474⟩) := by
  rw [(by norm_num : (3200 : Nat) = 3100 + 100), pbkdf2LoopW_add, p1s30, p1c31]

theorem p1s32 : pbkdf2LoopW ipadState1 opadState1 3300 (⟨3556773727, 3303591100, 3320445487, 1863158927, 427735909, 2372888702, 339099722, 3162803260⟩, ⟨3556773727, 3303591100, 3320445487, 1863158927, 427735909, 2372888702, 339099722, 3162803260⟩) = (⟨1835667307, 709759503, 1212074745, 3034203194, 1904408839, 712107755, 1707740465, 377998661⟩, ⟨4237930332, 1225525823, 1723518417, 1125880060, 185359099, 547063201, 3928241305, 952094005⟩) := by
  rw [(by norm_num : (3300 : Nat) = 3200 + 100), pbkdf2LoopW_add, p1s31, p1c32]

theorem p1s33 : pbkdf2LoopW ipadState1 opadState1 3400 (⟨3556773727, 3303591100, 3320445487, 1863158927, 427735909, 2372888702, 339099722, 3162803260⟩, ⟨3556773727, 3303591100, 3320445487, 1863158927, 427735909, 2372888702, 339099722, 3162803260⟩) = (⟨2115615671, 127263902, 3335133196, 2210431480, 1596705278, 2436221544, 2248433902, 1536396464⟩, ⟨1225445027, 3624468160, 2367427007, 2961681245, 1142000159, 1606899479, 2624709159, 1851032326⟩) := by
  rw [(by norm_num : (3400 : Nat) = 3300 + 100), pbkdf2LoopW_add, p1s32, p1c33]

theorem p1s34 : pbkdf2LoopW ipadState1 opadState1 3500 (⟨3556773727, 3303591100, 3320445487, 1863158927, 427735909, 2372888702, 339099722, 3162803260⟩, ⟨3556773727, 3303591100, 3320445487, 1863158927, 427735909, 2372888702, 339099722, 3162803260⟩) = (⟨738586262, 3917880685, 1589356375, 1337678120, 3980955164, 1260721120, 1379071688, 3441850401⟩, ⟨4008174129, 371406407, 2703898007, 3845974409, 874959984, 839546425, 1506878216, 1004239556⟩) := by
  rw [(by norm_num : (3500 : Nat) = 3400 + 100), pbkdf2LoopW_add, p1s33, p1c34]

theorem p1s35 : pbkdf2LoopW ipadState1 opadState1 3600 (⟨3556773727, 3303591100, 3320445487, 1863158927, 427735909, 2372888702, 339099722, 3162803260⟩, ⟨3556773727, 3303591100, 3320445487, 1863158927, 427735909, 2372888702, 339099722, 3162803260⟩) = (⟨3693677694, 1850691693, 3232351113, 1517314629, 2397384857, 242689319, 3584198187, 2573409269⟩, ⟨2926509306, 4083494455, 532200693, 2212615560, 505687364, 133875138, 3544616183, 566225591⟩) := by
  rw [(by norm_num : (3600 : Nat) = 3500 + 100), pbkdf2LoopW_add, p1s34, p1c35]

theorem p1s36 : pbkdf2LoopW ipadState1 opadState1 3700 (⟨3556773727, 3303591100, 3320445487, 1863158927, 427735909, 2372888702, 339099722, 3162803260⟩, ⟨3556773727, 3303591100, 3320445487, 1863158927, 427735909, 2372888702, 339099722, 3162803260⟩) = (⟨236367395, 1366126521, 3385733888, 2106560683, 4104186199, 4112083314, 3799656089, 4207039964⟩, ⟨3815740070, 2239377529, 2595161534, 1129172531, 3871509354, 2853169757, 4218976838, 932354239⟩) := by
  rw [(by norm_num : (3700 : Nat) = 3600 + 100), pbkdf2LoopW_add, p1s35, p1c36]

theorem p1s37 : pbkdf2LoopW ipadState1 opadState1 3800 (⟨3556773727, 3303591100, 3320445487, 1863158927, 427735909, 2372888702, 339099722, 3162803260⟩, ⟨3556773727, 3303591100, 3320445487, 1863158927, 427735909, 2372888702, 339099722, 3162803260⟩) = (⟨4035317962, 680970900, 2534071877, 1124762377, 1552343117, 1076501256, 646146876, 326576835⟩, ⟨1168817259, 3567461589, 51083525, 774863126, 984244748, 1070778203, 3551504128, 1140349830⟩) := by
  rw [(by norm_num : (3800 : Nat) = 3700 + 100), pbkdf2LoopW_add, p1s36, p1c37]

theorem p1s38 : pbkdf2LoopW ipadState1 opadState1 3900 (⟨3556773727, 3303591100, 3320445487, 1863158927, 427735909, 2372888702, 339099722, 3162803260⟩, ⟨3556773727, 3303591100, 3320445487, 1863158927, 427735909, 2372888702, 339099722, 3162803260⟩) = (⟨1416730269, 3601372530, 135650216, 1651241904, 376906419, 2029721015, 3515789185, 464300076⟩, ⟨1052700133, 2341895669, 2009066069, 3619637061, 1846258096, 3335652359, 2698777486, 3134578465⟩) := by
  rw [(by norm_num : (3900 : Nat) = 3800 + 100), pbkdf2LoopW_add, p1s37, p1c38]

theorem p1s39 : pbkdf2LoopW ipadState1 opadState1 4000 (⟨3556773727, 3303591100, 3320445487, 1863158927, 427735909, 2372888702, 339099722, 3162803260⟩, ⟨3556773727, 3303591100, 3320445487, 1863158927, 427735909, 2372888702, 339099722, 3162803260⟩) = (⟨41782299, 2611445868, 2395688316, 1733033080, 4268589234, 1727620246, 697694056, 3728114542⟩, ⟨1841391467, 1624891889, 647551990, 2929580990, 3274800660, 72880110, 1482834013, 1989428170⟩) := by
  rw [(by norm_num : (4000 : Nat) = 3900 + 100), pbkdf2LoopW_add, p1s38, p1c39]

theorem p1s40 : pbkdf2LoopW ipadState1 opadState1 4100 (⟨3556773727, 3303591100, 3320445487, 1863158927, 427735909, 2372888702, 339099722, 3162803260⟩, ⟨3556773727, 3303591100, 3320445487, 1863158927, 427735909, 2372888702, 339099722, 3162803260⟩) = (⟨1822006387, 3074016777, 342571600, 4258385879, 355355316, 1943770690, 1017286817, 4246830741⟩, ⟨883739409, 3875384423, 1135489633, 3835471782, 3130054683, 1916080175, 220802962, 811135063⟩) := by
  rw [(by norm_num : (4100 : Nat) = 4000 + 100), pbkdf2LoopW_add, p1s39, p1c40]

theorem p1s41 : pbkdf2LoopW ipadState1 opadState1 4200 (⟨3556773727, 3303591100, 3320445487, 1863158927, 427735909, 2372888702, 339099722, 3162803260⟩, ⟨3556773727, 3303591100, 3320445487, 1863158927, 427735909, 2372888702, 339099722, 3162803260⟩) = (⟨4197487228, 1789515812, 639742002, 3198584726, 2017938663, 2575393846, 181091026, 2269866299⟩, ⟨2907750487, 3585282659, 3065991462, 1852416081, 3221075043, 745435458, 3490188502, 1121196755⟩) := by
  rw [(by norm_num : (4200 : Nat) = 4100 + 100), pbkdf2LoopW_add, p1s40, p1c41]

theorem p1s42 : pbkdf2LoopW ipadState1 opadState1 4300 (⟨3556773727, 3303591100, 3320445487, 1863158927, 427735909, 2372888702, 339099722, 3162803260⟩, ⟨3556773727, 3303591100, 3320445487, 1863158927, 427735909, 2372888702, 339099722, 3162803260⟩) = (⟨2724763525, 2273044698, 1335064445, 1154444687, 1506980605, 3617751690, 2041397253, 3562635393⟩, ⟨405888516, 3901515816, 749679137, 3052362468, 1464594001, 312850968, 2790944090, 3613500622⟩) := by
  rw [(by norm_num : (4300 : Nat) = 4200 + 100), pbkdf2LoopW_add, p1s41, p1c42]

theorem p1s43 : pbkdf2LoopW ipadState1 opadState1 4400 (⟨3556773727, 3303591100, 3320445487, 1863158927, 427735909, 2372888702, 339099722, 3162803260⟩, ⟨3556773727, 3303591100, 3320445487, 1863158927, 427735909, 2372888702, 339099722, 3162803260⟩) = (⟨1065033836, 1627259108, 1125446422, 4136252719, 3525502144, 1212724935, 1024079136, 256996243⟩, ⟨300193491, 3812486093, 1012133500, 1679393912, 2379468924, 902569358, 662645987, 4224836392⟩) := by
  rw [(by norm_num : (4400 : Nat) = 4300 + 100), pbkdf2LoopW_add, p1s42, p1c43]

theorem p1s44 : pbkdf2LoopW ipadState1 opadState1 4500 (⟨3556773727, 3303591100, 3320445487, 1863158927, 427735909, 2372888702, 339099722, 3162803260⟩, ⟨3556773727, 3303591100, 3320445487, 1863158927, 427735909, 2372888702, 339099722, 3162803260⟩) = (⟨440563293, 4007637698, 3645477761, 3560891090, 3233452239, 1367335864, 4255670908, 2627947047⟩, ⟨1485765263, 3163041098, 1361362074, 203834807, 2558068616, 590777983, 1720449218, 209386129⟩) := by
  rw [(by norm_num : (4500 : Nat) = 4400 + 100), pbkdf2LoopW_add, p1s43, p1c44]

theorem p1s45 : pbkdf2LoopW ipadState1 opadState1 4600 (⟨3556773727, 3303591100, 3320445487, 1863158927, 427735909, 2372888702, 339099722, 3162803260⟩, ⟨3556773727, 3303591100, 3320445487, 1863158927, 427735909, 2372888702, 339099722, 3162803260⟩) = (⟨1859266821, 2791257142, 575807673, 2127281780, 3602582695, 1331458478, 3124801304, 671808271⟩, ⟨3973163941, 779173944, 3158941795, 674376619, 306907762, 3761802166, 154460895, 3585702444⟩) := by
  rw [(by norm_num : (4600 : Nat) = 4500 + 100), pbkdf2LoopW_add, p1s44, p1c45]

theorem p1s46 : pbkdf2LoopW ipadState1 opadState1 4700 (⟨3556773727, 3303591100, 3320445487, 1863158927, 427735909, 2372888702, 339099722, 3162803260⟩, ⟨3556773727, 3303591100, 3320445487, 1863158927, 427735909, 2372888702, 339099722, 3162803260⟩) = (⟨3146514099, 626368855, 3748778669, 607320035, 1748045431, 1345083428, 3653587815, 1809335170⟩, ⟨800948581, 2487549138, 2549260106, 1883434245, 3996556611, 4210482567, 2281718523, 4109402813⟩) := by
  rw [(by norm_num : (4700 : Nat) = 4600 + 100), pbkdf2LoopW_add, p1s45, p1c46]

theorem p1s47 : pbkdf2LoopW ipadState1 opadState1 4800 (⟨3556773727, 3303591100, 3320445487, 1863158927, 427735909, 2372888702, 339099722, 3162803260⟩, ⟨3556773727, 3303591100, 3320445487, 1863158927, 427735909, 2372888702, 339099722, 3162803260⟩) = (⟨723581440, 278690540, 1319913840, 1197794739, 2713695778, 1424539731, 709975809, 2234739894⟩, ⟨3003214907, 572217417, 1673103139, 3798845319, 3944590154, 3928204214, 2181372255, 2610107075⟩) := by
  rw [(by norm_num : (4800 : Nat) = 4700 + 100), pbkdf2LoopW_add, p1s46, p1c47]

theorem p1s48 : pbkdf2LoopW ipadState1 opadState1 4900 (⟨3556773727, 3303591100, 3320445487, 1863158927, 427735909, 2372888702, 339099722, 3162803260⟩, ⟨3556773727, 3303591100, 3320445487, 1863158927, 427735909, 2372888702, 339099722, 3162803260⟩) = (⟨341475766, 521474941, 3453104623, 2959313388, 2703349139, 1824627769, 961978980, 3800965734⟩, ⟨2390261937, 2815379637, 3161006449, 2180567223, 1232987570, 3239329361, 3114485116, 992781549⟩) := by
  rw [(by norm_num : (4900 : Nat) = 4800 + 100), pbkdf2LoopW_add, p1s47, p1c48]

theorem p1s49 : pbkdf2LoopW ipadState1 opadState1 5000 (⟨3556773727, 3303591100, 3320445487, 1863158927, 427735909, 2372888702, 339099722, 3162803260⟩, ⟨3556773727, 3303591100, 3320445487, 1863158927, 427735909, 2372888702, 339099722, 3162803260⟩) = (⟨2546553685, 976104416, 1286947619, 3642333476, 442862100, 1107702645, 4075507786, 2635596230⟩, ⟨2087849888, 3178737143, 1782058430, 500045706, 947189824, 930559019, 162538840, 3109193702⟩) := by
  rw [(by norm_num : (5000 : Nat) = 4900 + 100), pbkdf2LoopW_add, p1s48, p1c49]

theorem p1s50 : pbkdf2LoopW ipadState1 opadState1 5100 (⟨3556773727, 3303591100, 3320445487, 1863158927, 427735909, 2372888702, 339099722, 3162803260⟩, ⟨3556773727, 3303591100, 3320445487, 1863158927, 427735909, 2372888702, 339099722, 3162803260⟩) = (⟨3691629067, 1675666014, 3096857531, 970313835, 1705867300, 2043042401, 189784191, 1528640389⟩, ⟨1667699563, 2828274568, 577656213, 2226160114, 1030709391, 2322815562, 1446861275, 3409697620⟩) := by
  rw [(by norm_num : (5100 : Nat) = 5000 + 100), pbkdf2LoopW_add, p1s49, p1c50]

theorem p1s51 : pbkdf2LoopW ipadState1 opadState1 5200 (⟨3556773727, 3303591100, 3320445487, 1863158927, 427735909, 2372888702, 339099722, 3162803260⟩, ⟨3556773727, 3303591100, 3320445487, 1863158927, 427735909, 2372888702, 339099722, 3162803260⟩) = (⟨535230567, 3577318680, 3189843863, 3965942219, 3452451676, 983024987, 1503167112, 3071614782⟩, ⟨2955835509, 2536122705, 3870553455, 4217652637, 2199623783, 10245977, 1769306710, 628669640⟩) := by
  rw [(by norm_num : (5200 : Nat) = 5100 + 100), pbkdf2LoopW_add, p1s50, p1c51]

theorem p1s52 : pbkdf2LoopW ipadState1 opadState1 5300 (⟨3556773727, 3303591100, 3320445487, 1863158927, 427735909, 2372888702, 339099722, 3162803260⟩, ⟨3556773727, 3303591100, 3320445487, 1863158927, 427735909, 2372888702, 339099722, 3162803260⟩) = (⟨587556418, 1373262251, 1362947604, 2524692301, 1423205188, 303643639, 1476859759, 1347767878⟩, ⟨1052980380, 2492917095, 368781076, 3406561750, 1446795201, 3390020182, 4282857634, 2103728114⟩) := by
  rw [(by norm_num : (5300 : Nat) = 5200 + 100), pbkdf2LoopW_add, p1s51, p1c52]

theorem p1s53 : pbkdf2LoopW ipadState1 opadState1 5400 (⟨3556773727, 3303591100, 3320445487, 1863158927, 427735909, 2372888702, 339099722, 3162803260⟩, ⟨3556773727, 3303591100, 3320445487, 1863158927, 427735909, 2372888702, 339099722, 3162803260⟩) = (⟨4127871653, 3103143508, 753614342, 4085265418, 85344409, 666638351, 3414360062, 4031234491⟩, ⟨933626450, 2484167598, 3719382423, 2418205123, 1809585934, 1258296580, 676369591, 1264255141⟩) := by
  rw [(by norm_num : (5400 : Nat) = 5300 + 100), pbkdf2LoopW_add, p1s52, p1c53]

theorem p1s54 : pbkdf2LoopW ipadState1 opadState1 5500 (⟨3556773727, 3303591100, 3320445487, 1863158927, 427735909, 2372888702, 339099722, 3162803260⟩, ⟨3556773727, 3303591100, 3320445487, 1863158927, 427735909, 2372888702, 339099722, 3162803260⟩) = (⟨1821296226, 2911191654, 2296394799, 3120992348, 1368107101, 3523498895, 559099573, 2818742790⟩, ⟨2727966420, 94204256, 1123350422, 3338009016, 4260696914, 1880608545, 816193804, 3536533998⟩) := by
  rw [(by norm_num : (5500 : Nat) = 5400 + 100), pbkdf2LoopW_add, p1s53, p1c54]

theorem p1s55 : pbkdf2LoopW ipadState1 opadState1 5600 (⟨3556773727, 3303591100, 3320445487, 1863158927, 427735909, 2372888702, 339099722, 3162803260⟩, ⟨3556773727, 3303591100, 3320445487, 1863158927, 427735909, 2372888702, 339099722, 3162803260⟩) = (⟨693598024, 2842951513, 2473293245, 1378671492, 2170126512, 234707222, 2809778367, 767456570⟩, ⟨2727443175, 2423089687, 3560182274, 1253139655, 2390682192, 1690017279, 3385024446, 3468078828⟩) := by
  rw [(by norm_num : (5600 : Nat) = 5500 + 100), pbkdf2LoopW_add, p1s54, p1c55]

theorem p1s56 : pbkdf2LoopW ipadState1 opadState1 5700 (⟨3556773727, 3303591100, 3320445487, 1863158927, 427735909, 2372888702, 339099722, 3162803260⟩, ⟨3556773727, 3303591100, 3320445487, 1863158927, 427735909, 2372888702, 339099722, 3162803260⟩) = (⟨2814651672, 2830825059, 2082451313, 1410305046, 574736766, 1625348435, 4251029591, 2111418963⟩, ⟨1941241707, 3468173645, 1672297623, 2998841893, 3992325872, 432953379, 3177221278, 2434251110⟩) := by
  rw [(by norm_num : (5700 : Nat) = 5600 + 100), pbkdf2LoopW_add, p1s55, p1c56]

theorem p1s57 : pbkdf2LoopW ipadState1 opadState1 5800 (⟨3556773727, 3303591100, 3320445487, 1863158927, 427735909, 2372888702, 339099722, 3162803260⟩, ⟨3556773727, 3303591100, 3320445487, 1863158927, 427735909, 2372888702, 339099722, 3162803260⟩) = (⟨1435183338, 2441303110, 2986003155, 185200301, 1692981554, 1987554619, 1563773360, 4116515656⟩, ⟨56941571, 1957778693, 1309007327, 2425188717, 4143005538, 2914942068, 1151086049, 299869999⟩) := by
  rw [(by norm_num : (5800 : Nat) = 5700 + 100), pbkdf2LoopW_add, p1s56, p1c57]

theorem p1s58 : pbkdf2LoopW ipadState1 opadState1 5900 (⟨3556773727, 3303591100, 3320445487, 1863158927, 427735909, 2372888702, 339099722, 3162803260⟩, ⟨3556773727, 3303591100, 3320445487, 1863158927, 427735909, 2372888702, 339099722, 3162803260⟩) = (⟨3352701709, 380545943, 3882993201, 2585323037, 441473686, 1275515765, 1327245028, 1892017307⟩, ⟨2927362989, 1671461213, 1504160162, 1670370805, 4164681735, 2896024557, 1925736557, 107942630⟩) := by
  rw [(by norm_num : (5900 : Nat) = 5800 + 100), pbkdf2LoopW_add, p1s57, p1c58]

theorem p1s59 : pbkdf2LoopW ipadState1 opadState1 6000 (⟨3556773727, 3303591100, 3320445487, 1863158927, 427735909, 2372888702, 339099722, 3162803260⟩, ⟨3556773727, 3303591100, 3320445487, 1863158927, 427735909, 2372888702, 339099722, 3162803260⟩) = (⟨2424171940, 290522389, 2660844711, 1358596054, 2834800215, 3519725899, 3517259623, 264743746⟩, ⟨535643133, 2736420887, 2769629175, 4008752694, 58169160, 3910919103, 1409299389, 3453437407⟩) := by
  rw [(by norm_num : (6000 : Nat) = 5900 + 100), pbkdf2LoopW_add, p1s58, p1c59]

theorem p1s60 : pbkdf2LoopW ipadState1 opadState1 6100 (⟨3556773727, 3303591100, 3320445487, 1863158927, 427735909, 2372888702, 339099722, 3162803260⟩, ⟨3556773727, 3303591100, 3320445487, 1863158927, 427735909, 2372888702, 339099722, 3162803260⟩) = (⟨1235747580, 1877677868, 2171989550, 1322490046, 1293614949, 1893156202, 1213104212, 459166398⟩, ⟨3604575098, 2770948590, 4162162056, 2404534127, 3260567186, 496862163, 2635518161, 3956640114⟩) := by
  rw [(by norm_num : (6100 : Nat) = 6000 + 100), pbkdf2LoopW_add, p1s59, p1c60]

theorem p1s61 : pbkdf2LoopW ipadState1 opadState1 6200 (⟨3556773727, 3303591100, 3320445487, 1863158927, 427735909, 2372888702, 339099722, 3162803260⟩, ⟨3556773727, 3303591100, 3320445487, 1863158927, 427735909, 2372888702, 339099722, 3162803260⟩) = (⟨1928312293, 2344242344, 455163760, 685584742, 3426439743, 987421070, 2303472944, 2208698741⟩, ⟨574429754, 1058808640, 3986518601, 2611035583, 2980047605, 2536406153, 3070197172, 3130286222⟩) := by
  rw [(by norm_num : (6200 : Nat) = 6100 + 100), pbkdf2LoopW_add, p1s60, p1c61]

theorem p1s62 : pbkdf2LoopW ipadState1 opadState1 6300 (⟨3556773727, 3303591100, 3320445487, 1863158927, 427735909, 2372888702, 339099722, 3162803260⟩, ⟨3556773727, 3303591100, 3320445487, 1863158927, 427735909, 2372888702, 339099722, 3162803260⟩) = (⟨4048163514, 2280658973, 778578927, 1106406484, 3407080725, 4138438844, 1586074520, 3795704513⟩, ⟨203545643, 2124611509, 1548320863, 3473701358, 4292353816, 419915310, 790812442, 2296539918⟩) := by
  rw [(by norm_num : (6300 : Nat) = 6200 + 100), pbkdf2LoopW_add, p1s61, p1c62]

theorem p1s63 : pbkdf2LoopW ipadState1 opadState1 6400 (⟨3556773727, 3303591100, 3320445487, 1863158927, 427735909, 2372888702, 339099722, 3162803260⟩, ⟨3556773727, 3303591100, 3320445487, 1863158927, 427735909, 2372888702, 339099722, 3162803260⟩) = (⟨2114968275, 2620050047, 574183862, 3906022381, 47111101, 4140876876, 863619223, 1674960109⟩, ⟨2049631386, 298536667, 4110767202, 261776071, 4138790331, 2136484711, 1617664660, 266649093⟩) := by
  rw [(by norm_num : (6400 : Nat) = 6300 + 100), pbkdf2LoopW_add, p1s62, p1c63]

theorem p1s64 : pbkdf2LoopW ipadState1 opadState1 6500 (⟨3556773727, 3303591100, 3320445487, 1863158927, 427735909, 2372888702, 339099722, 3162803260⟩, ⟨3556773727, 3303591100, 3320445487, 1863158927, 427735909, 2372888702, 339099722, 3162803260⟩) = (⟨3134703188, 3197994846, 2522270440, 137272906, 1668302036, 4182998167, 4024261591, 2702724515⟩, ⟨3853312943, 1298994128, 753212369, 1615121053, 1759937381, 3268947152, 2939011282, 2654609177⟩) := by
  rw [(by norm_num : (6500 : Nat) = 6400 + 100), pbkdf2LoopW_add, p1s63, p1c64]

theorem p1s65 : pbkdf2LoopW ipadState1 opadState1 6600 (⟨3556773727, 3303591100, 3320445487, 1863158927, 427735909, 2372888702, 339099722, 3162803260⟩, ⟨3556773727, 3303591100, 3320445487, 1863158927, 427735909, 2372888702, 339099722, 3162803260⟩) = (⟨3863226277, 592450291, 240944318, 2474534197, 1502319747, 2405342394, 2385787037, 3840740795⟩, ⟨3431371694, 1798939594, 2000718341, 3869254851, 231060239, 2972578405, 1126851513, 519272994⟩) := by
  rw [(by norm_num : (6600 : Nat) = 6500 + 100), pbkdf2LoopW_add, p1s64, p1c65]

theorem p1s66 : pbkdf2LoopW ipadState1 opadState1 6700 (⟨3556773727, 3303591100, 3320445487, 1863158927, 427735909, 2372888702, 339099722, 3162803260⟩, ⟨3556773727, 3303591100, 3320445487, 1863158927, 427735909, 2372888702, 339099722, 3162803260⟩) = (⟨3161556020, 3796833557, 2822258950, 2092188688, 1935373242, 2522372636, 1636430896, 3551617251⟩, ⟨1201633278, 2281003812, 2341254847, 747374725, 311702875, 201441334, 248700448, 494348587⟩) := by
  rw [(by norm_num : (6700 : Nat) = 6600 + 100), pbkdf2LoopW_add, p1s65, p1c66]

theorem p1s67 : pbkdf2LoopW ipadState1 opadState1 6800 (⟨3556773727, 3303591100, 3320445487, 1863158927, 427735909, 2372888702, 339099722, 3162803260⟩, ⟨3556773727, 3303591100, 3320445487, 1863158927, 427735909, 2372888702, 339099722, 3162803260⟩) = (⟨3989628881, 761579675, 2630583500, 3979330888, 3796148003, 3649999385, 703018988, 1704622849⟩, ⟨3658354105, 2436905838, 1231274859, 1342212081, 2397584818, 116452142, 1371387528, 3502047965⟩) := by
  rw [(by norm_num : (6800 : Nat) = 6700 + 100), pbkdf2LoopW_add, p1s66, p1c67]

theorem p1s68 : pbkdf2LoopW ipadState1 opadState1 6900 (⟨3556773727, 3303591100, 3320445487, 1863158927, 427735909, 2372888702, 339099722, 3162803260⟩, ⟨3556773727, 3303591100, 3320445487, 1863158927, 427735909, 2372888702, 339099722, 3162803260⟩) = (⟨197376928, 718376280, 2109517250, 2970931654, 2320631085, 1765723371, 2893868315, 1005594852⟩, ⟨1221671792, 2689926195, 1532151371, 1948876616, 1172638675, 3948857897, 1379369427, 1389508909⟩) := by
  rw [(by norm_num : (6900 : Nat) = 6800 + 100), pbkdf2LoopW_add, p1s67, p1c68]

theorem p1s69 : pbkdf2LoopW ipadState1 opadState1 7000 (⟨3556773727, 3303591100, 3320445487, 1863158927, 427735909, 2372888702, 339099722, 3162803260⟩, ⟨3556773727, 3303591100, 3320445487, 1863158927, 427735909, 2372888702, 339099722, 3162803260⟩) = (⟨331980083, 2929446166, 3315412956, 1025064319, 1729945431, 2420801094, 2005333377, 1482537361⟩, ⟨2841383637, 4213717208, 2959587118, 3698864999, 4260107208, 1673795509, 3547106414, 3574620784⟩) := by
  rw [(by norm_num : (7000 : Nat) = 6900 + 100), pbkdf2LoopW_add, p1s68, p1c69]

theorem p1s70 : pbkdf2LoopW ipadState1 opadState1 7100 (⟨3556773727, 3303591100, 3320445487, 1863158927, 427735909, 2372888702, 339099722, 3162803260⟩, ⟨3556773727, 3303591100, 3320445487, 1863158927, 427735909, 2372888702, 339099722, 3162803260⟩) = (⟨2775399253, 2866246706, 4069454355, 3467851834, 1321623885, 1550798506, 4234301989, 2632138919⟩, ⟨3797372042, 2002995839, 2196203590, 3339236058, 3164338637, 1669414015, 162289421, 298857582⟩) := by
  rw [(by norm_num : (7100 : Nat) = 7000 + 100), pbkdf2LoopW_add, p1s69, p1c70]

theorem p1s71 : pbkdf2LoopW ipadState1 opadState1 7200 (⟨3556773727, 3303591100, 3320445487, 1863158927, 427735909, 2372888702, 339099722, 3162803260⟩, ⟨3556773727, 3303591100, 3320445487, 1863158927, 427735909, 2372888702, 339099722, 3162803260⟩) = (⟨3206508532, 4165050480, 292412998, 796575580, 1658684920, 853806125, 932820338, 697026977⟩, ⟨3707420535, 2042248409, 3252571851, 1097966800, 2102550234, 3050942349, 2406166668, 3344569473⟩) := by
  rw [(by norm_num : (7200 : Nat) = 7100 + 100), pbkdf2LoopW_add, p1s70, p1c71]

theorem p1s72 : pbkdf2LoopW ipadState1 opadState1 7300 (⟨3556773727, 3303591100, 3320445487, 1863158927, 427735909, 2372888702, 339099722, 3162803260⟩, ⟨3556773727, 3303591100, 3320445487, 1863158927, 427735909, 2372888702, 339099722, 3162803260⟩) = (⟨594044014, 1096692330, 4283655847, 1646192952, 1800031654, 65983324, 3597289520, 1615613001⟩, ⟨3541639568, 1190671958, 1066897251, 1730686057, 325842125, 2988886885, 3808367450, 733133498⟩) := by
  rw [(by norm_num : (7300 : Nat) = 7200 + 100), pbkdf2LoopW_add, p1s71, p1c72]

theorem p1s73 : pbkdf2LoopW ipadState1 opadState1 7400 (⟨3556773727, 3303591100, 3320445487, 1863158927, 427735909, 2372888702, 339099722, 3162803260⟩, ⟨3556773727, 3303591100, 3320445487, 1863158927, 427735909, 2372888702, 339099722, 3162803260⟩) = (⟨1182883307, 1449883918, 1712171758, 1212220530, 3340003574, 3567477562, 2072298359, 2993394974⟩, ⟨4181223114, 2392578524, 2590548052, 3835132501, 3866759385, 384371036, 2305740835, 1763927429⟩) := by
  rw [(by norm_num : (7400 : Nat) = 7300 + 100), pbkdf2LoopW_add, p1s72, p1c73]

theorem p1s74 : pbkdf2LoopW ipadState1 opadState1 7500 (⟨3556773727, 3303591100, 3320445487, 1863158927, 427735909, 2372888702, 339099722, 3162803260⟩, ⟨3556773727, 3303591100, 3320445487, 1863158927, 427735909, 2372888702, 339099722, 3162803260⟩) = (⟨4114441875, 1322498295, 4018171135, 580264443, 2927579538, 4025190402, 2805958376, 2976556996⟩, ⟨2292703240, 2694375959, 132827064, 479420607, 3068838413, 1991855012, 3461873538, 3200980371⟩) := by
  rw [(by norm_num : (7500 : Nat) = 7400 + 100), pbkdf2LoopW_add, p1s73, p1c74]

theorem p1s75 : pbkdf2LoopW ipadState1 opadState1 7600 (⟨3556773727, 3303591100, 3320445487, 1863158927, 427735909, 2372888702, 339099722, 3162803260⟩, ⟨3556773727, 3303591100, 3320445487, 1863158927, 427735909, 2372888702, 339099722, 3162803260⟩) = (⟨1853707898, 3411177360, 494026883, 1404201853, 3110155837, 3966971264, 521467800, 2775259616⟩, ⟨4183643909, 2272416713, 4258910305, 670066913, 3278081403, 2052875701, 2697566977, 2644144801⟩) := by
  rw [(by norm_num : (7600 : Nat) = 7500 + 100), pbkdf2LoopW_add, p1s74, p1c75]

theorem p1s76 : pbkdf2LoopW ipadState1 opadState1 7700 (⟨3556773727, 3303591100, 3320445487, 1863158927, 427735909, 2372888702, 339099722, 3162803260⟩, ⟨3556773727, 3303591100, 3320445487, 1863158927, 427735909, 2372888702, 339099722, 3162803260⟩) = (⟨3677152578, 3066398242, 33318225, 1614285845, 681622619, 1728119324, 2798130686, 4106663517⟩, ⟨1913515749, 1250954553, 2510364606, 1969820766, 4121240212, 706288788, 3243682674, 1895611225⟩) := by
  rw [(by norm_num : (7700 : Nat) = 7600 + 100), pbkdf2LoopW_add, p1s75, p1c76]

theorem p1s77 : pbkdf2LoopW ipadState1 opadState1 7800 (⟨3556773727, 3303591100, 3320445487, 1863158927, 427735909, 2372888702, 339099722, 3162803260⟩, ⟨3556773727, 3303591100, 3320445487, 1863158927, 427735909, 2372888702, 339099722, 3162803260⟩) = (⟨3774465377, 3270847743, 2690935167, 148520001, 567430327, 4108052995, 3881979490, 1288752951⟩, ⟨214502340, 728088110, 4290693171, 1379631004, 4273191445, 2240954720, 2516703691, 1584428756⟩) := by
  rw [(by norm_num : (7800 : Nat) = 7700 + 100), pbkdf2LoopW_add, p1s76, p1c77]

theorem p1s78 : pbkdf2LoopW ipadState1 opadState1 7900 (⟨3556773727, 3303591100, 3320445487, 1863158927, 427735909, 2372888702, 339099722, 3162803260⟩, ⟨3556773727, 3303591100, 3320445487, 1863158927, 427735909, 2372888702, 339099722, 3162803260⟩) = (⟨1121080361, 2347111702, 2329593255, 2939594229, 2293400006, 3201387972, 3771476270, 1582144968⟩, ⟨731805267, 2820615079, 4018432175, 747253992, 3294785058, 235294503, 2142894559, 3326531808⟩) := by
  rw [(by norm_num : (7900 : Nat) = 7800 + 100), pbkdf2LoopW_add, p1s77, p1c78]

theorem p1s79 : pbkdf2LoopW ipadState1 opadState1 8000 (⟨3556773727, 3303591100, 3320445487, 1863158927, 427735909, 2372888702, 339099722, 3162803260⟩, ⟨3556773727, 3303591100, 3320445487, 1863158927, 427735909, 2372888702, 339099722, 3162803260⟩) = (⟨232389199, 885553225, 1601168541, 1044443221, 2653455171, 455550530, 4159262803, 3280398931⟩, ⟨2423781840, 3784272583, 3852885208, 1814001105, 351570886, 1698103736, 1431633503, 178967386⟩) := by
  rw [(by norm_num : (8000 : Nat) = 7900 + 100), pbkdf2LoopW_add, p1s78, p1c79]

theorem p1s80 : pbkdf2LoopW ipadState1 opadState1 8100 (⟨3556773727, 3303591100, 3320445487, 1863158927, 427735909, 2372888702, 339099722, 3162803260⟩, ⟨3556773727, 3303591100, 3320445487, 1863158927, 427735909, 2372888702, 339099722, 3162803260⟩) = (⟨3683865715, 3835204829, 2267676640, 3613546500, 3998761014, 1996529860, 2739975690, 882345190⟩, ⟨4169865985, 2035473328, 29072482, 3863355450, 1694745325, 2051643820, 2749149242, 1145390854⟩) := by
  rw [(by norm_num : (8100 : Nat) = 8000 + 100), pbkdf2LoopW_add, p1s79, p1c80]

theorem p1s81 : pbkdf2LoopW ipadState1 opadState1 8200 (⟨3556773727, 3303591100, 3320445487, 1863158927, 427735909, 2372888702, 339099722, 3162803260⟩, ⟨3556773727, 3303591100, 3320445487, 1863158927, 427735909, 2372888702, 339099722, 3162803260⟩) = (⟨3741763244, 4028432101, 3294319240, 515035578, 736163332, 833177195, 3927347522, 2333680714⟩, ⟨2854878139, 1463223583, 3375953292, 1798949566, 736673922, 388344039, 2359243712, 759778060⟩) := by
  rw [(by norm_num : (8200 : Nat) = 8100 + 100), pbkdf2LoopW_add, p1s80, p1c81]

theorem p1s82 : pbkdf2LoopW ipadState1 opadState1 8300 (⟨3556773727, 3303591100, 3320445487, 1863158927, 427735909, 2372888702, 339099722, 3162803260⟩, ⟨3556773727, 3303591100, 3320445487, 1863158927, 427735909, 2372888702, 339099722, 3162803260⟩) = (⟨3967965596, 2932273096, 1963820297, 3787675777, 228788213, 795672526, 824676036, 3606985535⟩, ⟨2750188328, 356527767, 523700728, 1870912447, 1462395267, 3459573211, 1923604724, 3657885858⟩) := by
  rw [(by norm_num : (8300 : Nat) = 8200 + 100), pbkdf2LoopW_add, p1s81, p1c82]

theorem p1s83 : pbkdf2LoopW ipadState1 opadState1 8400 (⟨3556773727, 3303591100, 3320445487, 1863158927, 427735909, 2372888702, 339099722, 3162803260⟩, ⟨3556773727, 3303591100, 3320445487, 1863158927, 427735909, 2372888702, 339099722, 3162803260⟩) = (⟨1975661712, 974744940, 4147473752, 3575296357, 2955290680, 4229477425, 1023868069, 3329412865⟩, ⟨1593851724, 374348182, 1293433061, 266075877, 3079014751, 1223199941, 407114720, 2109943922⟩) := by
  rw [(by norm_num : (8400 : Nat) = 8300 + 100), pbkdf2LoopW_add, p1s82, p1c83]

theorem p1s84 : pbkdf2LoopW ipadState1 opadState1 8500 (⟨3556773727, 3303591100, 3320445487, 1863158927, 427735909, 2372888702, 339099722, 3162803260⟩, ⟨3556773727, 3303591100, 3320445487, 1863158927, 427735909, 2372888702, 339099722, 3162803260⟩) = (⟨2054894568, 3880696321, 373306166, 1652967387, 3569245774, 1286205557, 3019907242, 3915091929⟩, ⟨519650604, 4048086210, 4105857438, 3875098586, 410485571, 3662428149, 1781153628, 2831394592⟩) := by
  rw [(by norm_num : (8500 : Nat) = 8400 + 100), pbkdf2LoopW_add, p1s83, p1c84]

theorem p1s85 : pbkdf2LoopW ipadState1 opadState1 8600 (⟨3556773727, 3303591100, 3320445487, 1863158927, 427735909, 2372888702, 339099722, 3162803260⟩, ⟨3556773727, 3303591100, 3320445487, 1863158927, 427735909, 2372888702, 339099722, 3162803260⟩) = (⟨4281191324, 3777366695, 3402718928, 1036342216, 2203865829, 3093623344, 3378214488, 1071010448⟩, ⟨3693256550, 3341211851, 27683333, 912837738, 3487637453, 197330054, 2758535397, 205858801⟩) := by
  rw [(by norm_num : (8600 : Nat) = 8500 + 100), pbkdf2LoopW_add, p1s84, p1c85]

theorem p1s86 : pbkdf2LoopW ipadState1 opadState1 8700 (⟨3556773727, 3303591100, 3320445487, 1863158927, 427735909, 2372888702, 339099722, 3162803260⟩, ⟨3556773727, 3303591100, 3320445487, 1863158927, 427735909, 2372888702, 339099722, 3162803260⟩) = (⟨2588856208, 3369740069, 4148901823, 280335814, 2506698375, 1734368574, 601658572, 4272382736⟩, ⟨3870787876, 3216580202, 2105309285, 4163774310, 4168802782, 1745431016, 371508696, 829943431⟩) := by
  rw [(by norm_num : (8700 : Nat) = 8600 + 100), pbkdf2LoopW_add, p1s85, p1c86]

theorem p1s87 : pbkdf2LoopW ipadState1 opadState1 8800 (⟨3556773727, 3303591100, 3320445487, 1863158927, 427735909, 2372888702, 339099722, 3162803260⟩, ⟨3556773727, 3303591100, 3320445487, 1863158927, 427735909, 2372888702, 339099722, 3162803260⟩) = (⟨1116417740, 2461329337, 1080122899, 3772483047, 2199109796, 3881962439, 2827026684, 3696332484⟩, ⟨2974744819, 2658291982, 363670989, 2920939477, 3151508526, 995402424, 3083048728, 1721846724⟩) := by
  rw [(by norm_num : (8800 : Nat) = 8700 + 100), pbkdf2LoopW_add, p1s86, p1c87]

theorem p1s88 : pbkdf2LoopW ipadState1 opadState1 8900 (⟨3556773727, 3303591100, 3320445487, 1863158927, 427735909, 2372888702, 339099722, 3162803260⟩, ⟨3556773727, 3303591100, 3320445487, 1863158927, 427735909, 2372888702, 339099722, 3162803260⟩) = (⟨3172583618, 1311557695, 3782991270, 2658287306, 2914934994, 3296014838, 224941133, 3238113265⟩, ⟨934460933, 2809748643, 109838061, 161467230, 902606800, 2116380859, 1357487694, 154678657⟩) := by
  rw [(by norm_num : (8900 : Nat) = 8800 + 100), pbkdf2LoopW_add, p1s87, p1c88]

theorem p1s89 : pbkdf2LoopW ipadState1 opadState1 9000 (⟨3556773727, 3303591100, 3320445487, 1863158927, 427735909, 2372888702, 339099722, 3162803260⟩, ⟨3556773727, 3303591100, 3320445487, 1863158927, 427735909, 2372888702, 339099722, 3162803260⟩) = (⟨138406217, 3427076209, 3187502068, 3288345553, 538921504, 3782871402, 4249397674, 1185552986⟩, ⟨3697790852, 2930844107, 1312142456, 2014611422, 3784703812, 396310843, 2100200769, 1164537457⟩) := by
  rw [(by norm_num : (9000 : Nat) = 8900 + 100), pbkdf2LoopW_add, p1s88, p1c89]

theorem p1s90 : pbkdf2LoopW ipadState1 opadState1 9100 (⟨3556773727, 3303591100, 3320445487, 1863158927, 427735909, 2372888702, 339099722, 3162803260⟩, ⟨3556773727, 3303591100, 3320445487, 1863158927, 427735909, 2372888702, 339099722, 3162803260⟩) = (⟨174275226, 4136866544, 3424538273, 3056136066, 2397317135, 856287578, 2305231440, 825429846⟩, ⟨4208385247, 2081692503, 60629414, 1263813543, 2203900013, 3156914823, 2090646062, 2668333778⟩) := by
  rw [(by norm_num : (9100 : Nat) = 9000 + 100), pbkdf2LoopW_add, p1s89, p1c90]

theorem p1s91 : pbkdf2LoopW ipadState1 opadState1 9200 (⟨3556773727, 3303591100, 3320445487, 1863158927, 427735909, 2372888702, 339099722, 3162803260⟩, ⟨3556773727, 3303591100, 3320445487, 1863158927, 427735909, 2372888702, 339099722, 3162803260⟩) = (⟨1956706946, 3598123251, 1345823522, 507250918, 730933539, 2030868125, 6100785, 3134868098⟩, ⟨3717473169, 809903771, 1506081492, 897581644, 1644411648, 3316879044, 3855596409, 3531301456⟩) := by
  rw [(by norm_num : (9200 : Nat) = 9100 + 100), pbkdf2LoopW_add, p1s90, p1c91]

theorem p1s92 : pbkdf2LoopW ipadState1 opadState1 9300 (⟨3556773727, 3303591100, 3320445487, 1863158927, 427735909, 2372888702, 339099722, 3162803260⟩, ⟨3556773727, 3303591100, 3320445487, 1863158927, 427735909, 2372888702, 339099722, 3162803260⟩) = (⟨3327915635, 2686706855, 3509552763, 4264807506, 1861857277, 1309893793, 2793773901, 2354425644⟩, ⟨3293003461, 3088635093, 2157257127, 2166567052, 161954343, 1791901177, 3474733009, 4206471606⟩) := by
  rw [(by norm_num : (9300 : Nat) = 9200 + 100), pbkdf2LoopW_add, p1s91, p1c92]

theorem p1s93 : pbkdf2LoopW ipadState1 opadState1 9400 (⟨3556773727, 3303591100, 3320445487, 1863158927, 427735909, 2372888702, 339099722, 3162803260⟩, ⟨3556773727, 3303591100, 3320445487, 1863158927, 427735909, 2372888702, 339099722, 3162803260⟩) = (⟨3260848986, 1379364308, 1975069013, 1270068930, 645047090, 471332512, 2360223798, 27799007⟩, ⟨2418740668, 3875944624, 1325722028, 552341811, 2620536645, 1153024270, 3950421070, 1467159124⟩) := by
  rw [(by norm_num : (9400 : Nat) = 9300 + 100), pbkdf2LoopW_add, p1s92, p1c93]

theorem p1s94 : pbkdf2LoopW ipadState1 opadState1 9500 (⟨3556773727, 3303591100, 3320445487, 1863158927, 427735909, 2372888702, 339099722, 3162803260⟩, ⟨3556773727, 3303591100, 3320445487, 1863158927, 427735909, 2372888702, 339099722, 3162803260⟩) = (⟨3427499861, 3958159775, 3878281565, 1276384459, 2673006109, 4183398362, 129978262, 2584847538⟩, ⟨3973792498, 198346779, 3885612991, 1696599952, 479361464, 1918365397, 1002496886, 1794225715⟩) := by
  rw [(by norm_num : (9500 : Nat) = 9400 + 100), pbkdf2LoopW_add, p1s93, p1c94]

theorem p1s95 : pbkdf2LoopW ipadState1 opadState1 9600 (⟨3556773727, 3303591100, 3320445487, 1863158927, 427735909, 2372888702, 339099722, 3162803260⟩, ⟨3556773727, 3303591100, 3320445487, 1863158927, 427735909, 2372888702, 339099722, 3162803260⟩) = (⟨3075291953, 975474251, 2836844931, 3011256520, 1386869632, 502217791, 1760924529, 3413582957⟩, ⟨2867382298, 3823601225, 1182193271, 2817528345, 2362161036, 2235705997, 2284810895, 1613291604⟩) := by
  rw [(by norm_num : (9600 : Nat) = 9500 + 100), pbkdf2LoopW_add, p1s94, p1c95]

theorem p1s96 : pbkdf2LoopW ipadState1 opadState1 9700 (⟨3556773727, 3303591100, 3320445487, 1863158927, 427735909, 2372888702, 339099722, 3162803260⟩, ⟨3556773727, 3303591100, 3320445487, 1863158927, 427735909, 2372888702, 339099722, 3162803260⟩) = (⟨4148631973, 3042195016, 2377111852, 1879191351, 2268214689, 91318378, 2583541179, 378160601⟩, ⟨2622138440, 3216966386, 4245760158, 2408197432, 3860929826, 854031554, 2939081717, 3751794207⟩) := by
  rw [(by norm_num : (9700 : Nat) = 9600 + 100), pbkdf2LoopW_add, p1s95, p1c96]

theorem p1s97 : pbkdf2LoopW ipadState1 opadState1 9800 (⟨3556773727, 3303591100, 3320445487, 1863158927, 427735909, 2372888702, 339099722, 3162803260⟩, ⟨3556773727, 3303591100, 3320445487, 1863158927, 427735909, 2372888702, 339099722, 3162803260⟩) = (⟨1635673559, 921147039, 26641242, 3023541695, 1063579353, 3346756895, 3377759236, 1256127652⟩, ⟨2293025813, 608461378, 2574866570, 4077449214, 3022161239, 2455260560, 3398140716, 47312265⟩) := by
  rw [(by norm_num : (9800 : Nat) = 9700 + 100), pbkdf2LoopW_add, p1s96, p1c97]

theorem p1s98 : pbkdf2LoopW ipadState1 opadState1 9900 (⟨3556773727, 3303591100, 3320445487, 1863158927, 427735909, 2372888702, 339099722, 3162803260⟩, ⟨3556773727, 3303591100, 3320445487, 1863158927, 427735909, 2372888702, 339099722, 3162803260⟩) = (⟨200851539, 4015120581, 2880613692, 2507671185, 2208243122, 3167311346, 511599526, 1335983154⟩, ⟨3673806766, 90083107, 1739141721, 3006109086, 2868426264, 1309592274, 4177683896, 172387070⟩) := by
  rw [(by norm_num : (9900 : Nat) = 9800 + 100), pbkdf2LoopW_add, p1s97, p1c98]

theorem p1s99 : pbkdf2LoopW ipadState1 opadState1 9999 (⟨3556773727, 3303591100, 3320445487, 1863158927, 427735909, 2372888702, 339099722, 3162803260⟩, ⟨3556773727, 3303591100, 3320445487, 1863158927, 427735909, 2372888702, 339099722, 3162803260⟩) = (⟨4269355426, 4214484357, 828599553, 3506071617, 3481826968, 245018044, 544721570, 3954148444⟩, ⟨591564445, 3963214170, 3349415188, 103674105, 3914307950, 398694599, 2560151616, 993209659⟩) := by
  rw [(by norm_num : (9999 : Nat) = 9900 + 99), pbkdf2LoopW_add, p1s98, p1c99]

set_option maxRecDepth 1000000 in
theorem p2c0 : pbkdf2LoopW ipadState2 opadState2 100 (⟨1562059696, 2751798597, 2952243793, 701981898, 2038487132, 2316641061, 2586928031, 2588764970⟩, ⟨1562059696, 2751798597, 2952243793, 701981898, 2038487132, 2316641061, 2586928031, 2588764970⟩) = (⟨357333881, 1350591765, 944965492, 2443366738, 3191555313, 269071953, 2214257879, 26407473⟩, ⟨4257569128, 4229583700, 3937427860, 3305757739, 2198673620, 2187275968, 1671538979, 1705338961⟩) := by decide!

set_option maxRecDepth 1000000 in
theorem p2c1 : pbkdf2LoopW ipadState2 opadState2 100 (⟨357333881, 1350591765, 944965492, 2443366738, 3191555313, 269071953, 2214257879, 26407473⟩, ⟨4257569128, 4229583700, 3937427860, 3305757739, 2198673620, 2187275968, 1671538979, 1705338961⟩) = (⟨2766883413, 2360757060, 2036338806, 562938709, 3776831478, 310808188, 1075219839, 100973405⟩, ⟨2169535559, 120735991, 2271053669, 2753820375, 4071434905, 3939368054, 1624283166, 628316699⟩) := by decide!

set_option maxRecDepth 1000000 in
theorem p2c2 : pbkdf2LoopW ipadState2 opadState2 100 (⟨2766883413, 2360757060, 2036338806, 562938709, 3776831478, 310808188, 1075219839, 100973405⟩, ⟨2169535559, 120735991, 2271053669, 2753820375, 4071434905, 3939368054, 1624283166, 628316699⟩) = (⟨3406021506, 3579680855, 387105337, 627806152, 3246424199, 3666329534, 3532461309, 3778061585⟩, ⟨638346210, 1166969448, 134300740, 3631136991, 3741678656, 1396184496, 1810762525, 204168901⟩) := by decide!

set_option maxRecDepth 1000000 in
theorem p2c3 : pbkdf2LoopW ipadState2 opadState2 100 (⟨3406021506, 3579680855, 387105337, 627806152, 3246424199, 3666329534, 3532461309, 3778061585⟩, ⟨638346210, 1166969448, 134300740, 3631136991, 3741678656, 1396184496, 1810762525, 204168901⟩) = (⟨1463477304, 2808270723, 588225920, 4291157470, 556037154, 2520093829, 861265432, 2499065321⟩, ⟨465881680, 1933680551, 610574129, 2238960703, 598932842, 2633165795, 1554402775, 3662574962⟩) := by decide!

set_option maxRecDepth 1000000 in
theorem p2c4 : pbkdf2LoopW ipadState2 opadState2 100 (⟨1463477304, 2808270723, 588225920, 4291157470, 556037154, 2520093829, 861265432, 2499065321⟩, ⟨465881680, 1933680551, 610574129, 2238960703, 598932842, 2633165795, 1554402775, 3662574962⟩) = (⟨1299466218, 2886781950, 3494117785, 2317187305, 1102843015, 1556830862, 1932756636, 1245137930⟩, ⟨2576168137, 296271916, 2669425145, 3843373218, 1133560940, 1425641850, 2970724875, 1623850366⟩) := by decide!

set_option maxRecDepth 1000000 in
theorem p2c5 : pbkdf2LoopW ipadState2 opadState2 100 (⟨1299466218, 2886781950, 3494117785, 2317187305, 1102843015, 1556830862, 1932756636, 1245137930⟩, ⟨2576168137, 296271916, 2669425145, 3843373218, 1133560940, 1425641850, 2970724875, 1623850366⟩) = (⟨1805163379, 594543683, 2478170969, 4068776790, 3631476694, 3562244401, 340256850, 1376629852⟩, ⟨3632143619, 2094401463, 368348073, 1010339354, 11624982, 2952816914, 1917482722, 268153956⟩) := by decide!

set_option maxRecDepth 1000000 in
theorem p2c6 : pbkdf2LoopW ipadState2 opadState2 100 (⟨1805163379, 594543683, 2478170969, 4068776790, 3631476694, 3562244401, 340256850, 1376629852⟩, ⟨3632143619, 2094401463, 368348073, 1010339354, 11624982, 2952816914, 1917482722, 268153956⟩) = (⟨1896566479, 828987418, 3833262143, 3810614974, 3611197219, 715020090, 747930069, 2733503000⟩, ⟨1255457272, 3895739579, 1254874502, 3004784535, 3790532294, 493310226, 1551840242, 3531792190⟩) := by decide!

set_option maxRecDepth 1000000 in
theorem p2c7 : pbkdf2LoopW ipadState2 opadState2 100 (⟨1896566479, 828987418, 3833262143, 3810614974, 3611197219, 715020090, 747930069, 2733503000⟩, ⟨1255457272, 3895739579, 1254874502, 3004784535, 3790532294, 493310226, 1551840242, 3531792190⟩) = (⟨631040347, 1056244134, 1486589708, 1341493009, 161430841, 3363774692, 904911220, 1794993735⟩, ⟨3220457909, 2372961734, 2171918447, 2002235854, 1417583947, 1406560587, 4291932890, 1056293864⟩) := by decide!

set_option maxRecDepth 1000000 in
theorem p2c8 : pbkdf2LoopW ipadState2 opadState2 100 (⟨631040347, 1056244134, 1486589708, 1341493009, 161430841, 3363774692, 904911220, 1794993735⟩, ⟨3220457909, 2372961734, 2171918447, 2002235854, 1417583947, 1406560587, 4291932890, 1056293864⟩) = (⟨1714087172, 1256969093, 1029565463, 1131029940, 3404789166, 1108556373, 1275439070, 3482380672⟩, ⟨1511050720, 1518160011, 3007642525, 4250866454, 757101050, 798347493, 231218611, 1555938819⟩) := by decide!

set_option maxRecDepth 1000000 in
theorem p2c9 : pbkdf2LoopW ipadState2 opadState2 100 (⟨1714087172, 1256969093, 1029565463, 1131029940, 3404789166, 1108556373, 1275439070, 3482380672⟩, ⟨1511050720, 1518160011, 3007642525, 4250866454, 757101050, 798347493, 231218611, 1555938819⟩) = (⟨2798920923, 1351680559, 3934195653, 4211926499, 1751143189, 770585736, 3697730204, 3224590014⟩, ⟨1363114866, 2191630905, 3257861490, 2591102627, 1148389780, 3129803839, 3108819734, 3148652246⟩) := by decide!

set_option maxRecDepth 1000000 in
theorem p2c10 : pbkdf2LoopW ipadState2 opadState2 100 (⟨2798920923, 1351680559, 3934195653, 4211926499, 1751143189, 770585736, 3697730204, 3224590014⟩, ⟨1363114866, 2191630905, 3257861490, 2591102627, 1148389780, 3129803839, 3108819734, 3148652246⟩) = (⟨3050617626, 4038925716, 2180171169, 252151533, 134917285, 2315338630, 1807489489, 2142308160⟩, ⟨23168862, 2575862926, 3872800299, 1857071385, 665747576, 2034954365, 714817814, 1618610203⟩) := by decide!

set_option maxRecDepth 1000000 in
theorem p2c11 : pbkdf2LoopW ipadState2 opadState2 100 (⟨3050617626, 4038925716, 2180171169, 252151533, 134917285, 2315338630, 1807489489, 2142308160⟩, ⟨23168862, 2575862926, 3872800299, 1857071385, 665747576, 2034954365, 714817814, 1618610203⟩) = (⟨1529488916, 2060140541, 3184731492, 1465864360, 944099113, 1443802231, 4212761967, 77841253⟩, ⟨1561811803, 1442057683, 1008557102, 2272781362, 3326768562, 2065259356, 2668770674, 4018665313⟩) := by decide!

set_option maxRecDepth 1000000 in
theorem p2c12 : pbkdf2LoopW ipadState2 opadState2 100 (⟨1529488916, 2060140541, 3184731492, 1465864360, 944099113, 1443802231, 4212761967, 77841253⟩, ⟨1561811803, 1442057683, 1008557102, 2272781362, 3326768562, 2065259356, 2668770674, 4018665313⟩) = (⟨2178652905, 1142828330, 3792758196, 843482622, 262144181, 3725504919, 3656185754, 4284685994⟩, ⟨2638223846, 2264594250, 342742227, 2375908434, 547802249, 1180316946, 453110537, 2153159475⟩) := by decide!

set_option maxRecDepth 1000000 in
theorem p2c13 : pbkdf2LoopW ipadState2 opadState2 100 (⟨2178652905, 1142828330, 3792758196, 843482622, 262144181, 3725504919, 3656185754, 4284685994⟩, ⟨2638223846, 2264594250, 342742227, 2375908434, 547802249, 1180316946, 453110537, 2153159475⟩) = (⟨3440373118, 3443522969, 75972126, 3692490229, 993855072, 442363761, 1132410371, 1247977684⟩, ⟨2515895626, 2421219115, 2674301030, 227498824, 1262951284, 1784988453, 535965011, 3705498989⟩) := by decide!

set_option maxRecDepth 1000000 in
theorem p2c14 : pbkdf2LoopW ipadState2 opadState2 100 (⟨3440373118, 3443522969, 75972126, 3692490229, 993855072, 442363761, 1132410371, 1247977684⟩, ⟨2515895626, 2421219115, 2674301030, 227498824, 1262951284, 1784988453, 535965011, 3705498989⟩) = (⟨3080176846, 4219110934, 3239769323, 2031387334, 554050800, 3847411285, 49984055, 1602055956⟩, ⟨1964942579, 1575858413, 259986441, 14350551, 2702096067, 3359846201, 530310321, 1412635002⟩) := by decide!

set_option maxRecDepth 1000000 in
theorem p2c15 : pbkdf2LoopW ipadState2 opadState2 100 (⟨3080176846, 4219110934, 3239769323, 2031387334, 554050800, 3847411285, 49984055, 1602055956⟩, ⟨1964942579, 1575858413, 259986441, 14350551, 2702096067, 3359846201, 530310321, 1412635002⟩) = (⟨1083004624, 3080240526, 3127377845, 2911498805, 2058761875, 3170203280, 587107819, 1620869512⟩, ⟨2191141543, 2660927885, 2030595782, 2640724151, 4025065983, 2425266389, 3491028141, 4077549611⟩) := by decide!

set_option maxRecDepth 1000000 in
theorem p2c16 : pbkdf2LoopW ipadState2 opadState2 100 (⟨1083004624, 3080240526, 3127377845, 2911498805, 2058761875, 3170203280, 587107819, 1620869512⟩, ⟨2191141543, 2660927885, 2030595782, 2640724151, 4025065983, 2425266389, 3491028141, 4077549611⟩) = (⟨402334537, 2804894134, 762396839, 3709656665, 3432667791, 2275203283, 907034991, 1302909105⟩, ⟨3415956425, 3372093307, 4227065833, 1100749247, 3766631730, 681230184, 567418480, 2013743994⟩) := by decide!

set_option maxRecDepth 1000000 in
theorem p2c17 : pbkdf2LoopW ipadState2 opadState2 100 (⟨402334537, 2804894134, 762396839, 3709656665, 3432667791, 2275203283, 907034991, 1302909105⟩, ⟨3415956425, 3372093307, 4227065833, 1100749247, 3766631730, 681230184, 567418480, 2013743994⟩) = (⟨3222956978, 2747813181, 2805472428, 3468760893, 3059174545, 1449323752, 4164207359, 1128353012⟩, ⟨1216897068, 2290108616, 1032342689, 2084950795, 269698384, 1445498680, 1119507655, 20749546⟩) := by decide!

set_option maxRecDepth 1000000 in
theorem p2c18 : pbkdf2LoopW ipadState2 opadState2 100 (⟨3222956978, 2747813181, 2805472428, 3468760893, 3059174545, 1449323752, 4164207359, 1128353012⟩, ⟨1216897068, 2290108616, 1032342689, 2084950795, 269698384, 1445498680, 1119507655, 20749546⟩) = (⟨2539799562, 3529546148, 1525849693, 3200119099, 267156527, 3230209283, 1364899437, 3961386703⟩, ⟨2652286948, 730578430, 516005853, 2500721866, 3189918962, 4185849406, 3671282762, 2848840444⟩) := by decide!

set_option maxRecDepth 1000000 in
theorem p2c19 : pbkdf2LoopW ipadState2 opadState2 99 (⟨2539799562, 3529546148, 1525849693, 3200119099, 267156527, 3230209283, 1364899437, 3961386703⟩, ⟨2652286948, 730578430, 516005853, 2500721866, 3189918962, 4185849406, 3671282762, 2848840444⟩) = (⟨1608940698, 1733903881, 731811381, 735010642, 1634306492, 2677693936, 2180411877, 3313219861⟩, ⟨395878759, 734690404, 1675014725, 4163588976, 990859393, 872525886, 1078306182, 510171867⟩) := by decide!

theorem p2s1 : pbkdf2LoopW ipadState2 opadState2 200 (⟨1562059696, 2751798597, 2952243793, 701981898, 2038487132, 2316641061, 2586928031, 2588764970⟩, ⟨1562059696, 2751798597, 2952243793, 701981898, 2038487132, 2316641061, 2586928031, 2588764970⟩) = (⟨2766883413, 2360757060, 2036338806, 562938709, 3776831478, 310808188, 1075219839, 100973405⟩, ⟨2169535559, 120735991, 2271053669, 2753820375, 4071434905, 3939368054, 1624283166, 628316699⟩) := by
  rw [(by norm_num : (200 : Nat) = 100 + 100), pbkdf2LoopW_add, p2c0, p2c1]

theorem p2s2 : pbkdf2LoopW ipadState2 opadState2 300 (⟨1562059696, 2751798597, 2952243793, 701981898, 2038487132, 2316641061, 2586928031, 2588764970⟩, ⟨1562059696, 2751798597, 2952243793, 701981898, 2038487132, 2316641061, 2586928031, 2588764970⟩) = (⟨3406021506, 3579680855, 387105337, 627806152, 3246424199, 3666329534, 3532461309, 3778061585⟩, ⟨638346210, 1166969448, 134300740, 3631136991, 3741678656, 1396184496, 1810762525, 204168901⟩) := by
  rw [(by norm_num : (300 : Nat) = 200 + 100), pbkdf2LoopW_add, p2s1, p2c2]

theorem p2s3 : pbkdf2LoopW ipadState2 opadState2 400 (⟨1562059696, 2751798597, 2952243793, 701981898, 2038487132, 2316641061, 2586928031, 2588764970⟩, ⟨1562059696, 2751798597, 2952243793, 701981898, 2038487132, 2316641061, 2586928031, 2588764970⟩) = (⟨1463477304, 2808270723, 588225920, 4291157470, 556037154, 2520093829, 861265432, 2499065321⟩, ⟨465881680, 1933680551, 610574129, 2238960703, 598932842, 2633165795, 1554402775, 3662574962⟩) := by
  rw [(by norm_num : (400 : Nat) = 300 + 100), pbkdf2LoopW_add, p2s2, p2c3]

theorem p2s4 : pbkdf2LoopW ipadState2 opadState2 500 (⟨1562059696, 2751798597, 2952243793, 701981898, 2038487132, 2316641061, 2586928031, 2588764970⟩, ⟨1562059696, 2751798597, 2952243793, 701981898, 2038487132, 2316641061, 2586928031, 2588764970⟩) = (⟨1299466218, 2886781950, 3494117785, 2317187305, 1102843015, 1556830862, 1932756636, 1245137930⟩, ⟨2576168137, 296271916, 2669425145, 3843373218, 1133560940, 1425641850, 2970724875, 1623850366⟩) := by
  rw [(by norm_num : (500 : Nat) = 400 + 100), pbkdf2LoopW_add, p2s3, p2c4]

theorem p2s5 : pbkdf2LoopW ipadState2 opadState2 600 (⟨1562059696, 2751798597, 2952243793, 701981898, 2038487132, 2316641061, 2586928031, 2588764970⟩, ⟨1562059696, 2751798597, 2952243793, 701981898, 2038487132, 2316641061, 2586928031, 2588764970⟩) = (⟨1805163379, 594543683, 2478170969, 4068776790, 3631476694, 3562244401, 340256850, 1376629852⟩, ⟨3632143619, 2094401463, 368348073, 1010339354, 11624982, 2952816914, 1917482722, 268153956⟩) := by
  rw [(by norm_num : (600 : Nat) = 500 + 100), pbkdf2LoopW_add, p2s4, p2c5]

theorem p2s6 : pbkdf2LoopW ipadState2 opadState2 700 (⟨1562059696, 2751798597, 2952243793, 701981898, 2038487132, 2316641061, 2586928031, 2588764970⟩, ⟨1562059696, 2751798597, 2952243793, 701981898, 2038487132, 2316641061, 2586928031, 2588764970⟩) = (⟨1896566479, 828987418, 3833262143, 3810614974, 3611197219, 715020090, 747930069, 2733503000⟩, ⟨1255457272, 3895739579, 1254874502, 3004784535, 3790532294, 493310226, 1551840242, 3531792190⟩) := by
  rw [(by norm_num : (700 : Nat) = 600 + 100), pbkdf2LoopW_add, p2s5, p2c6]

theorem p2s7 : pbkdf2LoopW ipadState2 opadState2 800 (⟨1562059696, 2751798597, 2952243793, 701981898, 2038487132, 2316641061, 2586928031, 2588764970⟩, ⟨1562059696, 2751798597, 2952243793, 701981898, 2038487132, 2316641061, 2586928031, 2588764970⟩) = (⟨631040347, 1056244134, 1486589708, 1341493009, 161430841, 3363774692, 904911220, 1794993735⟩, ⟨3220457909, 2372961734, 2171918447, 2002235854, 1417583947, 1406560587, 4291932890, 1056293864⟩) := by
  rw [(by norm_num : (800 : Nat) = 700 + 100), pbkdf2LoopW_add, p2s6, p2c7]

theorem p2s8 : pbkdf2LoopW ipadState2 opadState2 900 (⟨1562059696, 2751798597, 2952243793, 701981898, 2038487132, 2316641061, 2586928031, 2588764970⟩, ⟨1562059696, 2751798597, 2952243793, 701981898, 2038487132, 2316641061, 2586928031, 2588764970⟩) = (⟨1714087172, 1256969093, 1029565463, 1131029940, 3404789166, 1108556373, 1275439070, 3482380672⟩, ⟨1511050720, 1518160011, 3007642525, 4250866454, 757101050, 798347493, 231218611, 1555938819⟩) := by
  rw [(by norm_num : (900 : Nat) = 800 + 100), pbkdf2LoopW_add, p2s7, p2c8]

theorem p2s9 : pbkdf2LoopW ipadState2 opadState2 1000 (⟨1562059696, 2751798597, 2952243793, 701981898, 2038487132, 2316641061, 2586928031, 2588764970⟩, ⟨1562059696, 2751798597, 2952243793, 701981898, 2038487132, 2316641061, 2586928031, 2588764970⟩) = (⟨2798920923, 1351680559, 3934195653, 4211926499, 1751143189, 770585736, 3697730204, 3224590014⟩, ⟨1363114866, 2191630905, 3257861490, 2591102627, 1148389780, 3129803839, 3108819734, 3148652246⟩) := by
  rw [(by norm_num : (1000 : Nat) = 900 + 100), pbkdf2LoopW_add, p2s8, p2c9]

theorem p2s10 : pbkdf2LoopW ipadState2 opadState2 1100 (⟨1562059696, 2751798597, 2952243793, 701981898, 2038487132, 2316641061, 2586928031, 2588764970⟩, ⟨1562059696, 2751798597, 2952243793, 701981898, 2038487132, 2316641061, 2586928031, 2588764970⟩) = (⟨3050617626, 4038925716, 2180171169, 252151533, 134917285, 2315338630, 1807489489, 2142308160⟩, ⟨23168862, 2575862926, 3872800299, 1857071385, 665747576, 2034954365, 714817814, 1618610203⟩) := by
  rw [(by norm_num : (1100 : Nat) = 1000 + 100), pbkdf2LoopW_add, p2s9, p2c10]

theorem p2s11 : pbkdf2LoopW ipadState2 opadState2 1200 (⟨1562059696, 2751798597, 2952243793, 701981898, 2038487132, 2316641061, 2586928031, 2588764970⟩, ⟨1562059696, 2751798597, 2952243793, 701981898, 2038487132, 2316641061, 2586928031, 2588764970⟩) = (⟨1529488916, 2060140541, 3184731492, 1465864360, 944099113, 1443802231, 4212761967, 77841253⟩, ⟨1561811803, 1442057683, 1008557102, 2272781362, 3326768562, 2065259356, 2668770674, 4018665313⟩) := by
  rw [(by norm_num : (1200 : Nat) = 1100 + 100), pbkdf2LoopW_add, p2s10, p2c11]

theorem p2s12 : pbkdf2LoopW ipadState2 opadState2 1300 (⟨1562059696, 2751798597, 2952243793, 701981898, 2038487132, 2316641061, 2586928031, 2588764970⟩, ⟨1562059696, 2751798597, 2952243793, 701981898, 2038487132, 2316641061, 2586928031, 2588764970⟩) = (⟨2178652905, 1142828330, 3792758196, 843482622, 262144181, 3725504919, 3656185754, 4284685994⟩, ⟨2638223846, 2264594250, 342742227, 2375908434, 547802249, 1180316946, 453110537, 2153159475⟩) := by
  rw [(by norm_num : (1300 : Nat) = 1200 + 100), pbkdf2LoopW_add, p2s11, p2c12]

theorem p2s13 : pbkdf2LoopW ipadState2 opadState2 1400 (⟨1562059696, 2751798597, 2952243793, 701981898, 2038487132, 2316641061, 2586928031, 2588764970⟩, ⟨1562059696, 2751798597, 2952243793, 701981898, 2038487132, 2316641061, 2586928031, 2588764970⟩) = (⟨3440373118, 3443522969, 75972126, 3692490229, 993855072, 442363761, 1132410371, 1247977684⟩, ⟨2515895626, 2421219115, 2674301030, 227498824, 1262951284, 1784988453, 535965011, 3705498989⟩) := by
  rw [(by norm_num : (1400 : Nat) = 1300 + 100), pbkdf2LoopW_add, p2s12, p2c13]

theorem p2s14 : pbkdf2LoopW ipadState2 opadState2 1500 (⟨1562059696, 2751798597, 2952243793, 701981898, 2038487132, 2316641061, 2586928031, 2588764970⟩, ⟨1562059696, 2751798597, 2952243793, 701981898, 2038487132, 2316641061, 2586928031, 2588764970⟩) = (⟨3080176846, 4219110934, 3239769323, 2031387334, 554050800, 3847411285, 49984055, 1602055956⟩, ⟨1964942579, 1575858413, 259986441, 14350551, 2702096067, 3359846201, 530310321, 1412635002⟩) := by
  rw [(by norm_num : (1500 : Nat) = 1400 + 100), pbkdf2LoopW_add, p2s13, p2c14]

theorem p2s15 : pbkdf2LoopW ipadState2 opadState2 1600 (⟨1562059696, 2751798597, 2952243793, 701981898, 2038487132, 2316641061, 2586928031, 2588764970⟩, ⟨1562059696, 2751798597, 2952243793, 701981898, 2038487132, 2316641061, 2586928031, 2588764970⟩) = (⟨1083004624, 3080240526, 3127377845, 2911498805, 2058761875, 3170203280, 587107819, 1620869512⟩, ⟨2191141543, 2660927885, 2030595782, 2640724151, 4025065983, 2425266389, 3491028141, 4077549611⟩) := by
  rw [(by norm_num : (1600 : Nat) = 1500 + 100), pbkdf2LoopW_add, p2s14, p2c15]

theorem p2s16 : pbkdf2LoopW ipadState2 opadState2 1700 (⟨1562059696, 2751798597, 2952243793, 701981898, 2038487132, 2316641061, 2586928031, 2588764970⟩, ⟨1562059696, 2751798597, 2952243793, 701981898, 2038487132, 2316641061, 2586928031, 2588764970⟩) = (⟨402334537, 2804894134, 762396839, 3709656665, 3432667791, 2275203283, 907034991, 1302909105⟩, ⟨3415956425, 3372093307, 4227065833, 1100749247, 3766631730, 681230184, 567418480, 2013743994⟩) := by
  rw [(by norm_num : (1700 : Nat) = 1600 + 100), pbkdf2LoopW_add, p2s15, p2c16]

theorem p2s17 : pbkdf2LoopW ipadState2 opadState2 1800 (⟨1562059696, 2751798597, 2952243793, 701981898, 2038487132, 2316641061, 2586928031, 2588764970⟩, ⟨1562059696, 2751798597, 2952243793, 701981898, 2038487132, 2316641061, 2586928031, 2588764970⟩) = (⟨3222956978, 2747813181, 2805472428, 3468760893, 3059174545, 1449323752, 4164207359, 1128353012⟩, ⟨1216897068, 2290108616, 1032342689, 2084950795, 269698384, 1445498680, 1119507655, 20749546⟩) := by
  rw [(by norm_num : (1800 : Nat) = 1700 + 100), pbkdf2LoopW_add, p2s16, p2c17]

theorem p2s18 : pbkdf2LoopW ipadState2 opadState2 1900 (⟨1562059696, 2751798597, 2952243793, 701981898, 2038487132, 2316641061, 2586928031, 2588764970⟩, ⟨1562059696, 2751798597, 2952243793, 701981898, 2038487132, 2316641061, 2586928031, 2588764970⟩) = (⟨2539799562, 3529546148, 1525849693, 3200119099, 267156527, 3230209283, 1364899437, 3961386703⟩, ⟨2652286948, 730578430, 516005853, 2500721866, 3189918962, 4185849406, 3671282762, 2848840444⟩) := by
  rw [(by norm_num : (1900 : Nat) = 1800 + 100), pbkdf2LoopW_add, p2s17, p2c18]

theorem p2s19 : pbkdf2LoopW ipadState2 opadState2 1999 (⟨1562059696, 2751798597, 2952243793, 701981898, 2038487132, 2316641061, 2586928031, 2588764970⟩, ⟨1562059696, 2751798597, 2952243793, 701981898, 2038487132, 2316641061, 2586928031, 2588764970⟩) = (⟨1608940698, 1733903881, 731811381, 735010642, 1634306492, 2677693936, 2180411877, 3313219861⟩, ⟨395878759, 734690404, 1675014725, 4163588976, 990859393, 872525886, 1078306182, 510171867⟩) := by
  rw [(by norm_num : (1999 : Nat) = 1900 + 99), pbkdf2LoopW_add, p2s18, p2c19]

/-- The full first PBKDF2 pass of the V2 test vector. -/
theorem h1_val : pbkdf2Sha256 (utf8Encode "1example!") [90, 23, 17] 10000 = pbkdf2Key2 := by
  rw [(by decide : utf8Encode "1example!" = pbkdf2Key1)]
  show (pbkdf2Loop pbkdf2Key1 (10000 - 1) (hmacSha256 pbkdf2Key1 ([90, 23, 17] ++ natToBytesBE 4 1), hmacSha256 pbkdf2Key1 ([90, 23, 17] ++ natToBytesBE 4 1))).2 = pbkdf2Key2
  rw [(by decide : hmacSha256 pbkdf2Key1 ([90, 23, 17] ++ natToBytesBE 4 1) = w8ToBytes ⟨3556773727, 3303591100, 3320445487, 1863158927, 427735909, 2372888702, 339099722, 3162803260⟩)]
  rw [(by norm_num : (10000 - 1 : Nat) = 9999)]
  rw [pbkdf2Loop_toW pbkdf2Key1 ipadState1 opadState1 hmac_w8_pass1 9999 ⟨3556773727, 3303591100, 3320445487, 1863158927, 427735909, 2372888702, 339099722, 3162803260⟩ ⟨3556773727, 3303591100, 3320445487, 1863158927, 427735909, 2372888702, 339099722, 3162803260⟩ (by decide) (by decide)]
  rw [p1s99]
  rfl

/-- The second PBKDF2 pass of the V2 test vector. -/
def pbkdf2Hash2 : List Nat := [23, 152, 161, 103, 43, 202, 124, 100, 99, 214, 178, 69, 248, 43, 83, 112, 59, 15, 80, 129, 52, 1, 176, 62, 64, 69, 165, 134, 30, 104, 154, 219]

theorem h2_val : pbkdf2Sha256 pbkdf2Key2 [90, 23, 34] 2000 = pbkdf2Hash2 := by
  show (pbkdf2Loop pbkdf2Key2 (2000 - 1) (hmacSha256 pbkdf2Key2 ([90, 23, 34] ++ natToBytesBE 4 1), hmacSha256 pbkdf2Key2 ([90, 23, 34] ++ natToBytesBE 4 1))).2 = pbkdf2Hash2
  rw [(by decide : hmacSha256 pbkdf2Key2 ([90, 23, 34] ++ natToBytesBE 4 1) = w8ToBytes ⟨1562059696, 2751798597, 2952243793, 701981898, 2038487132, 2316641061, 2586928031, 2588764970⟩)]
  rw [(by norm_num : (2000 - 1 : Nat) = 1999)]
  rw [pbkdf2Loop_toW pbkdf2Key2 ipadState2 opadState2 hmac_w8_pass2 1999 ⟨1562059696, 2751798597, 2952243793, 701981898, 2038487132, 2316641061, 2586928031, 2588764970⟩ ⟨1562059696, 2751798597, 2952243793, 701981898, 2038487132, 2316641061, 2586928031, 2588764970⟩ (by decide) (by decide)]
  rw [p2s19]
  rfl

/-- The V2 test vector of the repository test suite, end to end. -/
theorem handleChallengeV2_vector :
    handleChallengeV2 "2$10000$5A1711$2000$5A1722" "1example!" =
      .ok "5A1722$1798a1672bca7c6463d6b245f82b53703b0f50813401b03e4045a5861e689adb" := by
  have step : handleChallengeV2 "2$10000$5A1711$2000$5A1722" "1example!" =
      Except.ok ("5A1722" ++ "$" ++ bytesToHex (pbkdf2Sha256 (pbkdf2Sha256 (utf8Encode "1example!") [90, 23, 17] 10000) [90, 23, 34] 2000)) := rfl
  rw [step, h1_val, h2_val]
  decide


/-! ## Client, middleware and response model

The HTTP layer of `src/client/index.ts` and the auth middleware of
`src/client/middleware/auth.ts`, shallowly embedded: a URL is a path
with ordered query parameters (the `URLSearchParams` view; percent
escapes and RFC 3986 path resolution are out of the claims' scope), a
fetch `Response` is status, statusText, headers and body text, a
promise-returning call becomes a state-and-error function over an
explicit mutable world `σ`, and a `FritzClient`'s overridable
`executeRequest` and async-dispose members become function fields. -/

/-- Ordered query parameters, the `URLSearchParams` view of a URL. -/
structure UrlM where
  path : String
  params : List (String × String)
deriving DecidableEq, Repr

/-- `URLSearchParams.set`: overwrite the first pair of the name, drop
later pairs of it; append when absent. -/
def searchParamsSet : List (String × String) → String → String → List (String × String)
  | [], k, v => [(k, v)]
  | p :: rest, k, v =>
    if p.1 = k then (k, v) :: rest.filter (fun q => q.1 != k)
    else p :: searchParamsSet rest k v

/-- `URLSearchParams.append`. -/
def searchParamsAppend (ps : List (String × String)) (k v : String) : List (String × String) :=
  ps ++ [(k, v)]

/-- `URLSearchParams.get`: first value of the name, `null` when absent. -/
def searchParamsGet : List (String × String) → String → Option String
  | [], _ => none
  | p :: rest, k => if p.1 = k then some p.2 else searchParamsGet rest k

/-- `MiddlewareRequest`: url, method, headers, optional `URLSearchParams`
body. -/
structure MwRequest where
  url : UrlM
  method : String
  headers : List (String × String)
  body : Option (List (String × String))
deriving DecidableEq, Repr

/-- The part of a character list before the first occurrence of `sep`,
and the part after it when the separator occurs. -/
def splitFirst (sep : Char) : List Char → List Char × Option (List Char)
  | [] => ([], none)
  | c :: cs =>
    if c = sep then ([], some cs)
    else
      match splitFirst sep cs with
      | (pre, post) => (c :: pre, post)

/-- `URLSearchParams` parsing of a query string: `&`-separated pairs,
each split at its first `=` (empty segments are skipped). -/
def parseQueryPairs (q : List Char) : List (String × String) :=
  (jsSplitAux '&' q []).filterMap fun seg =>
    if seg.isEmpty then none
    else
      match splitFirst '=' seg.data with
      | (n, some v) => some (⟨n⟩, ⟨v⟩)
      | (n, none) => some (⟨n⟩, "")

/-- `new URL(spec, base)`, shallowly: the path resolves against the base
(plain concatenation stands in for RFC 3986 resolution, which no claim
depends on) and the spec's query string is parsed into parameters. -/
def newUrl (base spec : String) : UrlM :=
  match splitFirst '?' spec.data with
  | (p, none) => ⟨base ++ "/" ++ ⟨p⟩, []⟩
  | (p, some q) => ⟨base ++ "/" ++ ⟨p⟩, parseQueryPairs q⟩

/-- An endpoint descriptor (`FritzRequest`): the endpoint string and the
optional explicit method; the valibot schemas live outside the data
path. -/
structure EndpointDesc where
  endpoint : String
  method : Option String
deriving DecidableEq, Repr

/-- The request-construction part of `FritzClient.request` (index.ts
lines 46-83): method defaulting, query-vs-body payload placement, the
`Accept` header. -/
def buildRequest (baseUrl : String) (ep : EndpointDesc)
    (payload : Option (List (String × String))) : MwRequest :=
  let hasRequest := payload.isSome
  let method := ep.method.getD (if hasRequest then "POST" else "GET")
  let body := payload.getD []
  let url0 := newUrl baseUrl ep.endpoint
  let url :=
    if ep.method = some "GET" ∧ hasRequest then
      { url0 with params := body.foldl (fun ps kv => searchParamsAppend ps kv.1 kv.2) url0.params }
    else url0
  { url := url
    method := method
    headers := [("Accept", "application/json")]
    body := if ep.method ≠ some "GET" ∧ hasRequest then some body else none }

/-- A fetch `Response`: status, statusText, headers, body text. -/
structure HttpResponse where
  status : Nat
  statusText : String
  headers : List (String × String)
  body : String
deriving DecidableEq, Repr

/-- `Response.ok`: the status is in the inclusive range 200..299. -/
def responseOk (r : HttpResponse) : Bool :=
  decide (200 ≤ r.status) && decide (r.status ≤ 299)

/-- A JSON value, as `Response.json` resolves one; a number keeps its
lexeme. -/
inductive JsonVal where
  | null
  | bool (b : Bool)
  | num (lexeme : String)
  | str (s : String)
  | arr (elems : List JsonVal)
  | obj (fields : List (String × JsonVal))

/-- JSON whitespace skipping. -/
def jsonWs (cs : List Char) : List Char :=
  cs.dropWhile fun c => c == ' ' || c == '\t' || c == '\n' || c == '\r'

/-- One hex digit of a `\u` escape. -/
def jsonHexDigit (c : Char) : Option Nat :=
  if '0' ≤ c ∧ c ≤ '9' then some (c.toNat - 48)
  else if 'a' ≤ c ∧ c ≤ 'f' then some (c.toNat - 87)
  else if 'A' ≤ c ∧ c ≤ 'F' then some (c.toNat - 55)
  else none

/-- The body of a JSON string after its opening quote: the string and
the rest of the input. -/
def jsonStrAux : List Char → List Char → Option (String × List Char)
  | [], _ => none
  | '"' :: rest, acc => some (⟨acc.reverse⟩, rest)
  | '\\' :: e :: rest, acc =>
    match e with
    | '"' => jsonStrAux rest ('"' :: acc)
    | '\\' => jsonStrAux rest ('\\' :: acc)
    | '/' => jsonStrAux rest ('/' :: acc)
    | 'b' => jsonStrAux rest ('\x08' :: acc)
    | 'f' => jsonStrAux rest ('\x0c' :: acc)
    | 'n' => jsonStrAux rest ('\n' :: acc)
    | 'r' => jsonStrAux rest ('\r' :: acc)
    | 't' => jsonStrAux rest ('\t' :: acc)
    | 'u' =>
      match rest with
      | h1 :: h2 :: h3 :: h4 :: rest2 =>
        match jsonHexDigit h1, jsonHexDigit h2, jsonHexDigit h3, jsonHexDigit h4 with
        | some a, some b, some c, some d =>
          let n := ((a * 16 + b) * 16 + c) * 16 + d
          jsonStrAux rest2 (Char.ofNat n :: acc)
        | _, _, _, _ => none
      | _ => none
    | _ => none
  | '\\' :: [], _ => none
  | c :: rest, acc => if c.toNat < 32 then none else jsonStrAux rest (c :: acc)

/-- A JSON number lexeme: `-? (0 | [1-9][0-9]*) frac? exp?`. -/
def jsonNum (cs : List Char) : Option (String × List Char) :=
  let isDigit := fun (c : Char) => '0' ≤ c && c ≤ '9'
  let (sign, cs1) := match cs with
    | '-' :: rest => (['-'], rest)
    | _ => ([], cs)
  let int := cs1.takeWhile isDigit
  let cs2 := cs1.dropWhile isDigit
  if int.isEmpty then none
  else if int.length > 1 ∧ int.headD '0' = '0' then none
  else
    let (frac, cs3) :=
      match cs2 with
      | '.' :: rest =>
        let ds := rest.takeWhile isDigit
        if ds.isEmpty then ([], cs2) else ('.' :: ds, rest.dropWhile isDigit)
      | _ => ([], cs2)
    if frac.isEmpty ∧ cs2 ≠ cs3 then none
    else
      let (ex, cs4) :=
        match cs3 with
        | e :: rest =>
          if e = 'e' ∨ e = 'E' then
            let (es, rest2) := match rest with
              | s :: rest2 => if s = '+' ∨ s = '-' then ([e, s], rest2) else ([e], rest)
              | [] => ([e], rest)
            let ds := rest2.takeWhile isDigit
            if ds.isEmpty then ([], cs3) else (es ++ ds, rest2.dropWhile isDigit)
          else ([], cs3)
        | [] => ([], cs3)
      some (⟨sign ++ int ++ frac ++ ex⟩, cs4)

/-- The recursive-descent task: a value, the rest of an array, or the
rest of an object. -/
inductive JTask where
  | val
  | arrRest (acc : List JsonVal)
  | objRest (acc : List (String × JsonVal))

/-- Fuel-indexed JSON parsing (the fuel only bounds the nesting; the
caller passes enough for the whole input). -/
def jsonP : Nat → JTask → List Char → Option (JsonVal × List Char)
  | 0, _, _ => none
  | n + 1, JTask.val, cs =>
    match jsonWs cs with
    | '{' :: rest =>
      (match jsonWs rest with
       | '}' :: rest2 => some (.obj [], rest2)
       | _ => jsonP n (.objRest []) rest)
    | '[' :: rest =>
      (match jsonWs rest with
       | ']' :: rest2 => some (.arr [], rest2)
       | _ => jsonP n (.arrRest []) rest)
    | '"' :: rest => (jsonStrAux rest []).map fun p => (.str p.1, p.2)
    | 'n' :: 'u' :: 'l' :: 'l' :: rest => some (.null, rest)
    | 't' :: 'r' :: 'u' :: 'e' :: rest => some (.bool true, rest)
    | 'f' :: 'a' :: 'l' :: 's' :: 'e' :: rest => some (.bool false, rest)
    | c :: rest =>
      if c = '-' ∨ ('0' ≤ c ∧ c ≤ '9') then
        (jsonNum (c :: rest)).map fun p => (.num p.1, p.2)
      else none
    | [] => none
  | n + 1, JTask.arrRest acc, cs =>
    match jsonP n .val cs with
    | some (v, rest) =>
      (match jsonWs rest with
       | ',' :: rest2 => jsonP n (.arrRest (v :: acc)) rest2
       | ']' :: rest2 => some (.arr (v :: acc).reverse, rest2)
       | _ => none)
    | none => none
  | n + 1, JTask.objRest acc, cs =>
    match jsonWs cs with
    | '"' :: rest =>
      (match jsonStrAux rest [] with
       | some (name, rest2) =>
         (match jsonWs rest2 with
          | ':' :: rest3 =>
            (match jsonP n .val rest3 with
             | some (v, rest4) =>
               (match jsonWs rest4 with
                | ',' :: rest5 => jsonP n (.objRest ((name, v) :: acc)) rest5
                | '}' :: rest5 => some (.obj ((name, v) :: acc).reverse, rest5)
                | _ => none)
             | none => none)
          | _ => none)
       | none => none)
    | _ => none

/-- The model of `JSON.parse` (what `Response.json` resolves, or `none`
for the `SyntaxError` it rejects with). -/
def jsonParse (s : String) : Option JsonVal :=
  match jsonP (2 * s.data.length + 4) .val s.data with
  | some (v, rest) => if (jsonWs rest).isEmpty then some v else none
  | none => none

/-- The tree `@libs/xml`'s `parse` returns, on the attribute-free
documents of the claims: an element holds either its text or its child
elements. `none` models the parse error the library throws. -/
inductive XmlVal where
  | text (s : String)
  | node (children : List (String × XmlVal))

/-- XML whitespace skipping. -/
def xmlWs (cs : List Char) : List Char :=
  cs.dropWhile fun c => c == ' ' || c == '\t' || c == '\n' || c == '\r'

/-- A tag-name character. -/
def xmlNameChar (c : Char) : Bool :=
  ('a' ≤ c && c ≤ 'z') || ('A' ≤ c && c ≤ 'Z') || ('0' ≤ c && c ≤ '9') ||
    c == '_' || c == '-' || c == ':' || c == '.'

/-- An opening tag after its `<`: the name, then `>`. -/
def xmlOpenTag (cs : List Char) : Option (String × List Char) :=
  let name := cs.takeWhile xmlNameChar
  let rest := cs.dropWhile xmlNameChar
  if name.isEmpty then none
  else
    match xmlWs rest with
    | '>' :: rest2 => some (⟨name⟩, rest2)
    | _ => none

/-- A closing tag after its `</`: the given name, then `>`. -/
def xmlCloseTag (name : String) : List Char → Option (List Char) := fun cs =>
  let got := cs.takeWhile xmlNameChar
  let rest := cs.dropWhile xmlNameChar
  if got ≠ name.data then none
  else
    match xmlWs rest with
    | '>' :: rest2 => some rest2
    | _ => none

/-- Trim of an element's text content. -/
def xmlTrim (cs : List Char) : List Char :=
  ((cs.dropWhile fun c => c == ' ' || c == '\t' || c == '\n' || c == '\r').reverse.dropWhile
    fun c => c == ' ' || c == '\t' || c == '\n' || c == '\r').reverse

/-- Fuel-indexed parsing of a sequence of elements, stopping before a
closing tag; each element body is text or a nested sequence. -/
def xmlP : Nat → List (String × XmlVal) → List Char → Option (List (String × XmlVal) × List Char)
  | 0, _, _ => none
  | n + 1, acc, cs =>
    match xmlWs cs with
    | [] => some (acc.reverse, [])
    | '<' :: '/' :: rest => some (acc.reverse, '<' :: '/' :: rest)
    | '<' :: rest =>
      (match xmlOpenTag rest with
       | some (name, rest2) =>
         (match xmlWs rest2 with
          | '<' :: '/' :: rest3 =>
            (match xmlCloseTag name rest3 with
             | some rest4 => xmlP n ((name, XmlVal.text "") :: acc) rest4
             | none => none)
          | '<' :: rest3 =>
            (match xmlP n [] ('<' :: rest3) with
             | some (children, rest4) =>
               (match rest4 with
                | '<' :: '/' :: rest5 =>
                  (match xmlCloseTag name rest5 with
                   | some rest6 => xmlP n ((name, XmlVal.node children) :: acc) rest6
                   | none => none)
                | _ => none)
             | none => none)
          | _ =>
            let txt := xmlTrim (rest2.takeWhile fun c => c != '<')
            (match rest2.dropWhile (fun c => c != '<') with
             | '<' :: '/' :: rest3 =>
               (match xmlCloseTag name rest3 with
                | some rest4 => xmlP n ((name, XmlVal.text ⟨txt⟩) :: acc) rest4
                | none => none)
             | _ => none))
       | none => none)
    | _ => none

/-- The model of `@libs/xml` `parse`: the document as an object of its
top-level elements. -/
def parseXmlM (s : String) : Option XmlVal :=
  match xmlP (2 * s.data.length + 4) [] s.data with
  | some (children, []) => some (.node children)
  | _ => none

/-- What `rawData` resolves with: the switch arms produce a parsed JSON
value, a parsed XML tree, or the raw body text. -/
inductive Decoded where
  | json (v : JsonVal)
  | xml (v : XmlVal)
  | text (s : String)

/-- The errors of the client layer: `FritzError` with its
`{status, statusText, data}` options, the `SyntaxError` of
`Response.json`, the parse error of `@libs/xml`, a valibot validation
error, and an auth handler's login failure. -/
inductive ClientErr where
  | fritzError (status : Nat) (statusText : String) (data : Decoded)
  | jsonSyntaxError
  | xmlSyntaxError
  | validationError
  | loginFailed (msg : String)

/-- ASCII lowercasing (`toLocaleLowerCase` restricted to the ASCII
content types the switch compares against). -/
def lowerChar (c : Char) : Char :=
  if 'A' ≤ c ∧ c ≤ 'Z' then Char.ofNat (c.toNat + 32) else c

/-- Lowercase a string. -/
def lowerStr (s : String) : String := ⟨s.data.map lowerChar⟩

/-- Whitespace of JS `String.prototype.trim`. -/
def jsWsChar (c : Char) : Bool :=
  c == ' ' || c == '\t' || c == '\n' || c == '\r' || c == '\x0b' || c == '\x0c'

/-- JS `String.prototype.trim`. -/
def jsTrim (s : String) : String :=
  ⟨((s.data.dropWhile jsWsChar).reverse.dropWhile jsWsChar).reverse⟩

/-- The content-type normalization of `rawData`:
`.split(";")[0].trim().toLocaleLowerCase()`. -/
def normalizeContentType (ct : String) : String :=
  lowerStr (jsTrim ((jsSplit ct ';').headD ct))

/-- `Headers.get`: case-insensitive name lookup. -/
def headersGet : List (String × String) → String → Option String
  | [], _ => none
  | h :: rest, name =>
    if lowerStr h.1 = lowerStr name then some h.2 else headersGet rest name

/-- The content-type dispatch of `rawData` (its switch, after the
optional `throwOnError`): the fallthrough case pairs become
disjunctions. -/
def rawDataDispatch (r : HttpResponse) : Except ClientErr Decoded :=
  let contentType := (headersGet r.headers "content-type").map normalizeContentType
  if contentType = some "text/json" ∨ contentType = some "application/json" then
    match jsonParse r.body with
    | some v => .ok (.json v)
    | none => .error .jsonSyntaxError
  else if contentType = some "text/xml" ∨ contentType = some "application/xml" then
    match parseXmlM r.body with
    | some v => .ok (.xml v)
    | none => .error .xmlSyntaxError
  else .ok (.text r.body)

/-- `FritzResponse.throwOnError`: nothing when ok; otherwise decode the
body with `rawData({throwOnError: false})` and throw a `FritzError`
carrying status, statusText and the decoded data — or whatever the
decode itself throws. -/
def throwOnErrorE (r : HttpResponse) : Except ClientErr Unit :=
  if responseOk r then .ok ()
  else
    match rawDataDispatch r with
    | .ok d => .error (.fritzError r.status r.statusText d)
    | .error e => .error e

/-- `FritzResponse.rawData` with its `throwOnError` option (default
`true`). -/
def rawDataE (r : HttpResponse) (throwOn : Bool) : Except ClientErr Decoded :=
  match (if throwOn then throwOnErrorE r else .ok ()) with
  | .ok _ => rawDataDispatch r
  | .error e => .error e

/-- `FritzResponse.data`: `rawData`, then `v.parse(schema, data)` as an
abstract validation function. -/
def dataE {α : Type} (validate : Decoded → Except ClientErr α)
    (r : HttpResponse) (throwOn : Bool) : Except ClientErr α :=
  match rawDataE r throwOn with
  | .ok d => validate d
  | .error e => .error e

/-- A promise-returning computation over a mutable world `σ`: state
passing with JS exceptions. -/
def JsP (σ α : Type) : Type := σ → σ × Except ClientErr α

/-- A resolved promise. -/
def jsPure {σ α : Type} (a : α) : JsP σ α := fun s => (s, .ok a)

/-- `await` sequencing: a rejection short-circuits. -/
def jsBind {σ α β : Type} (x : JsP σ α) (f : α → JsP σ β) : JsP σ β := fun s =>
  match x s with
  | (s2, .ok a) => f a s2
  | (s2, .error e) => (s2, .error e)

/-- A `FritzClient`: the base URL and the two overridable members that
`use` rebinds. -/
structure ClientM (σ : Type) where
  baseUrl : String
  executeRequest : MwRequest → JsP σ HttpResponse
  dispose : JsP σ Unit

/-- A `Middleware`: the request hook (with `next` and `nextClient`) and
the optional dispose hook. -/
structure MiddlewareM (σ : Type) where
  request : MwRequest → (MwRequest → JsP σ HttpResponse) → ClientM σ → JsP σ HttpResponse
  dispose : Option (ClientM σ → JsP σ Unit)

/-- `FritzClient.use`: a new client whose `executeRequest` runs the
middleware with `next` bound to this client's `executeRequest` and
`baseClient` bound to this client, and whose disposal runs the
middleware's dispose hook (when given) and then this client's. -/
def ClientM.use {σ : Type} (c : ClientM σ) (mw : MiddlewareM σ) : ClientM σ :=
  { baseUrl := c.baseUrl
    executeRequest := fun req => mw.request req c.executeRequest c
    dispose :=
      jsBind (match mw.dispose with
              | some d => d c
              | none => jsPure ()) fun _ => c.dispose }

/-- `FritzClient.request`: build the request and execute it. -/
def ClientM.requestEp {σ : Type} (c : ClientM σ) (ep : EndpointDesc)
    (payload : Option (List (String × String))) : JsP σ HttpResponse :=
  c.executeRequest (buildRequest c.baseUrl ep payload)

/-- `SessionInfo` of auth/handler.ts. -/
structure SessionInfo where
  sid : String
deriving DecidableEq, Repr

/-- `IAuthHandler` of auth/handler.ts. -/
structure IAuthHandler (σ : Type) where
  login : ClientM σ → JsP σ SessionInfo
  logout : ClientM σ → SessionInfo → JsP σ Unit

/-- Observable events: a transport-level fetch, a handler login call, a
handler logout call. -/
inductive Ev where
  | transport (req : MwRequest)
  | login
  | logout (sid : String)
deriving DecidableEq, Repr

/-- The world of the auth middleware: its closure variable `session`,
and the event trace. -/
structure AuthWorld where
  session : Option SessionInfo
  trace : List Ev
deriving DecidableEq, Repr

/-- The sid injection of the auth middleware's request hook: set `sid`
in the URL's search params and, when the body is a `URLSearchParams`,
in the body. -/
def injectSid (req : MwRequest) (sid : String) : MwRequest :=
  { req with
    url := { req.url with params := searchParamsSet req.url.params "sid" sid }
    body := match req.body with
            | some ps => some (searchParamsSet ps "sid" sid)
            | none => none }

/-- `if (!session) session = await handler.login(nextClient)`, then the
stored session. -/
def getSession (h : IAuthHandler AuthWorld) (nextClient : ClientM AuthWorld) :
    JsP AuthWorld SessionInfo := fun s =>
  match s.session with
  | some info => (s, .ok info)
  | none =>
    match h.login nextClient s with
    | (s2, .ok info) => ({ s2 with session := some info }, .ok info)
    | (s2, .error e) => (s2, .error e)

/-- The dispose hook of the auth middleware: logout through the base
client and clear the session — only when one is stored, and the clearing
only after the logout resolved. -/
def authDispose (h : IAuthHandler AuthWorld) (base : ClientM AuthWorld) :
    JsP AuthWorld Unit := fun s =>
  match s.session with
  | none => (s, .ok ())
  | some info =>
    match h.logout base info s with
    | (s2, .ok _) => ({ s2 with session := none }, .ok ())
    | (s2, .error e) => (s2, .error e)

/-- The auth middleware of middleware/auth.ts. -/
def authMw (h : IAuthHandler AuthWorld) : MiddlewareM AuthWorld :=
  { request := fun req next nextClient =>
      jsBind (getSession h nextClient) fun info => next (injectSid req info.sid)
    dispose := some (authDispose h) }

/-- A canned 200 response. -/
def okResponse : HttpResponse := ⟨200, "OK", [("Content-Type", "text/plain")], "ok"⟩

/-- A transport-only client over the auth world: every `executeRequest`
is one fetch, recorded on the trace. -/
def transportClient : ClientM AuthWorld :=
  { baseUrl := "http://fritz.box"
    executeRequest := fun req => fun s =>
      ({ s with trace := s.trace ++ [Ev.transport req] }, .ok okResponse)
    dispose := jsPure () }

/-- A handler that logs in at once with the given sid; both hooks are
recorded on the trace. -/
def pureHandler (sid : String) : IAuthHandler AuthWorld :=
  { login := fun _ => fun s => ({ s with trace := s.trace ++ [Ev.login] }, .ok ⟨sid⟩)
    logout := fun _ info => fun s =>
      ({ s with trace := s.trace ++ [Ev.logout info.sid] }, .ok ()) }

/-- A handler whose login always rejects (after recording the attempt). -/
def failingHandler (msg : String) : IAuthHandler AuthWorld :=
  { login := fun _ => fun s =>
      ({ s with trace := s.trace ++ [Ev.login] }, .error (.loginFailed msg))
    logout := fun _ info => fun s =>
      ({ s with trace := s.trace ++ [Ev.logout info.sid] }, .ok ()) }

/-- The challenge-fetch request of `UserPassword.login` (no sid). -/
def challengeReq : MwRequest :=
  ⟨⟨"login_sid.lua", []⟩, "GET", [("Accept", "application/json")], none⟩

/-- The logout request of `UserPassword.logout`. -/
def logoutReq (sid : String) : MwRequest :=
  ⟨⟨"login_sid.lua", []⟩, "POST", [("Accept", "application/json")],
    some [("logout", "1"), ("sid", sid)]⟩

/-- A handler shaped like `UserPassword`: its login fetches the
challenge through the client it receives, then resolves with the sid;
its logout posts through the client it receives. -/
def requestingHandler (sid : String) : IAuthHandler AuthWorld :=
  { login := fun client =>
      jsBind (client.executeRequest challengeReq) fun _ => fun s =>
        ({ s with trace := s.trace ++ [Ev.login] }, .ok ⟨sid⟩)
    logout := fun client info =>
      jsBind (client.executeRequest (logoutReq info.sid)) fun _ => jsPure () }

/-- Issue the requests one after the other (each awaited before the
next). -/
def runSeq {σ : Type} (c : ClientM σ) : List MwRequest → JsP σ Unit
  | [] => jsPure ()
  | r :: rs => jsBind (c.executeRequest r) fun _ => runSeq c rs

/-- A fresh world: no session, empty trace. -/
def initWorld : AuthWorld := ⟨none, []⟩

/-- A client over a bare trace of numeric tags, for middleware-order
observations. -/
def logClient : ClientM (List Nat) :=
  { baseUrl := "http://fritz.box"
    executeRequest := fun _ => fun tr => (tr ++ [0], .ok okResponse)
    dispose := jsPure () }

/-- A middleware that tags the trace on its request hook and (offset by
1000) on its dispose hook. -/
def logMw (t : Nat) : MiddlewareM (List Nat) :=
  { request := fun req next _ => fun tr => next req (tr ++ [t])
    dispose := some fun _ => fun tr => (tr ++ [t + 1000], .ok ()) }


/-! ## Supporting lemmas -/

theorem exceptBind_ok {ε α β : Type} (a : α) (f : α → Except ε β) :
    (Except.ok a : Except ε α) >>= f = f a := rfl

theorem exceptBind_error {ε α β : Type} (e : ε) (f : α → Except ε β) :
    (Except.error e : Except ε α) >>= f = Except.error e := rfl

theorem exceptPure {ε α : Type} (a : α) : (pure a : Except ε α) = Except.ok a := rfl

theorem zipXor_length : ∀ (a b : List Nat), (zipXor a b).length = min a.length b.length
  | [], [] => by simp [zipXor]
  | [], _ :: _ => by simp [zipXor]
  | _ :: _, [] => by simp [zipXor]
  | _ :: as', _ :: bs' => by
    simp [zipXor, zipXor_length as' bs']
    omega

theorem sha256_length (msg : List Nat) : (sha256 msg).length = 32 := by
  simp [sha256, wordsToBytesBE, natToBytesBE_length]

theorem hmacSha256_length (key msg : List Nat) : (hmacSha256 key msg).length = 32 := by
  simp [hmacSha256, sha256_length]

theorem pbkdf2Loop_length (p : List Nat) :
    ∀ (n : Nat) (u t : List Nat), t.length = 32 →
      ((pbkdf2Loop p n (u, t)).2).length = 32 := by
  intro n
  induction n with
  | zero => intro u t ht; exact ht
  | succ m ih =>
    intro u t ht
    show ((pbkdf2Loop p m (pbkdf2Step p (u, t))).2).length = 32
    refine ih _ _ ?_
    simp [pbkdf2Step, zipXor_length, hmacSha256_length, ht]

theorem pbkdf2Sha256_length (p salt : List Nat) (c : Nat) :
    (pbkdf2Sha256 p salt c).length = 32 := by
  show ((pbkdf2Loop p (c - 1)
      (hmacSha256 p (salt ++ natToBytesBE 4 1), hmacSha256 p (salt ++ natToBytesBE 4 1))).2).length = 32
  exact pbkdf2Loop_length p (c - 1) _ _ (hmacSha256_length _ _)

theorem searchParams_foldl_append (p : List (String × String)) :
    ∀ ps, p.foldl (fun a kv => searchParamsAppend a kv.1 kv.2) ps = ps ++ p := by
  induction p with
  | nil => intro ps; simp
  | cons kv rest ih =>
    intro ps
    rw [List.foldl_cons, ih]
    simp [searchParamsAppend]

theorem searchParamsGet_set (ps : List (String × String)) (k v : String) :
    searchParamsGet (searchParamsSet ps k v) k = some v := by
  induction ps with
  | nil => simp [searchParamsSet, searchParamsGet]
  | cons p rest ih =>
    by_cases h : p.1 = k
    · simp [searchParamsSet, h, searchParamsGet]
    · simp [searchParamsSet, h, searchParamsGet, ih]

theorem count_login_map_transport (sid : String) (reqs : List MwRequest) :
    ((reqs.map fun r => Ev.transport (injectSid r sid)).count Ev.login) = 0 := by
  induction reqs with
  | nil => rfl
  | cons r rest ih => simp [List.count_cons, ih]

theorem runSeq_authClient_authed (sid : String) (reqs : List MwRequest) :
    ∀ s : AuthWorld, s.session = some ⟨sid⟩ →
      runSeq (transportClient.use (authMw (pureHandler sid))) reqs s
        = ({ s with trace := s.trace ++ reqs.map fun r => Ev.transport (injectSid r sid) }, .ok ()) := by
  induction reqs with
  | nil =>
    intro s _
    simp [runSeq, jsPure]
  | cons r rest ih =>
    intro s hs
    have hexec : (transportClient.use (authMw (pureHandler sid))).executeRequest r s
        = ({ s with trace := s.trace ++ [Ev.transport (injectSid r sid)] }, .ok okResponse) := by
      simp [ClientM.use, authMw, getSession, jsBind, transportClient, hs]
    show (jsBind ((transportClient.use (authMw (pureHandler sid))).executeRequest r)
        fun _ => runSeq (transportClient.use (authMw (pureHandler sid))) rest) s = _
    rw [jsBind, hexec]
    show runSeq (transportClient.use (authMw (pureHandler sid))) rest
        { session := s.session, trace := s.trace ++ [Ev.transport (injectSid r sid)] } = _
    rw [ih _ (by simp [hs])]
    simp [List.append_assoc]

/-! ## The claims -/

set_option maxRecDepth 100000 in
/-- C1: every challenge without the `2$` prefix takes the V1 path, whose
response is `challenge ++ "-" ++ hex(md5(utf16le(challenge ++ "-" ++
password)))`; on the repository's V1 test vector the response is the
recorded string. -/
theorem challenge_v1_md5_formula :
    (∀ (ch pw : String), jsStartsWith ch "2$" = false →
        handleChallenge ch pw
          = .ok (ch ++ "-" ++ bytesToHex (md5 (encodeUtf16Le (ch ++ "-" ++ pw)))))
  ∧ handleChallenge "1234567z" "äbc" = .ok "1234567z-9e224a41eeefa284df7bb0f26c2913e2" := by
  constructor
  · intro ch pw h
    simp [handleChallenge, h, handleChallengeV1]
  · decide

set_option maxRecDepth 100000 in
/-- C3 counterexample: a V2 challenge with six `$`-separated fields is
not rejected — JS array destructuring drops the extra field and
`computeResponse` succeeds. -/
theorem challenge_six_fields_counterexample :
    (jsSplit "2$1$aa$1$bb$cc" '$').length = 6
  ∧ jsStartsWith "2$1$aa$1$bb$cc" "2$" = true
  ∧ handleChallenge "2$1$aa$1$bb$cc" "p"
      = .ok "bb$2f73eb74d960d101d3d1a5ef9da8c504df75bc4a785702fd3d4e2ae8a1fa6107" := by
  refine ⟨by decide, by decide, by decide⟩

/-- C3 (amended): dispatch is solely on the `2$` prefix (V1 otherwise,
and the V1 path cannot fail); a V2 challenge with fewer than five
fields fails, as does one whose salt fields do not decode as hex —
but a field count above five is not rejected. -/
theorem challenge_dispatch_malformed_amended :
    (∀ (ch pw : String), jsStartsWith ch "2$" = false →
        handleChallenge ch pw = .ok (handleChallengeV1 ch pw))
  ∧ (∀ (ch pw : String), jsStartsWith ch "2$" = true →
        handleChallenge ch pw = handleChallengeV2 ch pw)
  ∧ (∀ (ch pw : String), (jsSplit ch '$').length < 5 →
        ∃ e, handleChallengeV2 ch pw = .error e)
  ∧ (∀ (ch pw : String) (e1 : JsErr),
        uint8ArrayFromHex ((jsSplit ch '$').get? 2) = .error e1 →
        ∃ e, handleChallengeV2 ch pw = .error e)
  ∧ (∀ (ch pw : String) (e2 : JsErr),
        uint8ArrayFromHex ((jsSplit ch '$').get? 4) = .error e2 →
        ∃ e, handleChallengeV2 ch pw = .error e) := by
  refine ⟨?_, ?_, ?_, ?_, ?_⟩
  · intro ch pw h
    simp [handleChallenge, h]
  · intro ch pw h
    simp [handleChallenge, h]
  · intro ch pw hlen
    have h4 : (jsSplit ch '$').get? 4 = none := by
      rw [List.get?_eq_none]
      omega
    simp only [handleChallengeV2, h4]
    cases hs1 : uint8ArrayFromHex ((jsSplit ch '$').get? 2) with
    | error e =>
      simp only [exceptBind_error]
      exact ⟨e, rfl⟩
    | ok v =>
      simp only [exceptBind_ok]
      cases hd1 : deriveBitsPbkdf2 (utf8Encode pw) v (jsParseInt ((jsSplit ch '$').get? 1)) with
      | error e =>
        simp only [exceptBind_error]
        exact ⟨e, rfl⟩
      | ok h1v =>
        simp only [exceptBind_ok]
        exact ⟨.typeError, rfl⟩
  · intro ch pw e1 h
    simp only [handleChallengeV2]
    rw [h]
    simp only [exceptBind_error]
    exact ⟨e1, rfl⟩
  · intro ch pw e2 h
    simp only [handleChallengeV2, h]
    cases hs1 : uint8ArrayFromHex ((jsSplit ch '$').get? 2) with
    | error e =>
      simp only [exceptBind_error]
      exact ⟨e, rfl⟩
    | ok v =>
      simp only [exceptBind_ok]
      cases hd1 : deriveBitsPbkdf2 (utf8Encode pw) v (jsParseInt ((jsSplit ch '$').get? 1)) with
      | error e =>
        simp only [exceptBind_error]
        exact ⟨e, rfl⟩
      | ok h1v =>
        simp only [exceptBind_ok, exceptBind_error]
        exact ⟨e2, rfl⟩

/-- C4: the built request's method is the descriptor's explicit method,
else POST exactly when a payload is supplied; an explicit-GET payload
goes to the query string (appended after the fields the endpoint URL
already had) with no body; otherwise a payload goes to the body with
the URL untouched; and without a payload there is no body. -/
theorem request_construction_method_payload :
    (∀ (base : String) (ep : EndpointDesc) (payload : Option (List (String × String))),
        (buildRequest base ep payload).method
          = ep.method.getD (if payload.isSome then "POST" else "GET"))
  ∧ (∀ (base : String) (ep : EndpointDesc) (p : List (String × String)),
        ep.method = some "GET" →
          (buildRequest base ep (some p)).url.params = (newUrl base ep.endpoint).params ++ p
          ∧ (buildRequest base ep (some p)).body = none)
  ∧ (∀ (base : String) (ep : EndpointDesc) (p : List (String × String)),
        ep.method ≠ some "GET" →
          (buildRequest base ep (some p)).body = some p
          ∧ (buildRequest base ep (some p)).url = newUrl base ep.endpoint)
  ∧ (∀ (base : String) (ep : EndpointDesc),
        (buildRequest base ep none).body = none
        ∧ (buildRequest base ep none).url = newUrl base ep.endpoint) := by
  refine ⟨?_, ?_, ?_, ?_⟩
  · intro base ep payload
    rfl
  · intro base ep p h
    constructor
    · simp [buildRequest, h, searchParams_foldl_append]
    · simp [buildRequest, h]
  · intro base ep p h
    constructor
    · simp [buildRequest, h]
    · simp [buildRequest, h]
  · intro base ep
    constructor
    · simp [buildRequest]
    · simp [buildRequest]

/-- C5: `use` composes so that the most-recently-attached middleware
wraps outermost — its request hook runs first, with `next` reaching the
earlier middleware and then the original transport — and disposal runs
the newest middleware's dispose hook first, then the earlier one's,
then the base client's; on tagged logging middlewares the observed
orders are `[t2, t1, 0]` and `[t2 + 1000, t1 + 1000]`. -/
theorem middleware_order_composition :
    (∀ (σ : Type) (c : ClientM σ) (m1 m2 : MiddlewareM σ) (req : MwRequest),
        ((c.use m1).use m2).executeRequest req
          = m2.request req (fun r => m1.request r c.executeRequest c) (c.use m1))
  ∧ (∀ (σ : Type) (c : ClientM σ) (m1 m2 : MiddlewareM σ),
        ((c.use m1).use m2).dispose
          = jsBind (match m2.dispose with
                    | some d => d (c.use m1)
                    | none => jsPure ())
              fun _ => jsBind (match m1.dispose with
                               | some d => d c
                               | none => jsPure ())
                fun _ => c.dispose)
  ∧ (∀ (t1 t2 : Nat) (req : MwRequest),
        ((logClient.use (logMw t1)).use (logMw t2)).executeRequest req []
          = ([t2, t1, 0], .ok okResponse))
  ∧ (∀ (t1 t2 : Nat),
        ((logClient.use (logMw t1)).use (logMw t2)).dispose []
          = ([t2 + 1000, t1 + 1000], .ok ())) :=
  ⟨fun _ _ _ _ _ => rfl, fun _ _ _ _ => rfl, fun _ _ _ => rfl, fun _ _ => rfl⟩

/-- C6: across one-plus-N sequential requests through an auth-wrapped
client, login runs exactly once, every transported request carries the
one sid in its query string (and in its form body when it has one),
disposing logs out exactly once and clears the session, and a second
disposal performs no further logout. -/
theorem auth_session_lifecycle (sid : String) (req : MwRequest) (reqs : List MwRequest) :
    runSeq (transportClient.use (authMw (pureHandler sid))) (req :: reqs) initWorld
        = (⟨some ⟨sid⟩, Ev.login :: (req :: reqs).map fun r => Ev.transport (injectSid r sid)⟩, .ok ())
  ∧ ((Ev.login :: (req :: reqs).map fun r => Ev.transport (injectSid r sid)).count Ev.login = 1)
  ∧ searchParamsGet (injectSid req sid).url.params "sid" = some sid
  ∧ (∀ ps, req.body = some ps →
        (injectSid req sid).body = some (searchParamsSet ps "sid" sid)
        ∧ searchParamsGet (searchParamsSet ps "sid" sid) "sid" = some sid)
  ∧ (transportClient.use (authMw (pureHandler sid))).dispose
        ⟨some ⟨sid⟩, Ev.login :: (req :: reqs).map fun r => Ev.transport (injectSid r sid)⟩
      = (⟨none, (Ev.login :: (req :: reqs).map fun r => Ev.transport (injectSid r sid))
            ++ [Ev.logout sid]⟩, .ok ())
  ∧ (∀ tr : List Ev,
        (transportClient.use (authMw (pureHandler sid))).dispose ⟨none, tr⟩ = (⟨none, tr⟩, .ok ())) := by
  refine ⟨?_, ?_, searchParamsGet_set _ _ _, ?_, rfl, fun tr => rfl⟩
  · have h1 : runSeq (transportClient.use (authMw (pureHandler sid))) (req :: reqs) initWorld
        = runSeq (transportClient.use (authMw (pureHandler sid))) reqs
            ⟨some ⟨sid⟩, [Ev.login, Ev.transport (injectSid req sid)]⟩ := rfl
    rw [h1, runSeq_authClient_authed sid reqs _ rfl]
    simp
  · simp [List.count_cons, count_login_map_transport]
  · intro ps hps
    exact ⟨by simp [injectSid, hps], searchParamsGet_set _ _ _⟩

/-- C7: `rawData` dispatches on the content type, lowercased with
parameters stripped: the json pair parses the body as JSON, the xml
pair parses it as an XML tree, anything else (an absent header
included) resolves with the raw body text; the `text/xml;
charset=utf-8` envelope of the test suite decodes to a structured
tree, which no raw-text result equals. -/
theorem rawData_content_type_dispatch :
    (∀ (r : HttpResponse) (t : Bool) (ct : String), responseOk r = true →
        headersGet r.headers "content-type" = some ct →
        ((normalizeContentType ct = "application/json" ∨ normalizeContentType ct = "text/json" →
            rawDataE r t = (match jsonParse r.body with
                            | some v => .ok (.json v)
                            | none => .error .jsonSyntaxError))
        ∧ (normalizeContentType ct = "application/xml" ∨ normalizeContentType ct = "text/xml" →
            rawDataE r t = (match parseXmlM r.body with
                            | some v => .ok (.xml v)
                            | none => .error .xmlSyntaxError))
        ∧ (normalizeContentType ct ∉ ["text/json", "application/json", "text/xml", "application/xml"] →
            rawDataE r t = .ok (.text r.body))))
  ∧ (∀ (r : HttpResponse) (t : Bool), responseOk r = true →
        headersGet r.headers "content-type" = none →
        rawDataE r t = .ok (.text r.body))
  ∧ rawDataE ⟨200, "OK", [("Content-Type", "text/xml; charset=utf-8")], "<test>data</test>"⟩ true
      = .ok (.xml (.node [("test", .text "data")]))
  ∧ (∀ s : String, Decoded.xml (.node [("test", .text "data")]) ≠ Decoded.text s) := by
  have hok : ∀ r : HttpResponse, responseOk r = true → ∀ t : Bool,
      rawDataE r t = rawDataDispatch r := by
    intro r hr t
    have : throwOnErrorE r = .ok () := by simp [throwOnErrorE, hr]
    cases t <;> simp [rawDataE, this]
  refine ⟨?_, ?_, rfl, fun s h => by cases h⟩
  · intro r t ct hr hct
    rw [hok r hr t]
    refine ⟨?_, ?_, ?_⟩
    · intro hn
      rw [rawDataDispatch]
      simp only [hct, Option.map_some']
      rw [if_pos]
      rcases hn with hn | hn <;> rw [hn]
      · exact Or.inr rfl
      · exact Or.inl rfl
    · intro hn
      rw [rawDataDispatch]
      simp only [hct, Option.map_some']
      rw [if_neg, if_pos]
      · rcases hn with hn | hn <;> rw [hn]
        · exact Or.inr rfl
        · exact Or.inl rfl
      · rcases hn with hn | hn <;> rw [hn] <;> simp
    · intro hn
      simp only [List.mem_cons, List.not_mem_nil, or_false, not_or] at hn
      obtain ⟨h1, h2, h3, h4⟩ := hn
      rw [rawDataDispatch]
      simp only [hct, Option.map_some']
      rw [if_neg, if_neg]
      · simp [h3, h4]
      · simp [h1, h2]
  · intro r t hr hct
    rw [hok r hr t, rawDataDispatch]
    simp [hct]

/-- C8 counterexample: a 500 response with `Content-Type:
application/json` and the non-JSON body `"x"` makes `data()` fail with
the `SyntaxError` of `Response.json`, which is not a `FritzError`
carrying the status. -/
theorem data_non_success_json_counterexample :
    dataE (fun d => Except.ok d)
        ⟨500, "Internal Server Error", [("Content-Type", "application/json")], "x"⟩ true
      = .error .jsonSyntaxError
  ∧ (∀ (st : Nat) (stx : String) (d : Decoded),
        ClientErr.jsonSyntaxError ≠ ClientErr.fritzError st stx d) :=
  ⟨rfl, fun _ _ _ h => ClientErr.noConfusion h⟩

/-- C8 (amended): on a non-success status, `data()` always fails — with
a `FritzError` carrying status, statusText and the decoded body when
the body decodes, and with the decode's own error otherwise; on a
success status `throwOnError` returns without error. -/
theorem data_non_success_failure_amended :
    (∀ (r : HttpResponse), responseOk r = false →
        (∀ d, rawDataDispatch r = .ok d →
            ∀ (α : Type) (validate : Decoded → Except ClientErr α),
              dataE validate r true = .error (.fritzError r.status r.statusText d))
      ∧ (∀ e, rawDataDispatch r = .error e →
            ∀ (α : Type) (validate : Decoded → Except ClientErr α),
              dataE validate r true = .error e))
  ∧ (∀ r : HttpResponse, responseOk r = true → throwOnErrorE r = .ok ()) := by
  constructor
  · intro r hr
    constructor
    · intro d hd α validate
      simp [dataE, rawDataE, throwOnErrorE, hr, hd]
    · intro e he α validate
      simp [dataE, rawDataE, throwOnErrorE, hr, he]
  · intro r hr
    simp [throwOnErrorE, hr]

/-- C9: the auth middleware hands the base client — not the composed
one — to the handler's login (and its dispose hook to logout), so a
handler that itself issues requests reaches the transport directly:
one request through the wrapped client yields exactly one login whose
challenge fetch is transported unmodified (no sid), and disposal
transports the logout through the base client. -/
theorem auth_uses_base_client :
    (∀ (c : ClientM AuthWorld) (h : IAuthHandler AuthWorld) (req : MwRequest),
        (c.use (authMw h)).executeRequest req
          = jsBind (getSession h c) fun info => c.executeRequest (injectSid req info.sid))
  ∧ (∀ (c : ClientM AuthWorld) (h : IAuthHandler AuthWorld),
        (c.use (authMw h)).dispose = jsBind (authDispose h c) fun _ => c.dispose)
  ∧ (∀ (sid : String) (req : MwRequest),
        (transportClient.use (authMw (requestingHandler sid))).executeRequest req initWorld
          = (⟨some ⟨sid⟩, [Ev.transport challengeReq, Ev.login,
              Ev.transport (injectSid req sid)]⟩, .ok okResponse))
  ∧ (∀ (sid : String) (req : MwRequest),
        (transportClient.use (authMw (requestingHandler sid))).dispose
            ⟨some ⟨sid⟩, [Ev.transport challengeReq, Ev.login, Ev.transport (injectSid req sid)]⟩
          = (⟨none, [Ev.transport challengeReq, Ev.login, Ev.transport (injectSid req sid),
              Ev.transport (logoutReq sid)]⟩, .ok ())) :=
  ⟨fun _ _ _ => rfl, fun _ _ => rfl, fun _ _ => rfl, fun _ _ => rfl⟩

/-- C10: when login rejects, the request propagates the failure without
reaching the transport and no session is stored; a following request
attempts login again; disposal in that state performs no logout. -/
theorem auth_login_failure_no_session :
    (∀ (msg : String) (req : MwRequest),
        (transportClient.use (authMw (failingHandler msg))).executeRequest req initWorld
          = (⟨none, [Ev.login]⟩, .error (.loginFailed msg)))
  ∧ (∀ (msg : String) (req1 req2 : MwRequest),
        (transportClient.use (authMw (failingHandler msg))).executeRequest req2
            ((transportClient.use (authMw (failingHandler msg))).executeRequest req1 initWorld).1
          = (⟨none, [Ev.login, Ev.login]⟩, .error (.loginFailed msg)))
  ∧ (∀ (msg : String) (req : MwRequest),
        (transportClient.use (authMw (failingHandler msg))).dispose
            ((transportClient.use (authMw (failingHandler msg))).executeRequest req initWorld).1
          = (⟨none, [Ev.login]⟩, .ok ())) :=
  ⟨fun _ _ => rfl, fun _ _ _ => rfl, fun _ _ => rfl⟩

set_option maxRecDepth 100000 in
/-- C2: on a well-formed V2 challenge the response is
`salt2 ++ "$" ++ hex(hash2)` with `hash1 = PBKDF2-HMAC-SHA256(utf8(pw),
salt1-bytes, iter1)` and `hash2 = PBKDF2-HMAC-SHA256(hash1, salt2-bytes,
iter2)`, both 32 bytes (256 bits); on the repository's V2 test vector
the response is the recorded string. -/
theorem challenge_v2_pbkdf2_formula :
    (∀ (ch pw iter1 salt1 iter2 salt2 : String) (sb1 sb2 : List Nat) (n1 n2 : Int),
        jsStartsWith ch "2$" = true →
        jsSplit ch '$' = ["2", iter1, salt1, iter2, salt2] →
        uint8ArrayFromHex (some salt1) = .ok sb1 →
        uint8ArrayFromHex (some salt2) = .ok sb2 →
        jsParseInt (some iter1) = some n1 →
        jsParseInt (some iter2) = some n2 →
        0 < n1 → n1 ≤ 4294967295 →
        0 < n2 → n2 ≤ 4294967295 →
        handleChallenge ch pw
          = .ok (salt2 ++ "$" ++ bytesToHex
              (pbkdf2Sha256 (pbkdf2Sha256 (utf8Encode pw) sb1 n1.toNat) sb2 n2.toNat))
        ∧ (pbkdf2Sha256 (utf8Encode pw) sb1 n1.toNat).length = 32
        ∧ (pbkdf2Sha256 (pbkdf2Sha256 (utf8Encode pw) sb1 n1.toNat) sb2 n2.toNat).length = 32)
  ∧ handleChallenge "2$10000$5A1711$2000$5A1722" "1example!"
      = .ok "5A1722$1798a1672bca7c6463d6b245f82b53703b0f50813401b03e4045a5861e689adb" := by
  constructor
  · intro ch pw iter1 salt1 iter2 salt2 sb1 sb2 n1 n2 hst hsp hx1 hx2 hp1 hp2 ha1 hb1 ha2 hb2
    refine ⟨?_, pbkdf2Sha256_length _ _ _, pbkdf2Sha256_length _ _ _⟩
    have hdisp : handleChallenge ch pw = handleChallengeV2 ch pw := by
      simp [handleChallenge, hst]
    rw [hdisp]
    simp only [handleChallengeV2, hsp]
    simp only [List.get?_cons_zero, List.get?_cons_succ]
    rw [hx1]
    simp only [exceptBind_ok]
    rw [hp1]
    simp only [deriveBitsPbkdf2]
    rw [if_neg (by omega), if_neg (by omega)]
    simp only [exceptBind_ok]
    rw [hx2]
    simp only [exceptBind_ok]
    rw [hp2]
    simp only [deriveBitsPbkdf2]
    rw [if_neg (by omega), if_neg (by omega)]
    simp only [exceptBind_ok, exceptPure, Option.getD]
  · exact handleChallengeV2_vector
